import Mathlib

/-!
# Players service: a shallow embedding of `internal/players`

The domain package of the players microservice (`model.go`, `service.go`) is
translated to Lean definitions.  Go values become Lean values, pointers that
may be nil become `Option`, Go `error` values become the inductive `GoError`
with its `Error()` text, and the collaborator interfaces (`Storage`, `Hasher`,
`Notifier`, the UUID generator and the clock) become state-passing functions
over an arbitrary world state.  Logging calls have no effect on any result and
are not embedded.
-/

namespace Players

/-! ## Go errors -/

/-- Go error values built by the package: `errors.New`, `errors.Join`,
`fmt.Errorf("<prefix>%w", err)` and `*PlayerAlreadyExistsError`. -/
inductive GoError where
  | new (msg : String)
  | join (errs : List GoError)
  | wrap (pfx : String) (inner : GoError)
  | alreadyExists (wasEmail wasNickname : Bool)
  deriving Repr

mutual
/-- The `Error()` method of each error value. For a joined error the texts of
the members are concatenated with a newline between them; for `fmt.Errorf` with
a trailing `%w` the text is the prefix followed by the text of the cause. -/
def GoError.Error : GoError → String
  | .new msg => msg
  | .join errs => GoError.joinText errs
  | .wrap pfx inner => pfx ++ inner.Error
  | .alreadyExists wasEmail wasNickname =>
    if wasEmail && wasNickname then
      "player with the given email or nickname already exists"
    else if wasEmail then
      "player with the given email already exists"
    else
      "player with the given nickname already exists"
/-- Body of `(*joinError).Error`: first text, then newline and text for each
further member. -/
def GoError.joinText : List GoError → String
  | [] => ""
  | [e] => e.Error
  | e :: es => e.Error ++ "\n" ++ GoError.joinText es
end

/-- Go `errors.Join`: nil arguments are discarded, nil is returned when nothing
is left, otherwise a joined error holding the remaining values in order. -/
def errorsJoin (errs : List (Option GoError)) : Option GoError :=
  match errs.filterMap id with
  | [] => none
  | es => some (GoError.join es)

/-- Go `fmt.Errorf(pfx + "%w", err)`. -/
def fmtErrorf (pfx : String) (err : GoError) : GoError := GoError.wrap pfx err

def ErrInvalidPlayerID : GoError := .new "invalid player id"
def ErrPlayerDoesNotExist : GoError := .new "player doesn't exist"
def errEmptyFirstName : GoError := .new "first name is empty"
def errEmptyLastName : GoError := .new "last name is empty"
def errEmptyNickname : GoError := .new "nickname is empty"
def errEmptyCountry : GoError := .new "country is empty"
def errEmptyPassword : GoError := .new "password is empty"
def errEmptyEmail : GoError := .new "email is empty"

/-! ## Data model (`model.go`) -/

/-- Go `[]byte`. -/
abbrev Bytes := List Nat

/-- Go `time.Time` in UTC, as an instant counted in nanoseconds. -/
abbrev Time := Nat

/-- Go `mail.Address`. -/
structure MailAddress where
  Name : String
  Address : String
  deriving DecidableEq, Repr

/-- Go `PlayerID`, a `uuid.UUID`: sixteen bytes read as one 128-bit number. -/
structure PlayerID where
  value : Nat
  deriving DecidableEq, Repr

structure Player where
  ID : Option PlayerID
  FirstName : String
  LastName : String
  Nickname : String
  Email : MailAddress
  Password : Bytes
  Country : String
  DateCreated : Time
  DateUpdated : Time
  deriving DecidableEq, Repr

structure NewPlayer where
  FirstName : String
  LastName : String
  Nickname : String
  Email : MailAddress
  Password : String
  Country : String
  deriving DecidableEq, Repr

structure UpdatePlayer where
  ID : PlayerID
  FirstName : Option String
  LastName : Option String
  Nickname : Option String
  Email : Option MailAddress
  Password : Option String
  Country : Option String
  deriving DecidableEq, Repr

structure PlayerFilter where
  Email : String
  Nickname : String
  IgnoreID : Option PlayerID
  deriving DecidableEq, Repr

structure PlayerExistResult where
  EmailExist : Bool
  NicknameExist : Bool
  deriving DecidableEq, Repr

/-- Search criteria; `Limit` and `Offset` are Go `uint16` values. -/
structure SearchCriteria where
  Country : Option String
  Limit : Nat
  Offset : Nat
  deriving DecidableEq, Repr

structure PlayerItem where
  ID : PlayerID
  FirstName : String
  LastName : String
  Nickname : String
  Country : String
  deriving DecidableEq, Repr

structure SearchResult where
  Items : List PlayerItem
  Total : Int
  Limit : Nat
  Offset : Nat
  deriving DecidableEq, Repr

structure NewEvent where
  PlayerID : String
  Event : String
  deriving DecidableEq, Repr

/-- Result of `UpdatePlayer.toPlayer`. -/
structure updateToPlayerResult where
  player : Option Player
  changes : Bool
  deriving DecidableEq, Repr

def PlayerExistResult.toPlayerAlreadyExistsError (u : PlayerExistResult) : GoError :=
  .alreadyExists u.EmailExist u.NicknameExist

def PlayerExistResult.Exist (u : PlayerExistResult) : Bool :=
  u.EmailExist || u.NicknameExist

def NewPlayer.Validate (n : NewPlayer) : Option GoError :=
  let err : Option GoError := none
  let err := if n.FirstName = "" then errorsJoin [err, some errEmptyFirstName] else err
  let err := if n.LastName = "" then errorsJoin [err, some errEmptyLastName] else err
  let err := if n.Nickname = "" then errorsJoin [err, some errEmptyNickname] else err
  let err := if n.Email.Address = "" then errorsJoin [err, some errEmptyEmail] else err
  let err := if n.Country = "" then errorsJoin [err, some errEmptyCountry] else err
  let err := if n.Password = "" then errorsJoin [err, some errEmptyPassword] else err
  err

def isStringEmpty (value : Option String) : Bool :=
  match value with
  | none => false
  | some v => v = ""

def areStringDifferent (newValue : Option String) (oldValue : String) : Bool :=
  match newValue with
  | none => false
  | some v => if v = "" then false else v != oldValue

def UpdatePlayer.Validate (u : UpdatePlayer) : Option GoError :=
  let err : Option GoError := none
  let err := if isStringEmpty u.FirstName then errorsJoin [err, some errEmptyFirstName] else err
  let err := if isStringEmpty u.LastName then errorsJoin [err, some errEmptyLastName] else err
  let err := if isStringEmpty u.Nickname then errorsJoin [err, some errEmptyNickname] else err
  let err :=
    if (match u.Email with
        | none => false
        | some e => e.Address = "") then errorsJoin [err, some errEmptyEmail] else err
  let err := if isStringEmpty u.Country then errorsJoin [err, some errEmptyCountry] else err
  let err := if isStringEmpty u.Password then errorsJoin [err, some errEmptyPassword] else err
  err

def UpdatePlayer.updateKeyValues (u : UpdatePlayer) : Bool :=
  u.Email.isSome || u.Nickname.isSome

def NewPlayer.toPlayerFilter (n : NewPlayer) : PlayerFilter :=
  { Email := n.Email.Address, Nickname := n.Nickname, IgnoreID := none }

def UpdatePlayer.toPlayerFilter (u : UpdatePlayer) : PlayerFilter :=
  let newPlayerFilter : PlayerFilter := { Email := "", Nickname := "", IgnoreID := none }
  let newPlayerFilter := { newPlayerFilter with IgnoreID := some u.ID }
  let newPlayerFilter :=
    match u.Email with
    | some e => { newPlayerFilter with Email := e.Address }
    | none => newPlayerFilter
  let newPlayerFilter :=
    match u.Nickname with
    | some v => { newPlayerFilter with Nickname := v }
    | none => newPlayerFilter
  newPlayerFilter

def SearchCriteria.isEmpty (s : SearchCriteria) : Bool :=
  let empty := true
  let empty := if !isStringEmpty s.Country then false else empty
  empty

def SearchCriteria.setDefaultPaginationIfEmpty (s : SearchCriteria) : SearchCriteria :=
  if s.Limit = 0 then { s with Limit := 5 } else s

def newEmptySearchResult : SearchResult :=
  { Items := [], Total := 0, Limit := 0, Offset := 0 }

/-- Two lowercase hexadecimal digits of one byte. -/
def hexByte (b : Nat) : String :=
  String.mk [Nat.digitChar (b / 16 % 16), Nat.digitChar (b % 16)]

/-- Hexadecimal text of the bytes `first .. first + count - 1` of a 128-bit
identifier, most significant byte first. -/
def hexBytes (value first count : Nat) : String :=
  String.join ((List.range count).map fun i => hexByte (value / 256 ^ (15 - (first + i)) % 256))

/-- The `String()` method of `PlayerID`, the canonical UUID text
`xxxxxxxx-xxxx-xxxx-xxxx-xxxxxxxxxxxx`. -/
def PlayerID.String (u : PlayerID) : String :=
  hexBytes u.value 0 4 ++ "-" ++ hexBytes u.value 4 2 ++ "-" ++ hexBytes u.value 6 2 ++ "-" ++
    hexBytes u.value 8 2 ++ "-" ++ hexBytes u.value 10 6

/-- Event built by `newCreatePlayerEvent`; the argument is a `*PlayerID` and
`playerID.String()` dereferences it, so a nil pointer gives no event (the Go
code panics there). -/
def newCreatePlayerEvent (playerID : Option PlayerID) : Option NewEvent :=
  playerID.map fun id => { PlayerID := id.String, Event := "new player was created" }

/-- Event built by `newUpdatePlayerEvent`; nil pointer as in
`newCreatePlayerEvent`. -/
def newUpdatePlayerEvent (playerID : Option PlayerID) : Option NewEvent :=
  playerID.map fun id => { PlayerID := id.String, Event := "player was updated" }

def newDeletePlayerEvent (playerID : PlayerID) : NewEvent :=
  { PlayerID := playerID.String, Event := "player was deleted" }

/-! ## Collaborators and runs -/

/-- The collaborators of the service over a world state `σ`: the `Hasher`,
`Storage` and `Notifier` interfaces, the UUID generator behind `newPlayerID`
and the clock behind `time.Now().UTC()`. Every operation may read and change
the world. `GetByID` yields `none` for a nil player pointer,
`GetPlayersWithEmailOrNickName` and `Search` yield `none` for a nil result
pointer returned together with a nil error. -/
structure Env (σ : Type) where
  Hash : String → σ → Except GoError Bytes × σ
  Save : Player → σ → Option GoError × σ
  Update : Player → σ → Option GoError × σ
  Delete : PlayerID → σ → Option GoError × σ
  GetByID : PlayerID → σ → Except GoError (Option Player) × σ
  GetPlayersWithEmailOrNickName : PlayerFilter → σ → Except GoError (Option PlayerExistResult) × σ
  Search : SearchCriteria → σ → Except GoError (Option SearchResult) × σ
  Notify : NewEvent → σ → σ
  newUUID : σ → PlayerID × σ
  timeNow : σ → Time × σ

/-- One invocation of a collaborator method, with its arguments. -/
inductive Call where
  | Hash (password : String)
  | Save (player : Player)
  | Update (player : Player)
  | Delete (playerID : PlayerID)
  | GetByID (id : PlayerID)
  | GetPlayersWithEmailOrNickName (filter : PlayerFilter)
  | Search (searchCriteria : SearchCriteria)
  | Notify (event : NewEvent)
  deriving DecidableEq, Repr

/-- State of a run: the world of the collaborators and the log of the
collaborator methods invoked so far, oldest first. -/
structure Run (σ : Type) where
  world : σ
  calls : List Call

/-- What a service method does: return a value, return an error, or panic on a
nil pointer dereference. -/
inductive Outcome (α : Type) where
  | ok (value : α)
  | error (err : GoError)
  | panic
  deriving Repr

variable {σ : Type}

def Env.callHash (env : Env σ) (password : String) (s : Run σ) : Except GoError Bytes × Run σ :=
  ((env.Hash password s.world).1, ⟨(env.Hash password s.world).2, s.calls ++ [Call.Hash password]⟩)

def Env.callSave (env : Env σ) (player : Player) (s : Run σ) : Option GoError × Run σ :=
  ((env.Save player s.world).1, ⟨(env.Save player s.world).2, s.calls ++ [Call.Save player]⟩)

def Env.callUpdate (env : Env σ) (player : Player) (s : Run σ) : Option GoError × Run σ :=
  ((env.Update player s.world).1, ⟨(env.Update player s.world).2, s.calls ++ [Call.Update player]⟩)

def Env.callDelete (env : Env σ) (playerID : PlayerID) (s : Run σ) : Option GoError × Run σ :=
  ((env.Delete playerID s.world).1,
    ⟨(env.Delete playerID s.world).2, s.calls ++ [Call.Delete playerID]⟩)

def Env.callGetByID (env : Env σ) (id : PlayerID) (s : Run σ) :
    Except GoError (Option Player) × Run σ :=
  ((env.GetByID id s.world).1, ⟨(env.GetByID id s.world).2, s.calls ++ [Call.GetByID id]⟩)

def Env.callGetPlayersWithEmailOrNickName (env : Env σ) (filter : PlayerFilter) (s : Run σ) :
    Except GoError (Option PlayerExistResult) × Run σ :=
  ((env.GetPlayersWithEmailOrNickName filter s.world).1,
    ⟨(env.GetPlayersWithEmailOrNickName filter s.world).2,
      s.calls ++ [Call.GetPlayersWithEmailOrNickName filter]⟩)

def Env.callSearch (env : Env σ) (searchCriteria : SearchCriteria) (s : Run σ) :
    Except GoError (Option SearchResult) × Run σ :=
  ((env.Search searchCriteria s.world).1,
    ⟨(env.Search searchCriteria s.world).2, s.calls ++ [Call.Search searchCriteria]⟩)

def Env.callNotify (env : Env σ) (event : NewEvent) (s : Run σ) : Run σ :=
  ⟨env.Notify event s.world, s.calls ++ [Call.Notify event]⟩

/-- Go `newPlayerID()`. -/
def newPlayerID (env : Env σ) (s : Run σ) : PlayerID × Run σ :=
  ((env.newUUID s.world).1, ⟨(env.newUUID s.world).2, s.calls⟩)

/-- Go `time.Now().UTC()`. -/
def timeNowUTC (env : Env σ) (s : Run σ) : Time × Run σ :=
  ((env.timeNow s.world).1, ⟨(env.timeNow s.world).2, s.calls⟩)

def NewPlayer.toPlayer (env : Env σ) (n : NewPlayer) (hashedPassword : Bytes) (s : Run σ) :
    Player × Run σ :=
  let newPlayerID := newPlayerID env s
  let now := timeNowUTC env newPlayerID.2
  ({ ID := some newPlayerID.1
     FirstName := n.FirstName
     LastName := n.LastName
     Nickname := n.Nickname
     Email := n.Email
     Password := hashedPassword
     Country := n.Country
     DateCreated := now.1
     DateUpdated := now.1 }, now.2)

/-- Last step of `UpdatePlayer.toPlayer` (`if result.changes { ... }`): when a
change was recorded the clock is read, `DateUpdated` is set and the merged
player becomes the replacement. -/
def UpdatePlayer.toPlayerFinish (env : Env σ) (result : updateToPlayerResult) (player : Player)
    (s : Run σ) : Except GoError updateToPlayerResult × Run σ :=
  if result.changes then
    let now := timeNowUTC env s
    (.ok { result with player := some { player with DateUpdated := now.1 } }, now.2)
  else
    (.ok result, s)

/-- Go `UpdatePlayer.toPlayer`: merges the present and different fields into
a copy of `player`. A field pointer is dereferenced only under a guard that
has found it non-nil. -/
def UpdatePlayer.toPlayer (env : Env σ) (u : UpdatePlayer) (player : Player) (s : Run σ) :
    Except GoError updateToPlayerResult × Run σ :=
  let result : updateToPlayerResult := { player := none, changes := false }
  let (result, player) :=
    if areStringDifferent u.FirstName player.FirstName then
      ({ result with changes := true }, { player with FirstName := u.FirstName.getD "" })
    else (result, player)
  let (result, player) :=
    if areStringDifferent u.LastName player.LastName then
      ({ result with changes := true }, { player with LastName := u.LastName.getD "" })
    else (result, player)
  let (result, player) :=
    if areStringDifferent u.Nickname player.Nickname then
      ({ result with changes := true }, { player with Nickname := u.Nickname.getD "" })
    else (result, player)
  let (result, player) :=
    if areStringDifferent u.Country player.Country then
      ({ result with changes := true }, { player with Country := u.Country.getD "" })
    else (result, player)
  let (result, player) :=
    match u.Email with
    | some e =>
      if e.Address ≠ player.Email.Address then
        ({ result with changes := true }, { player with Email := e })
      else (result, player)
    | none => (result, player)
  match u.Password with
  | some password =>
    let result := { result with changes := true }
    let h := env.callHash password s
    match h.1 with
    | .error err => (.error (fmtErrorf "unable to hash password: " err), h.2)
    | .ok hashedPassword =>
      UpdatePlayer.toPlayerFinish env result { player with Password := hashedPassword } h.2
  | none => UpdatePlayer.toPlayerFinish env result player s

/-! ## The service (`service.go`) -/

def Service.doesThePlayerAlreadyExist (env : Env σ) (playerFilter : PlayerFilter) (s : Run σ) :
    Except GoError (Option PlayerExistResult) × Run σ :=
  let r := env.callGetPlayersWithEmailOrNickName playerFilter s
  match r.1 with
  | .error err => (.error (fmtErrorf "unable to check if player already exists: " err), r.2)
  | .ok playerWithEmailOrNickname => (.ok playerWithEmailOrNickname, r.2)

def Service.Create (env : Env σ) (newPlayer : NewPlayer) (s : Run σ) : Outcome Player × Run σ :=
  match newPlayer.Validate with
  | some err => (.error (fmtErrorf "unable to create player: " err), s)
  | none =>
    let h := env.callHash newPlayer.Password s
    match h.1 with
    | .error err => (.error (fmtErrorf "unable to hash password: " err), h.2)
    | .ok hashedPassword =>
      let c := Service.doesThePlayerAlreadyExist env newPlayer.toPlayerFilter h.2
      match c.1 with
      | .error err => (.error (fmtErrorf "unable to create player: " err), c.2)
      | .ok none => (.panic, c.2)
      | .ok (some checkExistResult) =>
        if checkExistResult.Exist then
          (.error checkExistResult.toPlayerAlreadyExistsError, c.2)
        else
          let player := newPlayer.toPlayer env hashedPassword c.2
          let sv := env.callSave player.1 player.2
          match sv.1 with
          | some err => (.error (fmtErrorf "unable to create player: " err), sv.2)
          | none =>
            match newCreatePlayerEvent player.1.ID with
            | none => (.panic, sv.2)
            | some event => (.ok player.1, env.callNotify event sv.2)

/-- The existence check at the head of `Service.Update`, run only when the
patch carries an email or a nickname. `none` means the update goes on. -/
def Service.updateExistCheck (env : Env σ) (updatePlayer : UpdatePlayer) (s : Run σ) :
    Option (Outcome Player) × Run σ :=
  if updatePlayer.updateKeyValues then
    let c := Service.doesThePlayerAlreadyExist env updatePlayer.toPlayerFilter s
    match c.1 with
    | .error err => (some (.error (fmtErrorf "unable to update player: " err)), c.2)
    | .ok none => (some .panic, c.2)
    | .ok (some playerExistResult) =>
      if playerExistResult.Exist then
        (some (.error playerExistResult.toPlayerAlreadyExistsError), c.2)
      else (none, c.2)
  else (none, s)

def Service.Update (env : Env σ) (updatePlayer : UpdatePlayer) (s : Run σ) :
    Outcome Player × Run σ :=
  match updatePlayer.Validate with
  | some err => (.error (fmtErrorf "unable to update player: " err), s)
  | none =>
    let c := Service.updateExistCheck env updatePlayer s
    match c.1 with
    | some out => (out, c.2)
    | none =>
      let g := env.callGetByID updatePlayer.ID c.2
      match g.1 with
      | .error err => (.error (fmtErrorf "unable to update player: " err), g.2)
      | .ok none => (.error ErrPlayerDoesNotExist, g.2)
      | .ok (some player) =>
        let t := updatePlayer.toPlayer env player g.2
        match t.1 with
        | .error err => (.error (fmtErrorf "unable to update player: " err), t.2)
        | .ok playerToUpdate =>
          if !playerToUpdate.changes then (.ok player, t.2)
          else
            match playerToUpdate.player with
            | none => (.panic, t.2)
            | some updated =>
              let up := env.callUpdate updated t.2
              match up.1 with
              | some err => (.error (fmtErrorf "unable to update player: " err), up.2)
              | none =>
                match newUpdatePlayerEvent player.ID with
                | none => (.panic, up.2)
                | some event => (.ok updated, env.callNotify event up.2)

def Service.Delete (env : Env σ) (playerID : PlayerID) (s : Run σ) : Outcome Unit × Run σ :=
  let g := env.callGetByID playerID s
  match g.1 with
  | .error err => (.error (fmtErrorf "unable to delete player: " err), g.2)
  | .ok none => (.error ErrPlayerDoesNotExist, g.2)
  | .ok (some _) =>
    let d := env.callDelete playerID g.2
    match d.1 with
    | some err => (.error (fmtErrorf "unable to delete player: " err), d.2)
    | none => (.ok (), env.callNotify (newDeletePlayerEvent playerID) d.2)

def Service.List (env : Env σ) (searchCriteria : SearchCriteria) (s : Run σ) :
    Outcome (Option SearchResult) × Run σ :=
  if searchCriteria.isEmpty then (.ok (some newEmptySearchResult), s)
  else
    let searchCriteria := searchCriteria.setDefaultPaginationIfEmpty
    let r := env.callSearch searchCriteria s
    match r.1 with
    | .error err => (.error (fmtErrorf "unable to list players: " err), r.2)
    | .ok result => (.ok result, r.2)

/-! ## Environments used to run the service on concrete inputs -/

/-- Return values configured on the test doubles of `appkit/unittests`
(`MockHasher`, `MockStorage`, `MockNotifier`): every method answers with the
value configured for it, whatever its arguments. -/
structure MockReturns where
  Hash : Except GoError Bytes
  Save : Option GoError
  Update : Option GoError
  Delete : Option GoError
  GetByID : Except GoError (Option Player)
  GetPlayersWithEmailOrNickName : Except GoError (Option PlayerExistResult)
  Search : Except GoError (Option SearchResult)
  uuid : PlayerID
  now : Time

/-- Collaborators answering with the configured return values. -/
def mockEnv (m : MockReturns) : Env Unit where
  Hash := fun _ w => (m.Hash, w)
  Save := fun _ w => (m.Save, w)
  Update := fun _ w => (m.Update, w)
  Delete := fun _ w => (m.Delete, w)
  GetByID := fun _ w => (m.GetByID, w)
  GetPlayersWithEmailOrNickName := fun _ w => (m.GetPlayersWithEmailOrNickName, w)
  Search := fun _ w => (m.Search, w)
  Notify := fun _ w => w
  newUUID := fun w => (m.uuid, w)
  timeNow := fun w => (m.now, w)

/-- World of the in-memory storage: the saved records, the events handed to
the notifier, a counter feeding the UUID generator and the clock. -/
structure MemWorld where
  players : List Player
  notified : List NewEvent
  nextID : Nat
  clock : Time
  deriving DecidableEq, Repr

/-- The rows the existence check counts: all records, or those whose id
differs from the one to ignore (`AND id <> $3`). -/
def MemWorld.rowsFor (w : MemWorld) (ignoreID : Option PlayerID) : List Player :=
  match ignoreID with
  | none => w.players
  | some id => w.players.filter fun q => q.ID ≠ some id

/-- An in-memory storage that keeps every saved player and whose existence
check follows the two `COUNT(*)` queries of the relational storage: it
reports the email address and the nickname of every saved player. Its search
follows `buildSQLFilters`: the rows are those of the country when one is
given and not empty, and every row otherwise. The hasher is any function of
the plaintext. -/
def memEnv (hasher : String → Except GoError Bytes) : Env MemWorld where
  Hash := fun password w => (hasher password, w)
  Save := fun player w => (none, { w with players := w.players ++ [player] })
  Update := fun player w =>
    (none, { w with players := w.players.map fun q => if q.ID = player.ID then player else q })
  Delete := fun id w => (none, { w with players := w.players.filter fun q => q.ID ≠ some id })
  GetByID := fun id w => (.ok (w.players.find? fun q => q.ID = some id), w)
  GetPlayersWithEmailOrNickName := fun filter w =>
    (.ok (some
      { EmailExist := (w.rowsFor filter.IgnoreID).any fun q => q.Email.Address = filter.Email
        NicknameExist := (w.rowsFor filter.IgnoreID).any fun q => q.Nickname = filter.Nickname }), w)
  Search := fun criteria w =>
    let found : List Player := match criteria.Country with
      | some country =>
        if country ≠ "" then w.players.filter fun (q : Player) => q.Country = country
        else w.players
      | none => w.players
    let items := found.filterMap fun q =>
      q.ID.map fun id => ({ ID := id, FirstName := q.FirstName, LastName := q.LastName,
                            Nickname := q.Nickname, Country := q.Country } : PlayerItem)
    (.ok (some { Items := (items.drop criteria.Offset).take criteria.Limit
                 Total := found.length
                 Limit := criteria.Limit
                 Offset := criteria.Offset }), w)
  Notify := fun event w => { w with notified := w.notified ++ [event] }
  newUUID := fun w => (⟨w.nextID⟩, { w with nextID := w.nextID + 1 })
  timeNow := fun w => (w.clock, { w with clock := w.clock + 1 })

/-- The calls a run has added to the log of the state it started from. -/
def newCalls (before after : Run σ) : List Call :=
  after.calls.drop before.calls.length

/-! ## Stages of `Service.Create` and `Service.Update`

The intermediate results of a run, named so that statements can speak about
what a collaborator answered when the service called it. -/

/-- Result of the `s.hasher.Hash(newPlayer.Password)` call of `Service.Create`. -/
def Service.createHashed (env : Env σ) (n : NewPlayer) (s : Run σ) :
    Except GoError Bytes × Run σ :=
  env.callHash n.Password s

/-- Result of the existence check of `Service.Create`, which runs after the
hasher. -/
def Service.createChecked (env : Env σ) (n : NewPlayer) (s : Run σ) :
    Except GoError (Option PlayerExistResult) × Run σ :=
  Service.doesThePlayerAlreadyExist env n.toPlayerFilter (Service.createHashed env n s).2

/-- The player `Service.Create` builds from the hash `h`, after the existence
check. -/
def Service.createBuilt (env : Env σ) (n : NewPlayer) (s : Run σ) (h : Bytes) : Player × Run σ :=
  n.toPlayer env h (Service.createChecked env n s).2

/-- Result of the `s.storage.Save(ctx, player)` call of `Service.Create`. -/
def Service.createSaved (env : Env σ) (n : NewPlayer) (s : Run σ) (h : Bytes) :
    Option GoError × Run σ :=
  env.callSave (Service.createBuilt env n s h).1 (Service.createBuilt env n s h).2

/-- Result of the `s.storage.GetByID(ctx, updatePlayer.ID)` call of
`Service.Update`, which runs after the existence check. -/
def Service.updateLoaded (env : Env σ) (u : UpdatePlayer) (s : Run σ) :
    Except GoError (Option Player) × Run σ :=
  env.callGetByID u.ID (Service.updateExistCheck env u s).2

def Call.isNotify : Call → Bool
  | .Notify _ => true
  | _ => false

def Call.isSave : Call → Bool
  | .Save _ => true
  | _ => false

def Call.isUpdate : Call → Bool
  | .Update _ => true
  | _ => false

/-! ## Fixtures of the unit tests -/

/-- The `NewPlayerFixture` of `appkit/unittests`. -/
def NewPlayerFixture : NewPlayer :=
  { FirstName := "Fernando"
    LastName := "Ocampo"
    Nickname := "focampo"
    Email := { Name := "", Address := "focampo@anyemail.com" }
    Password := "th1s1s@dummypwd"
    Country := "Spain" }

/-- The hash the unit tests configure on the hasher double, shortened. -/
def dummyHash : Bytes := [36, 50, 97, 36, 48, 52, 36]

/-- Test doubles of `TestCreatePlayer`: the hasher returns `dummyHash`, the
existence check reports the given result, `Save` returns the given error. -/
def createMocks (exist : PlayerExistResult) (save : Option GoError) : MockReturns :=
  { Hash := .ok dummyHash
    Save := save
    Update := none
    Delete := none
    GetByID := .ok none
    GetPlayersWithEmailOrNickName := .ok (some exist)
    Search := .ok none
    uuid := ⟨0xb10d6af522f34db2ade694cfcc819f91⟩
    now := 1700000000 }

/-- A run that starts with an empty call log on the test doubles. -/
def mockStart : Run Unit := ⟨(), []⟩

/-- A run that starts on an empty in-memory storage. -/
def memStart : Run MemWorld := ⟨⟨[], [], 1, 1000⟩, []⟩

/-- A hasher that, like bcrypt, refuses a password longer than 72 bytes with
the error of the `cryptos` adapter and hashes every other password. -/
def limitedHasher (password : String) : Except GoError Bytes :=
  if password.utf8ByteSize > 72 then .error (.new "unable to hash password") else .ok dummyHash

/-- A password of 73 characters, each of one byte. -/
def longPassword : String := String.mk (List.replicate 73 'a')

/-- A stored player, as the update tests load it from the storage double. -/
def storedPlayer : Player :=
  { ID := some ⟨0xb10d6af522f34db2ade694cfcc819f91⟩
    FirstName := "Fernando"
    LastName := "Ocampo"
    Nickname := "focampo"
    Email := { Name := "", Address := "focampo@anyemail.com" }
    Password := dummyHash
    Country := "Spain"
    DateCreated := 1600000000
    DateUpdated := 1600000000 }

/-- Test doubles of the update tests: `GetByID` returns the given record, the
existence check the given result, `Update` the given error. -/
def updateMocks (stored : Option Player) (exist : PlayerExistResult) (update : Option GoError) :
    MockReturns :=
  { Hash := .ok dummyHash
    Save := none
    Update := update
    Delete := none
    GetByID := .ok stored
    GetPlayersWithEmailOrNickName := .ok (some exist)
    Search := .ok none
    uuid := ⟨0⟩
    now := 1700000000 }

/-! ## Stages of the update, delete and list runs -/

/-- Result of the `updatePlayer.toPlayer(*player, s.hasher)` call of
`Service.Update` on the loaded player `p`. -/
def Service.updateMerged (env : Env σ) (u : UpdatePlayer) (s : Run σ) (p : Player) :
    Except GoError updateToPlayerResult × Run σ :=
  u.toPlayer env p (Service.updateLoaded env u s).2

/-- Result of the `s.storage.Update(ctx, *playerToUpdate.player)` call of
`Service.Update` on the replacement player `q`. -/
def Service.updatePersisted (env : Env σ) (u : UpdatePlayer) (s : Run σ) (p q : Player) :
    Option GoError × Run σ :=
  env.callUpdate q (Service.updateMerged env u s p).2

/-- Result of the `s.storage.GetByID(ctx, playerID)` call of `Service.Delete`. -/
def Service.deleteLoaded (env : Env σ) (playerID : PlayerID) (s : Run σ) :
    Except GoError (Option Player) × Run σ :=
  env.callGetByID playerID s

/-- Result of the `s.storage.Delete(ctx, playerID)` call of `Service.Delete`. -/
def Service.deleteDeleted (env : Env σ) (playerID : PlayerID) (s : Run σ) :
    Option GoError × Run σ :=
  env.callDelete playerID (Service.deleteLoaded env playerID s).2

/-- Result of the `s.storage.Search(ctx, searchCriteria)` call of
`Service.List`, made with the criteria after the default pagination. -/
def Service.listSearched (env : Env σ) (searchCriteria : SearchCriteria) (s : Run σ) :
    Except GoError (Option SearchResult) × Run σ :=
  env.callSearch searchCriteria.setDefaultPaginationIfEmpty s

def Call.isDelete : Call → Bool
  | .Delete _ => true
  | _ => false

def Call.isSearch : Call → Bool
  | .Search _ => true
  | _ => false

def Call.isGetByID : Call → Bool
  | .GetByID _ => true
  | _ => false

def Call.isExistCheck : Call → Bool
  | .GetPlayersWithEmailOrNickName _ => true
  | _ => false

def Call.isHash : Call → Bool
  | .Hash _ => true
  | _ => false

/-- The fields of the stored player `p` after the five field steps of
`UpdatePlayer.toPlayer`: a string field takes the value of the patch when
`areStringDifferent` holds, the email takes the patch's when its address
differs from the stored address; everything else is `p`'s. -/
def UpdatePlayer.mergeFields (u : UpdatePlayer) (p : Player) : Player :=
  { p with
    FirstName := if areStringDifferent u.FirstName p.FirstName then u.FirstName.getD ""
      else p.FirstName
    LastName := if areStringDifferent u.LastName p.LastName then u.LastName.getD ""
      else p.LastName
    Nickname := if areStringDifferent u.Nickname p.Nickname then u.Nickname.getD ""
      else p.Nickname
    Country := if areStringDifferent u.Country p.Country then u.Country.getD "" else p.Country
    Email :=
      match u.Email with
      | some e => if e.Address ≠ p.Email.Address then e else p.Email
      | none => p.Email }

/-- Whether one of the five field steps of `UpdatePlayer.toPlayer` records a
change. -/
def UpdatePlayer.fieldsChanged (u : UpdatePlayer) (p : Player) : Bool :=
  areStringDifferent u.FirstName p.FirstName || areStringDifferent u.LastName p.LastName ||
    areStringDifferent u.Nickname p.Nickname || areStringDifferent u.Country p.Country ||
    (match u.Email with
     | some e => decide (e.Address ≠ p.Email.Address)
     | none => false)

/-- The patch of `TestUpdatePlayer`: a new email and a new password for the
stored player. -/
def UpdatePlayerFixture : UpdatePlayer :=
  { ID := ⟨0xb10d6af522f34db2ade694cfcc819f91⟩
    FirstName := none
    LastName := none
    Nickname := none
    Email := some { Name := "", Address := "focampo@anotheremail.com" }
    Password := some "newpwd"
    Country := none }

/-- Test doubles of the delete tests: `GetByID` returns the given record and
`Delete` the given error. -/
def deleteMocks (stored : Option Player) (delete : Option GoError) : MockReturns :=
  { Hash := .ok dummyHash
    Save := none
    Update := none
    Delete := delete
    GetByID := .ok stored
    GetPlayersWithEmailOrNickName := .ok none
    Search := .ok none
    uuid := ⟨0⟩
    now := 1700000000 }

/-- Test doubles of the search tests: `Search` returns the given answer. -/
def searchMocks (search : Except GoError (Option SearchResult)) : MockReturns :=
  { Hash := .ok dummyHash
    Save := none
    Update := none
    Delete := none
    GetByID := .ok none
    GetPlayersWithEmailOrNickName := .ok none
    Search := search
    uuid := ⟨0⟩
    now := 1700000000 }

/-- The items of `SearchPlayersResultFixture`. -/
def SearchPlayersResultFixture : List PlayerItem :=
  [ { ID := ⟨0xb10d6af522f34db2ade694cfcc819f91⟩, FirstName := "Jim", LastName := "Raynor",
      Nickname := "jraynor", Country := "UK" },
    { ID := ⟨0x8b1cb38ad21c4e36b7f0814f96180b5e⟩, FirstName := "Sarah", LastName := "Kerrigan",
      Nickname := "skerrigan", Country := "UK" },
    { ID := ⟨0xf7ee12ee191d4f7e819edbb7b115bed2⟩, FirstName := "Graven", LastName := "Hill",
      Nickname := "ghill", Country := "UK" } ]

/-! ## Endpoints (`endpoint.go`) -/

structure CreatePlayerResult where
  ID : Option PlayerID
  Err : String
  deriving DecidableEq, Repr

structure UpdatePlayerResult where
  Err : String
  deriving DecidableEq, Repr

structure DeletePlayerResult where
  Err : String
  deriving DecidableEq, Repr

structure SearchPlayersDataResult where
  SearchResult : Option SearchResult
  Err : String
  deriving DecidableEq, Repr

/-- The text an endpoint result carries for a Go `error`: empty for nil. -/
def errMessage (err : Option GoError) : String :=
  match err with
  | some e => e.Error
  | none => ""

def newCreatePlayerResult (playerID : Option PlayerID) (err : Option GoError) :
    CreatePlayerResult :=
  { ID := playerID, Err := errMessage err }

def newUpdatePlayerResult (err : Option GoError) : UpdatePlayerResult :=
  { Err := errMessage err }

def newDeletePlayerResult (err : Option GoError) : DeletePlayerResult :=
  { Err := errMessage err }

def newSearchPlayersDataResult (result : Option SearchResult) (err : Option GoError) :
    SearchPlayersDataResult :=
  { SearchResult := result, Err := errMessage err }

def errInvalidNewPlayerType : GoError := .new "invalid new player type"
def errInvalidUpdatePlayerType : GoError := .new "invalid update player type"
def errInvalidPlayerIDType : GoError := .new "invalid player id type"
def errInvalidSearchCriteriaType : GoError := .new "invalid search players type"

/-- A Go `any` handed to an endpoint, by its dynamic type: the nil interface,
a command by value or behind a pointer (which may be a nil pointer), or a
value of any other type. -/
inductive Request where
  | nil
  | newPlayerPtr (newPlayer : Option NewPlayer)
  | newPlayerValue (newPlayer : NewPlayer)
  | updatePlayerPtr (updatePlayer : Option UpdatePlayer)
  | updatePlayerValue (updatePlayer : UpdatePlayer)
  | playerIDValue (playerID : PlayerID)
  | playerIDPtr (playerID : Option PlayerID)
  | searchCriteriaValue (searchCriteria : SearchCriteria)
  | searchCriteriaPtr (searchCriteria : Option SearchCriteria)
  | other (typeName : String)
  deriving DecidableEq, Repr

/-- Whether the type assertion `request.(*NewPlayer)` succeeds. -/
def Request.isNewPlayerPtr : Request → Bool
  | .newPlayerPtr _ => true
  | _ => false

/-- Whether the type assertion `request.(*UpdatePlayer)` succeeds. -/
def Request.isUpdatePlayerPtr : Request → Bool
  | .updatePlayerPtr _ => true
  | _ => false

/-- Whether the type assertion `request.(PlayerID)` succeeds. -/
def Request.isPlayerID : Request → Bool
  | .playerIDValue _ => true
  | _ => false

/-- Whether the type assertion `request.(SearchCriteria)` succeeds. -/
def Request.isSearchCriteria : Request → Bool
  | .searchCriteriaValue _ => true
  | _ => false

/-- A Go `any` returned by an endpoint. -/
inductive Response where
  | createPlayerResult (result : CreatePlayerResult)
  | updatePlayerResult (result : UpdatePlayerResult)
  | deletePlayerResult (result : DeletePlayerResult)
  | searchPlayersDataResult (result : SearchPlayersDataResult)
  deriving DecidableEq, Repr

/-- Go `CreatePlayerEndpoint.Do`. `Outcome.ok` is a result with a nil error,
`Outcome.error` a nil result with a transport-level error; dereferencing a nil
`*NewPlayer` panics. -/
def CreatePlayerEndpoint.Do (env : Env σ) (request : Request) (s : Run σ) :
    Outcome Response × Run σ :=
  match request with
  | .newPlayerPtr (some newPlayer) =>
    let r := Service.Create env newPlayer s
    match r.1 with
    | .error err => (.ok (.createPlayerResult (newCreatePlayerResult none (some err))), r.2)
    | .ok player => (.ok (.createPlayerResult (newCreatePlayerResult player.ID none)), r.2)
    | .panic => (.panic, r.2)
  | .newPlayerPtr none => (.panic, s)
  | _ => (.error errInvalidNewPlayerType, s)

def UpdatePlayerEndpoint.Do (env : Env σ) (request : Request) (s : Run σ) :
    Outcome Response × Run σ :=
  match request with
  | .updatePlayerPtr (some updatePlayer) =>
    let r := Service.Update env updatePlayer s
    match r.1 with
    | .error err => (.ok (.updatePlayerResult (newUpdatePlayerResult (some err))), r.2)
    | .ok _ => (.ok (.updatePlayerResult (newUpdatePlayerResult none)), r.2)
    | .panic => (.panic, r.2)
  | .updatePlayerPtr none => (.panic, s)
  | _ => (.error errInvalidUpdatePlayerType, s)

def DeletePlayerEndpoint.Do (env : Env σ) (request : Request) (s : Run σ) :
    Outcome Response × Run σ :=
  match request with
  | .playerIDValue playerID =>
    let r := Service.Delete env playerID s
    match r.1 with
    | .error err => (.ok (.deletePlayerResult (newDeletePlayerResult (some err))), r.2)
    | .ok _ => (.ok (.deletePlayerResult (newDeletePlayerResult none)), r.2)
    | .panic => (.panic, r.2)
  | _ => (.error errInvalidPlayerIDType, s)

def SearchPlayersEndpoint.Do (env : Env σ) (request : Request) (s : Run σ) :
    Outcome Response × Run σ :=
  match request with
  | .searchCriteriaValue searchCriteria =>
    let r := Service.List env searchCriteria s
    match r.1 with
    | .error err =>
      (.ok (.searchPlayersDataResult (newSearchPlayersDataResult none (some err))), r.2)
    | .ok searchResult =>
      (.ok (.searchPlayersDataResult (newSearchPlayersDataResult searchResult none)), r.2)
    | .panic => (.panic, r.2)
  | _ => (.error errInvalidSearchCriteriaType, s)

/-! ## The clock reading of an update -/

/-- The state in which `UpdatePlayer.toPlayer` reads the clock during
`Service.Update`: after the player was loaded and, when the password is
present, after the hasher was called. -/
def Service.updateBeforeClock (env : Env σ) (u : UpdatePlayer) (s : Run σ) : Run σ :=
  match u.Password with
  | some password => (env.callHash password (Service.updateLoaded env u s).2).2
  | none => (Service.updateLoaded env u s).2

/-- The `time.Now().UTC()` reading of the merge of `Service.Update`. -/
def Service.updateClock (env : Env σ) (u : UpdatePlayer) (s : Run σ) : Time :=
  (timeNowUTC env (Service.updateBeforeClock env u s)).1

/-! ## The notifier (`adapters/notifiers/producer.go`) -/

/-- A Go `int64` product or sum, wrapped to two's complement. -/
def wrapInt64 (x : Int) : Int :=
  (x + 2 ^ 63) % 2 ^ 64 - 2 ^ 63

/-- Go `time.Second`, in nanoseconds. -/
def timeSecond : Int := 1000000000

def defaultBatchEvents : Nat := 10

def defaultTimeoutToPublish : Int := 3

/-- Go `NotifierSetup`; `TimeoutToPublish` is an `int` (64 bits) counting
seconds. The logger and the event bus play no part in `NewNotifier` beyond
being stored. -/
structure NotifierSetup where
  TimeoutToPublish : Int
  deriving DecidableEq, Repr

/-- Go `Notifier`: the publish timeout as a `time.Duration` (an `int64` of
nanoseconds) and the event channel, by its capacity and its queued events. -/
structure Notifier where
  timeoutToPublish : Int
  eventStreamCapacity : Nat
  eventStream : List NewEvent
  deriving DecidableEq, Repr

def NewNotifier (setup : NotifierSetup) : Notifier :=
  let setup :=
    if setup.TimeoutToPublish < 1 then { setup with TimeoutToPublish := defaultTimeoutToPublish }
    else setup
  { eventStreamCapacity := defaultBatchEvents
    eventStream := []
    timeoutToPublish := wrapInt64 (setup.TimeoutToPublish * timeSecond) }

/-! ## The relational storage (`adapters/storages`) -/

/-- Go `dbPlayer`, a row of the players table. -/
structure dbPlayer where
  ID : PlayerID
  FirstName : String
  LastName : String
  Nickname : String
  Email : String
  Password : Bytes
  Country : String
  DateCreated : Time
  DateUpdated : Time
  deriving DecidableEq, Repr

/-- The zero value of `dbPlayer`, as `var player dbPlayer` declares it. -/
def dbPlayer.zero : dbPlayer :=
  { ID := ⟨0⟩, FirstName := "", LastName := "", Nickname := "", Email := "", Password := [],
    Country := "", DateCreated := 0, DateUpdated := 0 }

def dbPlayer.toPlayer (d : dbPlayer) : Player :=
  { ID := some d.ID
    FirstName := d.FirstName
    LastName := d.LastName
    Nickname := d.Nickname
    Email := { Name := "", Address := d.Email }
    Password := d.Password
    Country := d.Country
    DateCreated := d.DateCreated
    DateUpdated := d.DateUpdated }

def errPlayerCannotBeRead : GoError := .new "player cannot be read in the database"

/-- What `QueryRowContext(...).Scan(...)` does in `Storage.GetByID`: it fills
the destination from the row found, or leaves it untouched and returns
`sql.ErrNoRows`, or returns another error. -/
inductive ScanOutcome where
  | row (found : dbPlayer)
  | noRows
  | failed (err : GoError)

/-- Go `Storage.GetByID`, as a function of what the scan of the query does. -/
def Storage.GetByID (scan : ScanOutcome) : Except GoError (Option Player) :=
  let player : dbPlayer :=
    match scan with
    | .row found => found
    | _ => dbPlayer.zero
  let failedNotNoRows : Bool :=
    match scan with
    | .failed _ => true
    | _ => false
  if failedNotNoRows then .error errPlayerCannotBeRead
  else
    let got := player.toPlayer
    .ok (some got)

/-- Test doubles whose `GetByID` answers what the relational storage answers
for the given scan, and whose `Delete` succeeds. -/
def relationalMocks (scan : ScanOutcome) : MockReturns :=
  { Hash := .ok dummyHash
    Save := none
    Update := none
    Delete := none
    GetByID := Storage.GetByID scan
    GetPlayersWithEmailOrNickName := .ok none
    Search := .ok none
    uuid := ⟨0⟩
    now := 1700000000 }

/-! ## The gRPC adapter (`adapters/grpc/model.go`) -/

/-- Modelled from the spec: the generated message `pb.UpdatePlayerRequest` is
not among the sources; it is taken with the string fields that
`toUpdatePlayer` and the handler read through its getters. -/
structure UpdatePlayerRequest where
  PlayerId : String
  Firstname : String
  Lastname : String
  Nickname : String
  Email : String
  Password : String
  Country : String
  deriving DecidableEq, Repr

/-- Modelled from the spec: the generated message `pb.SearchPlayersRequest`
is not among the sources; it is taken with a country string and with limit
and offset as 32-bit unsigned values. -/
structure SearchPlayersRequest where
  Country : String
  Limit : Nat
  Offset : Nat
  deriving DecidableEq, Repr

/-- Go conversion `uint16(x)` of an unsigned value. -/
def toUint16 (x : Nat) : Nat := x % 2 ^ 16

def toSearchCriteria (request : SearchPlayersRequest) : SearchCriteria :=
  { Country := some request.Country
    Limit := toUint16 request.Limit
    Offset := toUint16 request.Offset }

def toUpdatePlayer (pbPlayer : UpdatePlayerRequest) (playerID : PlayerID) : UpdatePlayer :=
  let updatePlayer : UpdatePlayer :=
    { ID := playerID, FirstName := none, LastName := none, Nickname := none, Email := none,
      Password := none, Country := none }
  let updatePlayer :=
    if pbPlayer.Country ≠ "" then { updatePlayer with Country := some pbPlayer.Country }
    else updatePlayer
  let updatePlayer :=
    if pbPlayer.Email ≠ "" then
      { updatePlayer with Email := some { Name := "", Address := pbPlayer.Email } }
    else updatePlayer
  let updatePlayer :=
    if pbPlayer.Firstname ≠ "" then { updatePlayer with FirstName := some pbPlayer.Firstname }
    else updatePlayer
  let updatePlayer :=
    if pbPlayer.Lastname ≠ "" then { updatePlayer with LastName := some pbPlayer.Lastname }
    else updatePlayer
  let updatePlayer :=
    if pbPlayer.Nickname ≠ "" then { updatePlayer with Nickname := some pbPlayer.Nickname }
    else updatePlayer
  let updatePlayer :=
    if pbPlayer.Password ≠ "" then { updatePlayer with Password := some pbPlayer.Password }
    else updatePlayer
  updatePlayer

/-! ## What the claims say, in their own words -/

/-- The violations of a `NewPlayer` as the specification lists them: one
message per empty field, in the order first name, last name, nickname, email,
country, password. -/
def NewPlayer.violations (n : NewPlayer) : List String :=
  (if n.FirstName = "" then ["first name is empty"] else []) ++
  (if n.LastName = "" then ["last name is empty"] else []) ++
  (if n.Nickname = "" then ["nickname is empty"] else []) ++
  (if n.Email.Address = "" then ["email is empty"] else []) ++
  (if n.Country = "" then ["country is empty"] else []) ++
  (if n.Password = "" then ["password is empty"] else [])

/-- The violations of an `UpdatePlayer` as the specification lists them: one
message per field that is present and empty (for the email: present with an
empty address), in the order first name, last name, nickname, email, country,
password. -/
def UpdatePlayer.violations (u : UpdatePlayer) : List String :=
  (if u.FirstName = some "" then ["first name is empty"] else []) ++
  (if u.LastName = some "" then ["last name is empty"] else []) ++
  (if u.Nickname = some "" then ["nickname is empty"] else []) ++
  (if u.Email.map (fun e => e.Address) = some "" then ["email is empty"] else []) ++
  (if u.Country = some "" then ["country is empty"] else []) ++
  (if u.Password = some "" then ["password is empty"] else [])

/-! ## Helper lemmas -/

theorem isStringEmpty_eq_true (v : Option String) : isStringEmpty v = true ↔ v = some "" := by
  cases v <;> simp [isStringEmpty]

/-! ## Validation -/

/-- C1: `NewPlayer.Validate` returns no error when all six fields are
non-empty; otherwise it returns an error whose message is exactly the messages
of the empty fields, in the order first name, last name, nickname, email,
country, password, joined by a single newline. -/
theorem NewPlayer.Validate_aggregates (n : NewPlayer) :
    ((n.FirstName ≠ "" ∧ n.LastName ≠ "" ∧ n.Nickname ≠ "" ∧ n.Email.Address ≠ "" ∧
        n.Country ≠ "" ∧ n.Password ≠ "") → n.Validate = none) ∧
    (¬ (n.FirstName ≠ "" ∧ n.LastName ≠ "" ∧ n.Nickname ≠ "" ∧ n.Email.Address ≠ "" ∧
        n.Country ≠ "" ∧ n.Password ≠ "") →
      ∃ e, n.Validate = some e ∧ e.Error = "\n".intercalate n.violations) := by
  by_cases h1 : n.FirstName = "" <;> by_cases h2 : n.LastName = "" <;>
  by_cases h3 : n.Nickname = "" <;> by_cases h4 : n.Email.Address = "" <;>
  by_cases h5 : n.Country = "" <;> by_cases h6 : n.Password = "" <;>
  simp [NewPlayer.violations, NewPlayer.Validate, h1, h2, h3, h4, h5, h6, errorsJoin,
    GoError.Error, GoError.joinText, errEmptyFirstName, errEmptyLastName, errEmptyNickname,
    errEmptyEmail, errEmptyCountry, errEmptyPassword] <;> rfl

/-- C1 at the example of the claim: an empty nickname and an empty password
give the message "nickname is empty\npassword is empty". -/
theorem NewPlayer.Validate_aggregates_witness :
    ∃ e, NewPlayer.Validate ⟨"Fernando", "Ocampo", "", ⟨"", "b@x.com"⟩, "", "Spain"⟩ = some e ∧
      e.Error = "nickname is empty\npassword is empty" :=
  (NewPlayer.Validate_aggregates ⟨"Fernando", "Ocampo", "", ⟨"", "b@x.com"⟩, "", "Spain"⟩).2
    (by decide)

/-- C2: `UpdatePlayer.Validate` reports a violation for a field exactly when
the field is present and empty (for the email: present with an empty address):
there is no error when no field is present and empty, in particular when every
optional field is absent, and otherwise the message is the messages of the
present and empty fields in the order first name, last name, nickname, email,
country, password, joined by a newline. -/
theorem UpdatePlayer.Validate_present_empty (u : UpdatePlayer) :
    (u.violations = [] → u.Validate = none) ∧
    (u.violations ≠ [] →
      ∃ e, u.Validate = some e ∧ e.Error = "\n".intercalate u.violations) ∧
    ((u.FirstName = none ∧ u.LastName = none ∧ u.Nickname = none ∧ u.Email = none ∧
        u.Country = none ∧ u.Password = none) → u.Validate = none) := by
  obtain ⟨id, fn, ln, nn, em, pw, co⟩ := u
  have hem : (em = none ∧ True) ∨ (∃ e, em = some e ∧ e.Address = "") ∨
      (∃ e, em = some e ∧ e.Address ≠ "") := by
    cases em with
    | none => exact Or.inl ⟨rfl, trivial⟩
    | some e =>
      by_cases h : e.Address = ""
      · exact Or.inr (Or.inl ⟨e, rfl, h⟩)
      · exact Or.inr (Or.inr ⟨e, rfl, h⟩)
  by_cases h1 : fn = some "" <;> by_cases h2 : ln = some "" <;>
  by_cases h3 : nn = some "" <;> by_cases h5 : co = some "" <;>
  by_cases h6 : pw = some "" <;>
  rcases hem with ⟨h4, h4a⟩ | ⟨e, h4, h4a⟩ | ⟨e, h4, h4a⟩ <;>
  simp [UpdatePlayer.violations, UpdatePlayer.Validate, isStringEmpty_eq_true, h1, h2, h3, h4,
    h4a, h5, h6, errorsJoin, GoError.Error, GoError.joinText, errEmptyFirstName,
    errEmptyLastName, errEmptyNickname, errEmptyEmail, errEmptyCountry, errEmptyPassword] <;>
  rfl

/-- C2 at the example of the tests: a present and empty nickname and password
give the message "nickname is empty\npassword is empty". -/
theorem UpdatePlayer.Validate_present_empty_witness :
    ∃ e, UpdatePlayer.Validate ⟨⟨7⟩, none, none, some "", none, some "", none⟩ = some e ∧
      e.Error = "nickname is empty\npassword is empty" :=
  (UpdatePlayer.Validate_present_empty ⟨⟨7⟩, none, none, some "", none, some "", none⟩).2.1
    (by decide)

/-! ## The call log -/

theorem newCalls_append (s : Run σ) (w : σ) (l : List Call) :
    newCalls s ⟨w, s.calls ++ l⟩ = l := by
  simp [newCalls]

theorem newCalls_self (s : Run σ) : newCalls s s = [] := by
  simp [newCalls]

theorem Service.doesThePlayerAlreadyExist_calls (env : Env σ) (f : PlayerFilter) (s : Run σ) :
    (Service.doesThePlayerAlreadyExist env f s).2.calls =
      s.calls ++ [Call.GetPlayersWithEmailOrNickName f] := by
  unfold Service.doesThePlayerAlreadyExist
  dsimp only
  split <;> rfl

theorem Service.createHashed_calls (env : Env σ) (n : NewPlayer) (s : Run σ) :
    (Service.createHashed env n s).2.calls = s.calls ++ [Call.Hash n.Password] := rfl

theorem Service.createChecked_calls (env : Env σ) (n : NewPlayer) (s : Run σ) :
    (Service.createChecked env n s).2.calls =
      s.calls ++ [Call.Hash n.Password, Call.GetPlayersWithEmailOrNickName n.toPlayerFilter] := by
  simp [Service.createChecked, Service.doesThePlayerAlreadyExist_calls,
    Service.createHashed_calls]

theorem Service.createBuilt_calls (env : Env σ) (n : NewPlayer) (s : Run σ) (h : Bytes) :
    (Service.createBuilt env n s h).2.calls =
      s.calls ++ [Call.Hash n.Password, Call.GetPlayersWithEmailOrNickName n.toPlayerFilter] := by
  rw [← Service.createChecked_calls]
  rfl

theorem Service.createSaved_calls (env : Env σ) (n : NewPlayer) (s : Run σ) (h : Bytes) :
    (Service.createSaved env n s h).2.calls =
      s.calls ++ [Call.Hash n.Password, Call.GetPlayersWithEmailOrNickName n.toPlayerFilter,
        Call.Save (Service.createBuilt env n s h).1] := by
  show (Service.createBuilt env n s h).2.calls ++ [_] = _
  simp [Service.createBuilt_calls]

/-! ## The paths of `Service.Create` -/

/-- Every run of `Service.Create` takes one of seven paths; each is given with
the answers of the collaborators that select it and with its result. -/
theorem Service.Create_cases (env : Env σ) (n : NewPlayer) (s : Run σ) :
    (∃ ve, n.Validate = some ve ∧
      Service.Create env n s = (.error (fmtErrorf "unable to create player: " ve), s)) ∨
    (n.Validate = none ∧ ∃ he, (Service.createHashed env n s).1 = .error he ∧
      Service.Create env n s =
        (.error (fmtErrorf "unable to hash password: " he), (Service.createHashed env n s).2)) ∨
    (n.Validate = none ∧ ∃ h ce, (Service.createHashed env n s).1 = .ok h ∧
      (Service.createChecked env n s).1 = .error ce ∧
      Service.Create env n s =
        (.error (fmtErrorf "unable to create player: " ce), (Service.createChecked env n s).2)) ∨
    (n.Validate = none ∧ ∃ h, (Service.createHashed env n s).1 = .ok h ∧
      (Service.createChecked env n s).1 = .ok none ∧
      Service.Create env n s = (.panic, (Service.createChecked env n s).2)) ∨
    (n.Validate = none ∧ ∃ h r, (Service.createHashed env n s).1 = .ok h ∧
      (Service.createChecked env n s).1 = .ok (some r) ∧ r.Exist = true ∧
      Service.Create env n s =
        (.error r.toPlayerAlreadyExistsError, (Service.createChecked env n s).2)) ∨
    (n.Validate = none ∧ ∃ h r se, (Service.createHashed env n s).1 = .ok h ∧
      (Service.createChecked env n s).1 = .ok (some r) ∧ r.Exist = false ∧
      (Service.createSaved env n s h).1 = some se ∧
      Service.Create env n s =
        (.error (fmtErrorf "unable to create player: " se), (Service.createSaved env n s h).2)) ∨
    (n.Validate = none ∧ ∃ h r id, (Service.createHashed env n s).1 = .ok h ∧
      (Service.createChecked env n s).1 = .ok (some r) ∧ r.Exist = false ∧
      (Service.createSaved env n s h).1 = none ∧
      (Service.createBuilt env n s h).1.ID = some id ∧
      Service.Create env n s =
        (.ok (Service.createBuilt env n s h).1,
          env.callNotify ⟨id.String, "new player was created"⟩
            (Service.createSaved env n s h).2)) := by
  unfold Service.Create
  cases hv : n.Validate with
  | some ve => exact Or.inl ⟨ve, rfl, rfl⟩
  | none =>
    right
    cases hh : (Service.createHashed env n s).1 with
    | error he =>
      left
      refine ⟨rfl, he, rfl, ?_⟩
      simp only [Service.createHashed] at hh ⊢
      simp only [hh]
    | ok h =>
      right
      cases hc : (Service.createChecked env n s).1 with
      | error ce =>
        left
        refine ⟨rfl, h, ce, rfl, rfl, ?_⟩
        simp only [Service.createHashed, Service.createChecked] at hh hc ⊢
        simp only [hh, hc]
      | ok o =>
        right
        cases o with
        | none =>
          left
          refine ⟨rfl, h, rfl, rfl, ?_⟩
          simp only [Service.createHashed, Service.createChecked] at hh hc ⊢
          simp only [hh, hc]
        | some r =>
          right
          cases hex : r.Exist with
          | true =>
            left
            refine ⟨rfl, h, r, rfl, rfl, hex, ?_⟩
            simp only [Service.createHashed, Service.createChecked] at hh hc ⊢
            simp only [hh, hc, hex, if_true]
          | false =>
            right
            cases hs : (Service.createSaved env n s h).1 with
            | some se =>
              left
              refine ⟨rfl, h, r, se, rfl, rfl, hex, hs, ?_⟩
              simp only [Service.createHashed, Service.createChecked, Service.createBuilt,
                Service.createSaved] at hh hc hs ⊢
              simp only [hh, hc, hex, hs, Bool.false_eq_true, if_false]
            | none =>
              right
              refine ⟨rfl, h, r, (env.newUUID (Service.createChecked env n s).2.world).1,
                rfl, rfl, hex, hs, rfl, ?_⟩
              simp only [Service.createHashed, Service.createChecked, Service.createBuilt,
                Service.createSaved] at hh hc hs ⊢
              simp only [hh, hc, hex, hs, Bool.false_eq_true, if_false]
              rfl

/-- The result of `Service.Create` once validation and hashing have passed and
the existence check has answered with a collision. -/
theorem Service.Create_of_collision (env : Env σ) (n : NewPlayer) (s : Run σ) (h : Bytes)
    (r : PlayerExistResult) (hvalid : n.Validate = none)
    (hhash : (Service.createHashed env n s).1 = .ok h)
    (hcheck : (Service.createChecked env n s).1 = .ok (some r)) (hex : r.Exist = true) :
    Service.Create env n s =
      (.error r.toPlayerAlreadyExistsError, (Service.createChecked env n s).2) := by
  rcases Service.Create_cases env n s with ⟨ve, hv, _⟩ | ⟨_, he, hh, _⟩ | ⟨_, h', ce, _, hc, _⟩ |
    ⟨_, h', _, hc, _⟩ | ⟨_, h', r', _, hc, _, heq⟩ | ⟨_, h', r', se, _, hc, hne, _⟩ |
    ⟨_, h', r', id, _, hc, hne, _⟩
  · simp [hvalid] at hv
  · simp [hhash] at hh
  · simp [hcheck] at hc
  · simp [hcheck] at hc
  · simp only [hcheck, Except.ok.injEq, Option.some.injEq] at hc
    subst hc
    exact heq
  · simp only [hcheck, Except.ok.injEq, Option.some.injEq] at hc
    subst hc
    simp [hex] at hne
  · simp only [hcheck, Except.ok.injEq, Option.some.injEq] at hc
    subst hc
    simp [hex] at hne

/-- The result of `Service.Create` once validation, hashing and the existence
check have passed without a collision: it is decided by `storage.Save`. -/
theorem Service.Create_of_no_collision (env : Env σ) (n : NewPlayer) (s : Run σ) (h : Bytes)
    (r : PlayerExistResult) (hvalid : n.Validate = none)
    (hhash : (Service.createHashed env n s).1 = .ok h)
    (hcheck : (Service.createChecked env n s).1 = .ok (some r)) (hex : r.Exist = false) :
    (∀ se, (Service.createSaved env n s h).1 = some se →
      Service.Create env n s =
        (.error (fmtErrorf "unable to create player: " se), (Service.createSaved env n s h).2)) ∧
    ((Service.createSaved env n s h).1 = none →
      ∃ id, (Service.createBuilt env n s h).1.ID = some id ∧
        Service.Create env n s =
          (.ok (Service.createBuilt env n s h).1,
            env.callNotify ⟨id.String, "new player was created"⟩
              (Service.createSaved env n s h).2)) := by
  rcases Service.Create_cases env n s with ⟨ve, hv, _⟩ | ⟨_, he, hh, _⟩ | ⟨_, h', ce, _, hc, _⟩ |
    ⟨_, h', _, hc, _⟩ | ⟨_, h', r', _, hc, hne, _⟩ | ⟨_, h', r', se, hh, hc, _, hs, heq⟩ |
    ⟨_, h', r', id, hh, hc, _, hs, hid, heq⟩
  · simp [hvalid] at hv
  · simp [hhash] at hh
  · simp [hcheck] at hc
  · simp [hcheck] at hc
  · simp only [hcheck, Except.ok.injEq, Option.some.injEq] at hc
    subst hc
    simp [hex] at hne
  · simp only [hhash, Except.ok.injEq] at hh
    subst hh
    refine ⟨fun se' hs' => ?_, fun hs' => ?_⟩
    · simp only [hs, Option.some.injEq] at hs'
      subst hs'
      exact heq
    · simp [hs] at hs'
  · simp only [hhash, Except.ok.injEq] at hh
    subst hh
    refine ⟨fun se' hs' => ?_, fun _ => ⟨id, hid, heq⟩⟩
    simp [hs] at hs'

theorem GoError.Error_wrap (pfx : String) (inner : GoError) :
    (GoError.wrap pfx inner).Error = pfx ++ inner.Error := by
  simp [GoError.Error]

/-- The value `Service.Create` returns does not depend on what the notifier
does with the event. -/
theorem Service.Create_fst_notify (env : Env σ) (notify : NewEvent → σ → σ) (n : NewPlayer)
    (s : Run σ) :
    (Service.Create { env with Notify := notify } n s).1 = (Service.Create env n s).1 := by
  simp only [Service.Create, Service.doesThePlayerAlreadyExist, Env.callHash, Env.callSave,
    Env.callGetPlayersWithEmailOrNickName, NewPlayer.toPlayer, newPlayerID, timeNowUTC]
  repeat' split
  all_goals simp_all

/-! ## Create -/

/-- C3: for a `PlayerExistResult` with `Exist()` true the message of
`toPlayerAlreadyExistsError()` is the "email or nickname" text when both
collide, the "email" text when only the email collides and the "nickname" text
when only the nickname collides, and it is the exact message of the error
`Service.Create` returns when the existence check answers with that result. -/
theorem PlayerExistResult.alreadyExists_message (r : PlayerExistResult) (hex : r.Exist = true) :
    ((r.EmailExist = true ∧ r.NicknameExist = true) → r.toPlayerAlreadyExistsError.Error =
        "player with the given email or nickname already exists") ∧
    ((r.EmailExist = true ∧ r.NicknameExist = false) → r.toPlayerAlreadyExistsError.Error =
        "player with the given email already exists") ∧
    ((r.EmailExist = false ∧ r.NicknameExist = true) → r.toPlayerAlreadyExistsError.Error =
        "player with the given nickname already exists") ∧
    (∀ (τ : Type) (env : Env τ) (n : NewPlayer) (s : Run τ) (h : Bytes),
      n.Validate = none → (Service.createHashed env n s).1 = .ok h →
      (Service.createChecked env n s).1 = .ok (some r) →
      ∃ e, (Service.Create env n s).1 = .error e ∧
        e.Error = r.toPlayerAlreadyExistsError.Error) := by
  refine ⟨?_, ?_, ?_, ?_⟩
  · rintro ⟨h1, h2⟩
    simp [PlayerExistResult.toPlayerAlreadyExistsError, GoError.Error, h1, h2]
  · rintro ⟨h1, h2⟩
    simp [PlayerExistResult.toPlayerAlreadyExistsError, GoError.Error, h1, h2]
  · rintro ⟨h1, h2⟩
    simp [PlayerExistResult.toPlayerAlreadyExistsError, GoError.Error, h1, h2]
  · intro τ env n s h hvalid hhash hcheck
    refine ⟨r.toPlayerAlreadyExistsError, ?_, rfl⟩
    rw [Service.Create_of_collision env n s h r hvalid hhash hcheck hex]

/-- C3 on the test doubles of `TestCreateButPlayerWithEmailAlreadyExists`: the
existence check reports an email collision and `Service.Create` fails with
"player with the given email already exists". -/
theorem PlayerExistResult.alreadyExists_message_witness :
    (PlayerExistResult.mk true false).Exist = true ∧
    ∃ e, (Service.Create (mockEnv (createMocks ⟨true, false⟩ none)) NewPlayerFixture
        mockStart).1 = .error e ∧
      e.Error = "player with the given email already exists" := by
  have t := PlayerExistResult.alreadyExists_message ⟨true, false⟩ rfl
  obtain ⟨e, he, hm⟩ := t.2.2.2 Unit (mockEnv (createMocks ⟨true, false⟩ none)) NewPlayerFixture
    mockStart dummyHash rfl rfl rfl
  exact ⟨rfl, e, he, hm.trans (t.2.1 ⟨rfl, rfl⟩)⟩

/-- C4: for a valid `NewPlayer`, when the hasher returns the hash `h`, the
existence check reports no collision and `Save` succeeds, `Service.Create`
returns a player whose ID is present, whose first name, last name, nickname,
email and country are those of the command, whose password is `h` and whose
creation and update dates are equal. -/
theorem Service.Create_success (env : Env σ) (n : NewPlayer) (s : Run σ) (h : Bytes)
    (r : PlayerExistResult) (hvalid : n.Validate = none)
    (hhash : (Service.createHashed env n s).1 = .ok h)
    (hcheck : (Service.createChecked env n s).1 = .ok (some r)) (hnocoll : r.Exist = false)
    (hsave : (Service.createSaved env n s h).1 = none) :
    ∃ p, (Service.Create env n s).1 = .ok p ∧ p.ID ≠ none ∧ p.FirstName = n.FirstName ∧
      p.LastName = n.LastName ∧ p.Nickname = n.Nickname ∧ p.Email = n.Email ∧
      p.Country = n.Country ∧ p.Password = h ∧ p.DateCreated = p.DateUpdated := by
  obtain ⟨id, hid, heq⟩ :=
    (Service.Create_of_no_collision env n s h r hvalid hhash hcheck hnocoll).2 hsave
  refine ⟨(Service.createBuilt env n s h).1, by rw [heq], ?_, rfl, rfl, rfl, rfl, rfl, rfl, rfl⟩
  rw [hid]
  exact Option.some_ne_none id

/-- C4 on the test doubles of `TestCreatePlayer`. -/
theorem Service.Create_success_witness :
    NewPlayerFixture.Validate = none ∧
    (Service.createHashed (mockEnv (createMocks ⟨false, false⟩ none)) NewPlayerFixture
      mockStart).1 = .ok dummyHash ∧
    (Service.createSaved (mockEnv (createMocks ⟨false, false⟩ none)) NewPlayerFixture
      mockStart dummyHash).1 = none ∧
    ∃ p, (Service.Create (mockEnv (createMocks ⟨false, false⟩ none)) NewPlayerFixture
        mockStart).1 = .ok p ∧ p.ID ≠ none ∧ p.FirstName = "Fernando" ∧
      p.LastName = "Ocampo" ∧ p.Nickname = "focampo" ∧
      p.Email = ⟨"", "focampo@anyemail.com"⟩ ∧ p.Country = "Spain" ∧ p.Password = dummyHash ∧
      p.DateCreated = p.DateUpdated :=
  ⟨rfl, rfl, rfl,
    Service.Create_success (mockEnv (createMocks ⟨false, false⟩ none)) NewPlayerFixture mockStart
      dummyHash ⟨false, false⟩ rfl rfl rfl rfl rfl⟩

/-- C6: when `Validate` fails, `Service.Create` returns no player and the
error "unable to create player: " followed by the message of `Validate`, and
the run ends in the state it started from: neither the hasher, nor the
storage, nor the notifier has been called. -/
theorem Service.Create_invalid (env : Env σ) (n : NewPlayer) (s : Run σ) (ve : GoError)
    (hinvalid : n.Validate = some ve) :
    (∃ e, (Service.Create env n s).1 = .error e ∧
      e.Error = "unable to create player: " ++ ve.Error) ∧
    (Service.Create env n s).2 = s ∧ newCalls s (Service.Create env n s).2 = [] := by
  have heq : Service.Create env n s = (.error (fmtErrorf "unable to create player: " ve), s) := by
    unfold Service.Create
    rw [hinvalid]
  rw [heq]
  exact ⟨⟨_, rfl, GoError.Error_wrap _ _⟩, rfl, newCalls_self s⟩

/-- C6 on a command with an empty nickname and an empty password: the
message lists both violations after the prefix and the store is untouched. -/
theorem Service.Create_invalid_witness :
    ({ NewPlayerFixture with Nickname := "", Password := "" } : NewPlayer).Validate =
      some (.join [.join [errEmptyNickname], errEmptyPassword]) ∧
    (∃ e, (Service.Create (memEnv fun _ => .ok dummyHash)
        { NewPlayerFixture with Nickname := "", Password := "" } memStart).1 = .error e ∧
      e.Error = "unable to create player: nickname is empty\npassword is empty") ∧
    (Service.Create (memEnv fun _ => .ok dummyHash)
        { NewPlayerFixture with Nickname := "", Password := "" } memStart).2 = memStart :=
  ⟨rfl,
    (Service.Create_invalid (memEnv fun _ => .ok dummyHash)
      { NewPlayerFixture with Nickname := "", Password := "" } memStart _ rfl).1,
    (Service.Create_invalid (memEnv fun _ => .ok dummyHash)
      { NewPlayerFixture with Nickname := "", Password := "" } memStart _ rfl).2.1⟩

/-- C7, as stated, fails on a collision: on the test doubles of
`TestCreateButPlayerWithEmailAlreadyExists` `Service.Create` fails with the
message "player with the given email already exists", which does not begin
with "unable to create player: ". -/
theorem Service.Create_collision_unprefixed :
    ∃ e, (Service.Create (mockEnv (createMocks ⟨true, false⟩ none)) NewPlayerFixture
        mockStart).1 = .error e ∧
      e.Error = "player with the given email already exists" ∧
      ¬ ∃ t, e.Error = "unable to create player: " ++ t := by
  refine ⟨_, rfl, rfl, ?_⟩
  rintro ⟨t, ht⟩
  have hd := congrArg String.data ht
  simp [PlayerExistResult.toPlayerAlreadyExistsError, GoError.Error] at hd

/-- C7, amended: when `Service.Create` fails on validation, on the existence
check or on `Save`, the message of the returned error is "unable to create
player: " followed by the text of the cause; when it fails on a collision the
returned error is the `PlayerAlreadyExistsError` itself, with its own message
and no prefix. -/
theorem Service.Create_error_messages (env : Env σ) (n : NewPlayer) (s : Run σ) :
    (∀ ve, n.Validate = some ve →
      ∃ e, (Service.Create env n s).1 = .error e ∧
        e.Error = "unable to create player: " ++ ve.Error) ∧
    (∀ h ce, n.Validate = none → (Service.createHashed env n s).1 = .ok h →
      (Service.createChecked env n s).1 = .error ce →
      ∃ e, (Service.Create env n s).1 = .error e ∧
        e.Error = "unable to create player: " ++ ce.Error) ∧
    (∀ h r se, n.Validate = none → (Service.createHashed env n s).1 = .ok h →
      (Service.createChecked env n s).1 = .ok (some r) → r.Exist = false →
      (Service.createSaved env n s h).1 = some se →
      ∃ e, (Service.Create env n s).1 = .error e ∧
        e.Error = "unable to create player: " ++ se.Error) ∧
    (∀ h r, n.Validate = none → (Service.createHashed env n s).1 = .ok h →
      (Service.createChecked env n s).1 = .ok (some r) → r.Exist = true →
      (Service.Create env n s).1 = .error (.alreadyExists r.EmailExist r.NicknameExist)) := by
  refine ⟨?_, ?_, ?_, ?_⟩
  · intro ve hv
    refine ⟨fmtErrorf "unable to create player: " ve, ?_, GoError.Error_wrap _ _⟩
    unfold Service.Create
    rw [hv]
  · intro h ce hvalid hhash hcheck
    refine ⟨fmtErrorf "unable to create player: " ce, ?_, GoError.Error_wrap _ _⟩
    rcases Service.Create_cases env n s with ⟨ve, hv, _⟩ | ⟨_, he, hh, _⟩ |
      ⟨_, h', ce', _, hc, heq⟩ | ⟨_, h', _, hc, _⟩ | ⟨_, h', r', _, hc, _⟩ |
      ⟨_, h', r', se, _, hc, _⟩ | ⟨_, h', r', id, _, hc, _⟩
    · simp [hvalid] at hv
    · simp [hhash] at hh
    · simp only [hcheck, Except.error.injEq] at hc
      subst hc
      rw [heq]
    · simp [hcheck] at hc
    · simp [hcheck] at hc
    · simp [hcheck] at hc
    · simp [hcheck] at hc
  · intro h r se hvalid hhash hcheck hex hsave
    refine ⟨fmtErrorf "unable to create player: " se, ?_, GoError.Error_wrap _ _⟩
    rw [(Service.Create_of_no_collision env n s h r hvalid hhash hcheck hex).1 se hsave]
  · intro h r hvalid hhash hcheck hex
    rw [Service.Create_of_collision env n s h r hvalid hhash hcheck hex]
    rfl

/-- C7, amended, on a command with an empty first name: the message is the
prefix followed by the violation. -/
theorem Service.Create_error_messages_witness :
    ∃ e, (Service.Create (mockEnv (createMocks ⟨false, false⟩ none))
        { NewPlayerFixture with FirstName := "" } mockStart).1 = .error e ∧
      e.Error = "unable to create player: first name is empty" :=
  (Service.Create_error_messages (mockEnv (createMocks ⟨false, false⟩ none))
    { NewPlayerFixture with FirstName := "" } mockStart).1 (.join [errEmptyFirstName]) rfl

/-- C8: for a valid `NewPlayer` whose existence check reports no collision,
if `storage.Save` fails with an error of message `m`, `Service.Create` returns
no player and an error whose message is exactly "unable to create player: "
followed by `m`. `Save` is called with the player built from the hash `h` the
hasher returned, after the existence check. -/
theorem Service.Create_save_failure (env : Env σ) (n : NewPlayer) (s : Run σ) (h : Bytes)
    (r : PlayerExistResult) (se : GoError) (hvalid : n.Validate = none)
    (hhash : (Service.createHashed env n s).1 = .ok h)
    (hcheck : (Service.createChecked env n s).1 = .ok (some r)) (hnocoll : r.Exist = false)
    (hsave : (Service.createSaved env n s h).1 = some se) :
    ∃ e, (Service.Create env n s).1 = .error e ∧
      e.Error = "unable to create player: " ++ se.Error := by
  refine ⟨fmtErrorf "unable to create player: " se, ?_, GoError.Error_wrap _ _⟩
  rw [(Service.Create_of_no_collision env n s h r hvalid hhash hcheck hnocoll).1 se hsave]

/-- C8 on the test doubles of `TestCreatePlayerWithError`: `Save` fails with
"unexpected create error". -/
theorem Service.Create_save_failure_witness :
    NewPlayerFixture.Validate = none ∧
    (Service.createSaved (mockEnv (createMocks ⟨false, false⟩
      (some (.new "unexpected create error")))) NewPlayerFixture mockStart dummyHash).1 =
        some (.new "unexpected create error") ∧
    ∃ e, (Service.Create (mockEnv (createMocks ⟨false, false⟩
        (some (.new "unexpected create error")))) NewPlayerFixture mockStart).1 = .error e ∧
      e.Error = "unable to create player: unexpected create error" :=
  ⟨rfl, rfl,
    Service.Create_save_failure
      (mockEnv (createMocks ⟨false, false⟩ (some (.new "unexpected create error"))))
      NewPlayerFixture mockStart dummyHash ⟨false, false⟩ (.new "unexpected create error")
      rfl rfl rfl rfl rfl⟩

/-- C9: when `Service.Create` succeeds, the notifier has been called exactly
once in the run, with the event made of the string form of the returned
player's ID and "new player was created"; when it returns an error the
notifier has not been called; and the value `Service.Create` returns is the
same whatever the notifier does. -/
theorem Service.Create_notifies (env : Env σ) (n : NewPlayer) (s : Run σ) :
    (∀ p, (Service.Create env n s).1 = .ok p →
      ∃ id, p.ID = some id ∧
        (newCalls s (Service.Create env n s).2).filter Call.isNotify =
          [Call.Notify ⟨id.String, "new player was created"⟩]) ∧
    (∀ e, (Service.Create env n s).1 = .error e →
      (newCalls s (Service.Create env n s).2).filter Call.isNotify = []) ∧
    (∀ notify : NewEvent → σ → σ,
      (Service.Create { env with Notify := notify } n s).1 = (Service.Create env n s).1) := by
  refine ⟨?_, ?_, fun notify => Service.Create_fst_notify env notify n s⟩
  · intro p hp
    rcases Service.Create_cases env n s with ⟨ve, _, heq⟩ | ⟨_, he, _, heq⟩ |
      ⟨_, h, ce, _, _, heq⟩ | ⟨_, h, _, _, heq⟩ | ⟨_, h, r, _, _, _, heq⟩ |
      ⟨_, h, r, se, _, _, _, _, heq⟩ | ⟨_, h, r, id, _, _, _, _, hid, heq⟩
    all_goals rw [heq] at hp ⊢
    all_goals simp only [reduceCtorEq, Outcome.ok.injEq] at hp
    subst hp
    refine ⟨id, hid, ?_⟩
    simp only [Env.callNotify, Service.createSaved_calls, List.append_assoc, newCalls_append]
    simp [Call.isNotify]
  · intro e he
    rcases Service.Create_cases env n s with ⟨ve, _, heq⟩ | ⟨_, he', _, heq⟩ |
      ⟨_, h, ce, _, _, heq⟩ | ⟨_, h, _, _, heq⟩ | ⟨_, h, r, _, _, _, heq⟩ |
      ⟨_, h, r, se, _, _, _, _, heq⟩ | ⟨_, h, r, id, _, _, _, _, hid, heq⟩
    all_goals rw [heq] at he ⊢
    · simp [newCalls_self]
    · rw [show (Service.createHashed env n s).2 =
        ⟨(Service.createHashed env n s).2.world, s.calls ++ [Call.Hash n.Password]⟩ from rfl,
        newCalls_append]
      simp [Call.isNotify]
    · rw [show (Service.createChecked env n s).2 =
        ⟨(Service.createChecked env n s).2.world, (Service.createChecked env n s).2.calls⟩
          from rfl, Service.createChecked_calls, newCalls_append]
      simp [Call.isNotify]
    · simp at he
    · rw [show (Service.createChecked env n s).2 =
        ⟨(Service.createChecked env n s).2.world, (Service.createChecked env n s).2.calls⟩
          from rfl, Service.createChecked_calls, newCalls_append]
      simp [Call.isNotify]
    · rw [show (Service.createSaved env n s h).2 =
        ⟨(Service.createSaved env n s h).2.world, (Service.createSaved env n s h).2.calls⟩
          from rfl, Service.createSaved_calls, newCalls_append]
      simp [Call.isNotify]
    · simp at he

/-- C9 on the test doubles of `TestCreatePlayer`: the run calls the notifier
once, with the canonical text of the generated id and "new player was
created". -/
theorem Service.Create_notifies_witness :
    (newCalls mockStart (Service.Create (mockEnv (createMocks ⟨false, false⟩ none))
      NewPlayerFixture mockStart).2).filter Call.isNotify =
        [Call.Notify ⟨"b10d6af5-22f3-4db2-ade6-94cfcc819f91", "new player was created"⟩] := by
  obtain ⟨id, hid, hcalls⟩ :=
    (Service.Create_notifies (mockEnv (createMocks ⟨false, false⟩ none)) NewPlayerFixture
      mockStart).1 _ rfl
  have hid2 : id = ⟨0xb10d6af522f34db2ade694cfcc819f91⟩ := (Option.some.inj hid).symm
  subst hid2
  rw [hcalls]
  decide

/-! ## Create on the in-memory storage -/

theorem Service.createChecked_mem (hasher : String → Except GoError Bytes) (n : NewPlayer)
    (s : Run MemWorld) :
    (Service.createChecked (memEnv hasher) n s).1 =
      .ok (some
        { EmailExist := s.world.players.any fun q => q.Email.Address = n.Email.Address
          NicknameExist := s.world.players.any fun q => q.Nickname = n.Nickname }) := rfl

theorem Service.createHashed_mem_world (hasher : String → Except GoError Bytes) (n : NewPlayer)
    (s : Run MemWorld) : (Service.createHashed (memEnv hasher) n s).2.world = s.world := rfl

theorem Service.createChecked_mem_world (hasher : String → Except GoError Bytes) (n : NewPlayer)
    (s : Run MemWorld) : (Service.createChecked (memEnv hasher) n s).2.world = s.world := rfl

/-- A successful `Service.Create` on the in-memory storage appends the
returned player, which carries the email and the nickname of the command. -/
theorem Service.Create_mem_ok (hasher : String → Except GoError Bytes) (n : NewPlayer)
    (s : Run MemWorld) (p : Player) (hok : (Service.Create (memEnv hasher) n s).1 = .ok p) :
    (Service.Create (memEnv hasher) n s).2.world.players = s.world.players ++ [p] ∧
      p.Email = n.Email ∧ p.Nickname = n.Nickname := by
  rcases Service.Create_cases (memEnv hasher) n s with ⟨ve, _, heq⟩ | ⟨_, he, _, heq⟩ |
    ⟨_, h, ce, _, _, heq⟩ | ⟨_, h, _, _, heq⟩ | ⟨_, h, r, _, _, _, heq⟩ |
    ⟨_, h, r, se, _, _, _, _, heq⟩ | ⟨_, h, r, id, _, _, _, _, hid, heq⟩
  all_goals rw [heq] at hok ⊢
  all_goals simp only [reduceCtorEq, Outcome.ok.injEq] at hok
  subst hok
  exact ⟨rfl, rfl, rfl⟩

/-- C5, as stated, fails: on the in-memory storage a first `Service.Create`
succeeds, and a second call with the same email and nickname fails with a
validation error when its first name is empty, and with a hashing error when
the hasher refuses its password; neither is a `PlayerAlreadyExistsError`. -/
theorem Service.Create_twice_other_error :
    (∃ p, (Service.Create (memEnv limitedHasher) NewPlayerFixture memStart).1 = .ok p) ∧
    (∃ e, (Service.Create (memEnv limitedHasher) { NewPlayerFixture with FirstName := "" }
        (Service.Create (memEnv limitedHasher) NewPlayerFixture memStart).2).1 = .error e ∧
      e.Error = "unable to create player: first name is empty" ∧
      ∀ a b, e ≠ .alreadyExists a b) ∧
    (∃ e, (Service.Create (memEnv limitedHasher) { NewPlayerFixture with Password := longPassword }
        (Service.Create (memEnv limitedHasher) NewPlayerFixture memStart).2).1 = .error e ∧
      e.Error = "unable to hash password: unable to hash password" ∧
      ∀ a b, e ≠ .alreadyExists a b) := by
  refine ⟨⟨_, rfl⟩, ⟨_, rfl, rfl, ?_⟩, ⟨_, rfl, rfl, ?_⟩⟩
  · intro a b hab
    cases hab
  · intro a b hab
    cases hab

theorem newCalls_of_calls (s t : Run σ) (l : List Call) (h : t.calls = s.calls ++ l) :
    newCalls s t = l := by
  simp [newCalls, h]

/-- Either a run of `Service.Create` has not called `storage.Save`, or
validation and hashing passed, the existence check reported no collision and
`Save` was called exactly once, with the player built from the command. -/
theorem Service.Create_save_calls (env : Env σ) (n : NewPlayer) (s : Run σ) :
    (newCalls s (Service.Create env n s).2).filter Call.isSave = [] ∨
    (∃ h r, n.Validate = none ∧ (Service.createHashed env n s).1 = .ok h ∧
      (Service.createChecked env n s).1 = .ok (some r) ∧ r.Exist = false ∧
      (newCalls s (Service.Create env n s).2).filter Call.isSave =
        [Call.Save (Service.createBuilt env n s h).1]) := by
  rcases Service.Create_cases env n s with ⟨ve, _, heq⟩ | ⟨_, he, _, heq⟩ |
    ⟨_, h, ce, _, _, heq⟩ | ⟨_, h, _, _, heq⟩ | ⟨_, h, r, _, _, _, heq⟩ |
    ⟨hv, h, r, se, hh, hc, hex, _, heq⟩ | ⟨hv, h, r, id, hh, hc, hex, _, hid, heq⟩
  · left
    rw [heq]
    simp [newCalls_self]
  · left
    rw [heq, newCalls_of_calls _ _ _ (Service.createHashed_calls env n s)]
    simp [Call.isSave]
  · left
    rw [heq, newCalls_of_calls _ _ _ (Service.createChecked_calls env n s)]
    simp [Call.isSave]
  · left
    rw [heq, newCalls_of_calls _ _ _ (Service.createChecked_calls env n s)]
    simp [Call.isSave]
  · left
    rw [heq, newCalls_of_calls _ _ _ (Service.createChecked_calls env n s)]
    simp [Call.isSave]
  · right
    refine ⟨h, r, hv, hh, hc, hex, ?_⟩
    rw [heq, newCalls_of_calls _ _ _ (Service.createSaved_calls env n s h)]
    simp [Call.isSave]
  · right
    refine ⟨h, r, hv, hh, hc, hex, ?_⟩
    rw [heq]
    simp only [Env.callNotify, Service.createSaved_calls, List.append_assoc, newCalls_append]
    simp [Call.isSave]

/-- A run of `Service.Create` on the in-memory storage that does not succeed
leaves the saved records as they were. -/
theorem Service.Create_mem_error (hasher : String → Except GoError Bytes) (n : NewPlayer)
    (s : Run MemWorld) (hno : ∀ p, (Service.Create (memEnv hasher) n s).1 ≠ .ok p) :
    (Service.Create (memEnv hasher) n s).2.world.players = s.world.players ∧
      ∃ e, (Service.Create (memEnv hasher) n s).1 = .error e := by
  rcases Service.Create_cases (memEnv hasher) n s with ⟨ve, _, heq⟩ | ⟨_, he, _, heq⟩ |
    ⟨_, h, ce, _, hc, heq⟩ | ⟨_, h, _, hc, heq⟩ | ⟨_, h, r, _, _, _, heq⟩ |
    ⟨_, h, r, se, _, _, _, hs, heq⟩ | ⟨_, h, r, id, _, _, _, _, hid, heq⟩
  · rw [heq]
    exact ⟨rfl, _, rfl⟩
  · rw [heq]
    exact ⟨rfl, _, rfl⟩
  · simp [Service.createChecked_mem] at hc
  · simp [Service.createChecked_mem] at hc
  · rw [heq]
    exact ⟨rfl, _, rfl⟩
  · cases hs
  · exact absurd (by rw [heq]) (hno _)

/-- C5, amended: on the in-memory storage, if `Service.Create` succeeds for a
`NewPlayer` and is then called with a command of the same email address or the
same nickname, the second call fails and returns no player, does not call
`storage.Save`, and leaves the store with the records it had after the first
call; when the second command is valid and the hasher accepts its password,
the error is the `PlayerAlreadyExistsError` flagging the colliding field. For
any collaborators, when the existence check of a run reports a collision the
run does not call `Save`. -/
theorem Service.Create_no_duplicate :
    (∀ (hasher : String → Except GoError Bytes) (s : Run MemWorld) (n1 n2 : NewPlayer)
      (p1 : Player),
      (Service.Create (memEnv hasher) n1 s).1 = .ok p1 →
      (n2.Email.Address = n1.Email.Address ∨ n2.Nickname = n1.Nickname) →
      (∃ e, (Service.Create (memEnv hasher) n2 (Service.Create (memEnv hasher) n1 s).2).1 =
        .error e) ∧
      (newCalls (Service.Create (memEnv hasher) n1 s).2
        (Service.Create (memEnv hasher) n2 (Service.Create (memEnv hasher) n1 s).2).2).filter
          Call.isSave = [] ∧
      (Service.Create (memEnv hasher) n2
        (Service.Create (memEnv hasher) n1 s).2).2.world.players = s.world.players ++ [p1] ∧
      (n2.Validate = none → ∀ h, hasher n2.Password = .ok h →
        ∃ a b, (Service.Create (memEnv hasher) n2 (Service.Create (memEnv hasher) n1 s).2).1 =
            .error (.alreadyExists a b) ∧
          (n2.Email.Address = n1.Email.Address → a = true) ∧
          (n2.Nickname = n1.Nickname → b = true))) ∧
    (∀ (τ : Type) (env : Env τ) (n : NewPlayer) (s : Run τ) (r : PlayerExistResult),
      (Service.createChecked env n s).1 = .ok (some r) → r.Exist = true →
      (newCalls s (Service.Create env n s).2).filter Call.isSave = []) := by
  have general : ∀ (τ : Type) (env : Env τ) (n : NewPlayer) (s : Run τ) (r : PlayerExistResult),
      (Service.createChecked env n s).1 = .ok (some r) → r.Exist = true →
      (newCalls s (Service.Create env n s).2).filter Call.isSave = [] := by
    intro τ env n s r hcheck hex
    rcases Service.Create_save_calls env n s with h0 | ⟨h, r', _, _, hc, hne, _⟩
    · exact h0
    · simp only [hcheck, Except.ok.injEq, Option.some.injEq] at hc
      subst hc
      simp [hex] at hne
  refine ⟨?_, general⟩
  intro hasher s n1 n2 p1 hfirst hsame
  obtain ⟨hplayers, hemail, hnick⟩ := Service.Create_mem_ok hasher n1 s p1 hfirst
  have hcheck := Service.createChecked_mem hasher n2 (Service.Create (memEnv hasher) n1 s).2
  have hflags : (n2.Email.Address = n1.Email.Address →
        ((Service.Create (memEnv hasher) n1 s).2.world.players.any
          fun q => q.Email.Address = n2.Email.Address) = true) ∧
      (n2.Nickname = n1.Nickname →
        ((Service.Create (memEnv hasher) n1 s).2.world.players.any
          fun q => q.Nickname = n2.Nickname) = true) := by
    rw [hplayers]
    constructor
    · intro h
      simp [hemail, h]
    · intro h
      simp [hnick, h]
  have hexist : (PlayerExistResult.mk
      ((Service.Create (memEnv hasher) n1 s).2.world.players.any
        fun q => q.Email.Address = n2.Email.Address)
      ((Service.Create (memEnv hasher) n1 s).2.world.players.any
        fun q => q.Nickname = n2.Nickname)).Exist = true := by
    rcases hsame with h | h
    · simp [PlayerExistResult.Exist, hflags.1 h]
    · simp [PlayerExistResult.Exist, hflags.2 h]
  have hnosave := general MemWorld (memEnv hasher) n2 (Service.Create (memEnv hasher) n1 s).2 _
    hcheck hexist
  have hnotok : ∀ p, (Service.Create (memEnv hasher) n2
      (Service.Create (memEnv hasher) n1 s).2).1 ≠ .ok p := by
    intro p hp
    have hsaved := (Service.Create_mem_ok hasher n2 _ p hp).1
    rcases Service.Create_save_calls (memEnv hasher) n2 (Service.Create (memEnv hasher) n1 s).2
      with h0 | ⟨h, r', _, _, hc, hne, _⟩
    · rcases Service.Create_cases (memEnv hasher) n2 (Service.Create (memEnv hasher) n1 s).2
        with ⟨ve, _, heq⟩ | ⟨_, he, _, heq⟩ | ⟨_, h, ce, _, _, heq⟩ | ⟨_, h, _, _, heq⟩ |
          ⟨_, h, r, _, _, _, heq⟩ | ⟨_, h, r, se, _, _, _, _, heq⟩ |
          ⟨_, h, r, id, _, hc, hne, _, hid, heq⟩
      all_goals rw [heq] at hp
      all_goals simp only [reduceCtorEq] at hp
      simp only [hcheck, Except.ok.injEq, Option.some.injEq] at hc
      subst hc
      simp [hexist] at hne
    · simp only [hcheck, Except.ok.injEq, Option.some.injEq] at hc
      subst hc
      simp [hexist] at hne
  obtain ⟨hsame_players, herr⟩ := Service.Create_mem_error hasher n2 _ hnotok
  refine ⟨herr, hnosave, by rw [hsame_players, hplayers], ?_⟩
  intro hvalid h hh
  refine ⟨_, _, ?_, hflags.1, hflags.2⟩
  rw [Service.Create_of_collision (memEnv hasher) n2 _ h _ hvalid hh hcheck hexist]
  rfl

/-- C5, amended, on the in-memory storage: the fixture is created, a second
command with the same email under another nickname is refused with "player
with the given email already exists", and the store holds one record. -/
theorem Service.Create_no_duplicate_witness :
    (∃ p, (Service.Create (memEnv limitedHasher) NewPlayerFixture memStart).1 = .ok p) ∧
    (Service.Create (memEnv limitedHasher) { NewPlayerFixture with Nickname := "other" }
      (Service.Create (memEnv limitedHasher) NewPlayerFixture memStart).2).1 =
        .error (.alreadyExists true false) ∧
    (Service.Create (memEnv limitedHasher) { NewPlayerFixture with Nickname := "other" }
      (Service.Create (memEnv limitedHasher) NewPlayerFixture memStart).2).2.world.players.length
        = 1 := by
  obtain ⟨_, _, hplayers, _⟩ := Service.Create_no_duplicate.1 limitedHasher memStart
    NewPlayerFixture { NewPlayerFixture with Nickname := "other" } _ rfl (Or.inl rfl)
  exact ⟨⟨_, rfl⟩, rfl, by rw [hplayers]; rfl⟩

/-! ## Update -/

theorem areStringDifferent_same (newValue : Option String) (oldValue : String)
    (h : ∀ v, newValue = some v → v = oldValue) : areStringDifferent newValue oldValue = false := by
  cases newValue with
  | none => rfl
  | some v =>
    have hv := h v rfl
    subst hv
    simp [areStringDifferent]

/-- The merge reports no change and no replacement player when the password
is absent and every present field carries the stored value. -/
theorem UpdatePlayer.toPlayer_unchanged (env : Env σ) (u : UpdatePlayer) (p : Player) (s : Run σ)
    (hpw : u.Password = none)
    (hfn : ∀ v, u.FirstName = some v → v = p.FirstName)
    (hln : ∀ v, u.LastName = some v → v = p.LastName)
    (hnn : ∀ v, u.Nickname = some v → v = p.Nickname)
    (hco : ∀ v, u.Country = some v → v = p.Country)
    (hem : ∀ e, u.Email = some e → e = p.Email) :
    u.toPlayer env p s = (.ok { player := none, changes := false }, s) := by
  unfold UpdatePlayer.toPlayer
  cases hE : u.Email with
  | none =>
    simp [areStringDifferent_same _ _ hfn, areStringDifferent_same _ _ hln,
      areStringDifferent_same _ _ hnn, areStringDifferent_same _ _ hco, hpw,
      UpdatePlayer.toPlayerFinish]
  | some e =>
    have he := hem e hE
    subst he
    simp [areStringDifferent_same _ _ hfn, areStringDifferent_same _ _ hln,
      areStringDifferent_same _ _ hnn, areStringDifferent_same _ _ hco, hpw,
      UpdatePlayer.toPlayerFinish]

theorem Service.updateExistCheck_calls (env : Env σ) (u : UpdatePlayer) (s : Run σ) :
    (Service.updateExistCheck env u s).2.calls =
      s.calls ++ (if u.updateKeyValues then
        [Call.GetPlayersWithEmailOrNickName u.toPlayerFilter] else []) := by
  unfold Service.updateExistCheck
  cases hk : u.updateKeyValues with
  | false => simp
  | true =>
    simp only [if_true]
    have hc := Service.doesThePlayerAlreadyExist_calls env u.toPlayerFilter s
    split
    · exact hc
    · exact hc
    · split
      · exact hc
      · exact hc

theorem Service.updateLoaded_calls (env : Env σ) (u : UpdatePlayer) (s : Run σ) :
    (Service.updateLoaded env u s).2.calls =
      s.calls ++ ((if u.updateKeyValues then
        [Call.GetPlayersWithEmailOrNickName u.toPlayerFilter] else []) ++
          [Call.GetByID u.ID]) := by
  show (Service.updateExistCheck env u s).2.calls ++ [_] = _
  rw [Service.updateExistCheck_calls, List.append_assoc]

/-- The existence check of `Service.Update` lets the update go on when the
patch carries neither email nor nickname, or when the check answers without a
collision. -/
theorem Service.updateExistCheck_pass (env : Env σ) (u : UpdatePlayer) (s : Run σ)
    (hcheck : u.updateKeyValues = true →
      ∃ r, (Service.doesThePlayerAlreadyExist env u.toPlayerFilter s).1 = .ok (some r) ∧
        r.Exist = false) :
    (Service.updateExistCheck env u s).1 = none := by
  unfold Service.updateExistCheck
  cases hk : u.updateKeyValues with
  | false => simp
  | true =>
    obtain ⟨r, hr, hex⟩ := hcheck hk
    simp [hr, hex]

/-- C10: for a stored player `p` and a valid `UpdatePlayer` with `p`'s id, an
absent password and present fields all equal to `p`'s values, when no
collision is reported, `Service.Update` returns `p` itself with no error and
the run has called neither `storage.Update` nor the notifier. -/
theorem Service.Update_noop (env : Env σ) (u : UpdatePlayer) (p : Player) (s : Run σ)
    (hvalid : u.Validate = none)
    (hcheck : u.updateKeyValues = true →
      ∃ r, (Service.doesThePlayerAlreadyExist env u.toPlayerFilter s).1 = .ok (some r) ∧
        r.Exist = false)
    (hload : (Service.updateLoaded env u s).1 = .ok (some p))
    (hpw : u.Password = none)
    (hfn : ∀ v, u.FirstName = some v → v = p.FirstName)
    (hln : ∀ v, u.LastName = some v → v = p.LastName)
    (hnn : ∀ v, u.Nickname = some v → v = p.Nickname)
    (hco : ∀ v, u.Country = some v → v = p.Country)
    (hem : ∀ e, u.Email = some e → e = p.Email) :
    (Service.Update env u s).1 = .ok p ∧
    (newCalls s (Service.Update env u s).2).filter Call.isUpdate = [] ∧
    (newCalls s (Service.Update env u s).2).filter Call.isNotify = [] := by
  have heq : Service.Update env u s = (.ok p, (Service.updateLoaded env u s).2) := by
    unfold Service.Update
    simp only [hvalid, Service.updateExistCheck_pass env u s hcheck]
    simp only [Service.updateLoaded] at hload ⊢
    simp only [hload, UpdatePlayer.toPlayer_unchanged env u p _ hpw hfn hln hnn hco hem]
    simp
  rw [heq, newCalls_of_calls _ _ _ (Service.updateLoaded_calls env u s)]
  refine ⟨rfl, ?_, ?_⟩
  · by_cases hk : u.updateKeyValues = true <;> simp [hk, Call.isUpdate]
  · by_cases hk : u.updateKeyValues = true <;> simp [hk, Call.isNotify]

/-- C10 on the test doubles: a patch repeating the stored first name,
nickname and email leaves the stored player as it is. -/
theorem Service.Update_noop_witness :
    (UpdatePlayer.mk ⟨0xb10d6af522f34db2ade694cfcc819f91⟩ (some "Fernando") none
      (some "focampo") (some ⟨"", "focampo@anyemail.com"⟩) none none).Validate = none ∧
    (Service.Update (mockEnv (updateMocks (some storedPlayer) ⟨false, false⟩ none))
      (UpdatePlayer.mk ⟨0xb10d6af522f34db2ade694cfcc819f91⟩ (some "Fernando") none
        (some "focampo") (some ⟨"", "focampo@anyemail.com"⟩) none none) mockStart).1 =
      .ok storedPlayer ∧
    (newCalls mockStart
      (Service.Update (mockEnv (updateMocks (some storedPlayer) ⟨false, false⟩ none))
        (UpdatePlayer.mk ⟨0xb10d6af522f34db2ade694cfcc819f91⟩ (some "Fernando") none
          (some "focampo") (some ⟨"", "focampo@anyemail.com"⟩) none none)
        mockStart).2).filter Call.isUpdate = [] := by
  have t := Service.Update_noop (mockEnv (updateMocks (some storedPlayer) ⟨false, false⟩ none))
    (UpdatePlayer.mk ⟨0xb10d6af522f34db2ade694cfcc819f91⟩ (some "Fernando") none
      (some "focampo") (some ⟨"", "focampo@anyemail.com"⟩) none none) storedPlayer mockStart
    rfl (fun _ => ⟨⟨false, false⟩, rfl, rfl⟩) rfl rfl
    (fun v hv => (Option.some.inj hv).symm.trans rfl) (fun v hv => nomatch hv)
    (fun v hv => (Option.some.inj hv).symm.trans rfl) (fun v hv => nomatch hv)
    (fun e he => (Option.some.inj he).symm.trans rfl)
  exact ⟨rfl, t.1, t.2.1⟩


/-! ## The merge of `UpdatePlayer.toPlayer` -/

/-- The merge in closed form: the field steps yield `mergeFields` and
`fieldsChanged`; a present password is hashed and forces a change. -/
theorem UpdatePlayer.toPlayer_eq (env : Env σ) (u : UpdatePlayer) (p : Player) (s : Run σ) :
    u.toPlayer env p s =
      match u.Password with
      | some password =>
        match (env.callHash password s).1 with
        | .error err =>
          (.error (fmtErrorf "unable to hash password: " err), (env.callHash password s).2)
        | .ok hashedPassword =>
          UpdatePlayer.toPlayerFinish env { player := none, changes := true }
            { u.mergeFields p with Password := hashedPassword } (env.callHash password s).2
      | none =>
        UpdatePlayer.toPlayerFinish env { player := none, changes := u.fieldsChanged p }
          (u.mergeFields p) s := by
  have hem : (u.Email = none ∧ True) ∨ (∃ e, u.Email = some e ∧ e.Address = p.Email.Address) ∨
      (∃ e, u.Email = some e ∧ e.Address ≠ p.Email.Address) := by
    cases hE : u.Email with
    | none => exact Or.inl ⟨rfl, trivial⟩
    | some e =>
      by_cases h : e.Address = p.Email.Address
      · exact Or.inr (Or.inl ⟨e, rfl, h⟩)
      · exact Or.inr (Or.inr ⟨e, rfl, h⟩)
  unfold UpdatePlayer.toPlayer UpdatePlayer.mergeFields UpdatePlayer.fieldsChanged
  cases h1 : areStringDifferent u.FirstName p.FirstName <;>
  cases h2 : areStringDifferent u.LastName p.LastName <;>
  cases h3 : areStringDifferent u.Nickname p.Nickname <;>
  cases h4 : areStringDifferent u.Country p.Country <;>
  cases hP : u.Password <;>
  rcases hem with ⟨hE, hEa⟩ | ⟨e, hE, hEa⟩ | ⟨e, hE, hEa⟩ <;>
  simp [h1, h2, h3, h4, hE, hEa, UpdatePlayer.toPlayerFinish]

theorem UpdatePlayer.toPlayerFinish_calls (env : Env σ) (result : updateToPlayerResult)
    (player : Player) (s : Run σ) :
    (UpdatePlayer.toPlayerFinish env result player s).2.calls = s.calls := by
  unfold UpdatePlayer.toPlayerFinish
  split <;> rfl

/-- The merge calls the hasher once when the password is present, with the
new plaintext, and calls nothing else. -/
theorem UpdatePlayer.toPlayer_calls (env : Env σ) (u : UpdatePlayer) (p : Player) (s : Run σ) :
    (u.toPlayer env p s).2.calls = s.calls ++ (u.Password.map Call.Hash).toList := by
  rw [UpdatePlayer.toPlayer_eq]
  cases hP : u.Password with
  | none => simp [UpdatePlayer.toPlayerFinish_calls]
  | some password =>
    cases hh : (env.callHash password s).1 with
    | error err =>
      simp only [hh, Option.map_some', Option.toList_some]
      rfl
    | ok hashed =>
      simp only [hh, UpdatePlayer.toPlayerFinish_calls, Option.map_some', Option.toList_some]
      rfl

/-- What a successful merge yields: nothing when the password is absent and
no field differs; otherwise the merged fields with the clock reading as
`DateUpdated` and, when the password is present, the new hash. -/
theorem UpdatePlayer.toPlayer_ok (env : Env σ) (u : UpdatePlayer) (p : Player) (s : Run σ)
    (res : updateToPlayerResult) (hok : (u.toPlayer env p s).1 = .ok res) :
    (u.Password = none ∧ u.fieldsChanged p = false ∧ res = { player := none, changes := false }) ∨
    (u.Password = none ∧ u.fieldsChanged p = true ∧
      res = { player := some { u.mergeFields p with DateUpdated := (timeNowUTC env s).1 },
              changes := true }) ∨
    (∃ password hashed, u.Password = some password ∧
      (env.callHash password s).1 = .ok hashed ∧
      res = { player := some { u.mergeFields p with
                Password := hashed
                DateUpdated := (timeNowUTC env (env.callHash password s).2).1 },
              changes := true }) := by
  rw [UpdatePlayer.toPlayer_eq] at hok
  cases hP : u.Password with
  | none =>
    rw [hP] at hok
    cases hc : u.fieldsChanged p with
    | false =>
      left
      simp [UpdatePlayer.toPlayerFinish, hc] at hok
      exact ⟨rfl, rfl, hok.symm⟩
    | true =>
      right; left
      simp [UpdatePlayer.toPlayerFinish, hc] at hok
      exact ⟨rfl, rfl, hok.symm⟩
  | some password =>
    rw [hP] at hok
    right; right
    cases hh : (env.callHash password s).1 with
    | error err => simp [hh] at hok
    | ok hashed =>
      simp [hh, UpdatePlayer.toPlayerFinish] at hok
      exact ⟨password, hashed, rfl, hh, hok.symm⟩

/-! ## The paths of `Service.Update` -/

/-- The four answers of the existence check of `Service.Update` and what the
check stage makes of them. -/
theorem Service.updateExistCheck_cases (env : Env σ) (u : UpdatePlayer) (s : Run σ) :
    (u.updateKeyValues = false ∧ Service.updateExistCheck env u s = (none, s)) ∨
    (u.updateKeyValues = true ∧
      ((∃ ce, (Service.doesThePlayerAlreadyExist env u.toPlayerFilter s).1 = .error ce ∧
          Service.updateExistCheck env u s =
            (some (.error (fmtErrorf "unable to update player: " ce)),
              (Service.doesThePlayerAlreadyExist env u.toPlayerFilter s).2)) ∨
        ((Service.doesThePlayerAlreadyExist env u.toPlayerFilter s).1 = .ok none ∧
          Service.updateExistCheck env u s =
            (some .panic, (Service.doesThePlayerAlreadyExist env u.toPlayerFilter s).2)) ∨
        (∃ r, (Service.doesThePlayerAlreadyExist env u.toPlayerFilter s).1 = .ok (some r) ∧
          r.Exist = true ∧
          Service.updateExistCheck env u s =
            (some (.error r.toPlayerAlreadyExistsError),
              (Service.doesThePlayerAlreadyExist env u.toPlayerFilter s).2)) ∨
        (∃ r, (Service.doesThePlayerAlreadyExist env u.toPlayerFilter s).1 = .ok (some r) ∧
          r.Exist = false ∧
          Service.updateExistCheck env u s =
            (none, (Service.doesThePlayerAlreadyExist env u.toPlayerFilter s).2)))) := by
  unfold Service.updateExistCheck
  cases hk : u.updateKeyValues with
  | false => exact Or.inl ⟨rfl, by simp⟩
  | true =>
    refine Or.inr ⟨rfl, ?_⟩
    cases hc : (Service.doesThePlayerAlreadyExist env u.toPlayerFilter s).1 with
    | error ce => exact Or.inl ⟨ce, rfl, by simp [hc]⟩
    | ok o =>
      cases o with
      | none => exact Or.inr (Or.inl ⟨rfl, by simp [hc]⟩)
      | some r =>
        cases hex : r.Exist with
        | true => exact Or.inr (Or.inr (Or.inl ⟨r, rfl, hex, by simp [hc, hex]⟩))
        | false => exact Or.inr (Or.inr (Or.inr ⟨r, rfl, hex, by simp [hc, hex]⟩))

/-- Every run of `Service.Update` takes one of ten paths; each is given with
the answers of the collaborators that select it and with its result. -/
theorem Service.Update_cases (env : Env σ) (u : UpdatePlayer) (s : Run σ) :
    (∃ ve, u.Validate = some ve ∧
      Service.Update env u s = (.error (fmtErrorf "unable to update player: " ve), s)) ∨
    (u.Validate = none ∧ ∃ out, (Service.updateExistCheck env u s).1 = some out ∧
      Service.Update env u s = (out, (Service.updateExistCheck env u s).2)) ∨
    (u.Validate = none ∧ (Service.updateExistCheck env u s).1 = none ∧
      ∃ ge, (Service.updateLoaded env u s).1 = .error ge ∧
        Service.Update env u s =
          (.error (fmtErrorf "unable to update player: " ge), (Service.updateLoaded env u s).2)) ∨
    (u.Validate = none ∧ (Service.updateExistCheck env u s).1 = none ∧
      (Service.updateLoaded env u s).1 = .ok none ∧
      Service.Update env u s = (.error ErrPlayerDoesNotExist, (Service.updateLoaded env u s).2)) ∨
    (u.Validate = none ∧ (Service.updateExistCheck env u s).1 = none ∧
      ∃ p me, (Service.updateLoaded env u s).1 = .ok (some p) ∧
        (Service.updateMerged env u s p).1 = .error me ∧
        Service.Update env u s =
          (.error (fmtErrorf "unable to update player: " me),
            (Service.updateMerged env u s p).2)) ∨
    (u.Validate = none ∧ (Service.updateExistCheck env u s).1 = none ∧
      ∃ p res, (Service.updateLoaded env u s).1 = .ok (some p) ∧
        (Service.updateMerged env u s p).1 = .ok res ∧ res.changes = false ∧
        Service.Update env u s = (.ok p, (Service.updateMerged env u s p).2)) ∨
    (u.Validate = none ∧ (Service.updateExistCheck env u s).1 = none ∧
      ∃ p res, (Service.updateLoaded env u s).1 = .ok (some p) ∧
        (Service.updateMerged env u s p).1 = .ok res ∧ res.changes = true ∧
        res.player = none ∧
        Service.Update env u s = (.panic, (Service.updateMerged env u s p).2)) ∨
    (u.Validate = none ∧ (Service.updateExistCheck env u s).1 = none ∧
      ∃ p res q se, (Service.updateLoaded env u s).1 = .ok (some p) ∧
        (Service.updateMerged env u s p).1 = .ok res ∧ res.changes = true ∧
        res.player = some q ∧ (Service.updatePersisted env u s p q).1 = some se ∧
        Service.Update env u s =
          (.error (fmtErrorf "unable to update player: " se),
            (Service.updatePersisted env u s p q).2)) ∨
    (u.Validate = none ∧ (Service.updateExistCheck env u s).1 = none ∧
      ∃ p res q, (Service.updateLoaded env u s).1 = .ok (some p) ∧
        (Service.updateMerged env u s p).1 = .ok res ∧ res.changes = true ∧
        res.player = some q ∧ (Service.updatePersisted env u s p q).1 = none ∧
        p.ID = none ∧
        Service.Update env u s = (.panic, (Service.updatePersisted env u s p q).2)) ∨
    (u.Validate = none ∧ (Service.updateExistCheck env u s).1 = none ∧
      ∃ p res q id, (Service.updateLoaded env u s).1 = .ok (some p) ∧
        (Service.updateMerged env u s p).1 = .ok res ∧ res.changes = true ∧
        res.player = some q ∧ (Service.updatePersisted env u s p q).1 = none ∧
        p.ID = some id ∧
        Service.Update env u s =
          (.ok q, env.callNotify ⟨id.String, "player was updated"⟩
            (Service.updatePersisted env u s p q).2)) := by
  unfold Service.Update
  cases hv : u.Validate with
  | some ve => exact Or.inl ⟨ve, rfl, rfl⟩
  | none =>
    right
    cases hc : (Service.updateExistCheck env u s).1 with
    | some out => exact Or.inl ⟨rfl, out, rfl, by simp only [hc]⟩
    | none =>
      right
      cases hg : (Service.updateLoaded env u s).1 with
      | error ge =>
        refine Or.inl ⟨rfl, rfl, ge, rfl, ?_⟩
        simp only [Service.updateLoaded] at hg ⊢
        simp only [hc, hg]
      | ok o =>
        right
        cases o with
        | none =>
          refine Or.inl ⟨rfl, rfl, rfl, ?_⟩
          simp only [Service.updateLoaded] at hg ⊢
          simp only [hc, hg]
        | some p =>
          right
          cases ht : (Service.updateMerged env u s p).1 with
          | error me =>
            refine Or.inl ⟨rfl, rfl, p, me, rfl, ht, ?_⟩
            simp only [Service.updateLoaded, Service.updateMerged] at hg ht ⊢
            simp only [hc, hg, ht]
          | ok res =>
            right
            cases hch : res.changes with
            | false =>
              refine Or.inl ⟨rfl, rfl, p, res, rfl, ht, hch, ?_⟩
              simp only [Service.updateLoaded, Service.updateMerged] at hg ht ⊢
              simp [hc, hg, ht, hch]
            | true =>
              right
              cases hpl : res.player with
              | none =>
                refine Or.inl ⟨rfl, rfl, p, res, rfl, ht, hch, hpl, ?_⟩
                simp only [Service.updateLoaded, Service.updateMerged] at hg ht ⊢
                simp [hc, hg, ht, hch, hpl]
              | some q =>
                right
                cases hu : (Service.updatePersisted env u s p q).1 with
                | some se =>
                  refine Or.inl ⟨rfl, rfl, p, res, q, se, rfl, ht, hch, hpl, hu, ?_⟩
                  simp only [Service.updateLoaded, Service.updateMerged,
                    Service.updatePersisted] at hg ht hu ⊢
                  simp [hc, hg, ht, hch, hpl, hu]
                | none =>
                  right
                  cases hid : p.ID with
                  | none =>
                    refine Or.inl ⟨rfl, rfl, p, res, q, rfl, ht, hch, hpl, hu, hid, ?_⟩
                    simp only [Service.updateLoaded, Service.updateMerged,
                      Service.updatePersisted] at hg ht hu ⊢
                    simp [hc, hg, ht, hch, hpl, hu, hid, newUpdatePlayerEvent]
                  | some id =>
                    refine Or.inr ⟨rfl, rfl, p, res, q, id, rfl, ht, hch, hpl, hu, hid, ?_⟩
                    simp only [Service.updateLoaded, Service.updateMerged,
                      Service.updatePersisted] at hg ht hu ⊢
                    simp [hc, hg, ht, hch, hpl, hu, hid, newUpdatePlayerEvent]

theorem Service.updateMerged_calls (env : Env σ) (u : UpdatePlayer) (s : Run σ) (p : Player) :
    (Service.updateMerged env u s p).2.calls =
      s.calls ++ ((if u.updateKeyValues then
        [Call.GetPlayersWithEmailOrNickName u.toPlayerFilter] else []) ++
          [Call.GetByID u.ID] ++ (u.Password.map Call.Hash).toList) := by
  unfold Service.updateMerged
  rw [UpdatePlayer.toPlayer_calls, Service.updateLoaded_calls]
  simp only [List.append_assoc]

theorem Service.updatePersisted_calls (env : Env σ) (u : UpdatePlayer) (s : Run σ)
    (p q : Player) :
    (Service.updatePersisted env u s p q).2.calls =
      s.calls ++ ((if u.updateKeyValues then
        [Call.GetPlayersWithEmailOrNickName u.toPlayerFilter] else []) ++
          [Call.GetByID u.ID] ++ (u.Password.map Call.Hash).toList ++ [Call.Update q]) := by
  show (Service.updateMerged env u s p).2.calls ++ [_] = _
  rw [Service.updateMerged_calls]
  simp only [List.append_assoc]

/-- A check stage that stops the update does so with an error or a panic. -/
theorem Service.updateExistCheck_not_ok (env : Env σ) (u : UpdatePlayer) (s : Run σ)
    (out : Outcome Player) (h : (Service.updateExistCheck env u s).1 = some out) (q : Player) :
    out ≠ .ok q := by
  rcases Service.updateExistCheck_cases env u s with ⟨_, heq⟩ | ⟨_, ⟨ce, _, heq⟩ | ⟨_, heq⟩ |
    ⟨r, _, _, heq⟩ | ⟨r, _, _, heq⟩⟩
  all_goals rw [heq] at h
  all_goals simp only [reduceCtorEq, Option.some.injEq] at h
  all_goals subst h
  all_goals simp

/-- A valid `UpdatePlayer` has no field that is present and empty. -/
theorem UpdatePlayer.Validate_none (u : UpdatePlayer) (hvalid : u.Validate = none) :
    u.FirstName ≠ some "" ∧ u.LastName ≠ some "" ∧ u.Nickname ≠ some "" ∧
      u.Country ≠ some "" ∧ u.Password ≠ some "" ∧
      ∀ e, u.Email = some e → e.Address ≠ "" := by
  obtain ⟨id, fn, ln, nn, em, pw, co⟩ := u
  have hem : (em = none ∧ True) ∨ (∃ e, em = some e ∧ e.Address = "") ∨
      (∃ e, em = some e ∧ e.Address ≠ "") := by
    cases em with
    | none => exact Or.inl ⟨rfl, trivial⟩
    | some e =>
      by_cases h : e.Address = ""
      · exact Or.inr (Or.inl ⟨e, rfl, h⟩)
      · exact Or.inr (Or.inr ⟨e, rfl, h⟩)
  revert hvalid
  by_cases h1 : fn = some "" <;> by_cases h2 : ln = some "" <;>
  by_cases h3 : nn = some "" <;> by_cases h5 : co = some "" <;>
  by_cases h6 : pw = some "" <;>
  rcases hem with ⟨h4, h4a⟩ | ⟨e, h4, h4a⟩ | ⟨e, h4, h4a⟩ <;>
  simp [UpdatePlayer.Validate, isStringEmpty_eq_true, h1, h2, h3, h4, h4a, h5, h6, errorsJoin]

/-- A string field after the merge: the value of the patch when it is present
and non-empty, the stored value when the patch leaves it out. -/
theorem mergeString_spec (newValue : Option String) (oldValue : String) :
    (∀ v, newValue = some v → v ≠ "" →
      (if areStringDifferent newValue oldValue then newValue.getD "" else oldValue) = v) ∧
    (newValue = none →
      (if areStringDifferent newValue oldValue then newValue.getD "" else oldValue) =
        oldValue) := by
  constructor
  · intro v hv hne
    subst hv
    by_cases h : v = oldValue
    · simp [areStringDifferent, h]
    · simp [areStringDifferent, h, hne]
  · intro hn
    subst hn
    simp [areStringDifferent]

/-- When no field step records a change the merged fields are the stored
player. -/
theorem UpdatePlayer.mergeFields_unchanged (u : UpdatePlayer) (p : Player)
    (h : u.fieldsChanged p = false) : u.mergeFields p = p := by
  unfold UpdatePlayer.fieldsChanged at h
  simp only [Bool.or_eq_false_iff] at h
  obtain ⟨⟨⟨⟨h1, h2⟩, h3⟩, h4⟩, h5⟩ := h
  unfold UpdatePlayer.mergeFields
  cases hE : u.Email with
  | none => simp [h1, h2, h3, h4]
  | some e =>
    rw [hE] at h5
    simp only [ne_eq, decide_not, Bool.not_eq_false', decide_eq_true_eq] at h5
    simp [h1, h2, h3, h4, h5]

/-- The player a successful `Service.Update` returns carries the id, the
creation date and the merged fields of the loaded player, and the patch is
valid. -/
theorem Service.Update_ok_fields (env : Env σ) (u : UpdatePlayer) (s : Run σ) (p q : Player)
    (hload : (Service.updateLoaded env u s).1 = .ok (some p))
    (hok : (Service.Update env u s).1 = .ok q) :
    u.Validate = none ∧ q.ID = p.ID ∧ q.DateCreated = p.DateCreated ∧
      q.FirstName = (u.mergeFields p).FirstName ∧ q.LastName = (u.mergeFields p).LastName ∧
      q.Nickname = (u.mergeFields p).Nickname ∧ q.Country = (u.mergeFields p).Country ∧
      q.Email = (u.mergeFields p).Email := by
  rcases Service.Update_cases env u s with ⟨ve, _, heq⟩ | ⟨_, out, hout, heq⟩ |
    ⟨_, _, ge, _, heq⟩ | ⟨_, _, _, heq⟩ | ⟨_, _, p', me, _, _, heq⟩ |
    ⟨hv, _, p', res, hl, hm, hch, heq⟩ | ⟨_, _, p', res, _, _, _, _, heq⟩ |
    ⟨_, _, p', res, q', se, _, _, _, _, _, heq⟩ | ⟨_, _, p', res, q', _, _, _, _, _, _, heq⟩ |
    ⟨hv, _, p', res, q', id, hl, hm, hch, hpl, _, _, heq⟩
  · rw [heq] at hok
    simp at hok
  · rw [heq] at hok
    exact absurd hok (Service.updateExistCheck_not_ok env u s out hout q)
  · rw [heq] at hok
    simp at hok
  · rw [heq] at hok
    simp at hok
  · rw [heq] at hok
    simp at hok
  · rw [heq] at hok
    simp only [Outcome.ok.injEq] at hok
    simp only [hload, Except.ok.injEq, Option.some.injEq] at hl
    subst hl
    subst hok
    rcases UpdatePlayer.toPlayer_ok env u _ _ res hm with ⟨_, hfc, _⟩ | ⟨_, _, hres⟩ |
      ⟨pw, hs, _, _, hres⟩
    · rw [UpdatePlayer.mergeFields_unchanged u _ hfc]
      exact ⟨hv, rfl, rfl, rfl, rfl, rfl, rfl, rfl⟩
    · rw [hres] at hch
      simp at hch
    · rw [hres] at hch
      simp at hch
  · rw [heq] at hok
    simp at hok
  · rw [heq] at hok
    simp at hok
  · rw [heq] at hok
    simp at hok
  · rw [heq] at hok
    simp only [Outcome.ok.injEq] at hok
    simp only [hload, Except.ok.injEq, Option.some.injEq] at hl
    subst hl
    subst hok
    rcases UpdatePlayer.toPlayer_ok env u _ _ res hm with ⟨_, _, hres⟩ | ⟨_, _, hres⟩ |
      ⟨pw, hs, _, _, hres⟩
    · rw [hres] at hch
      simp at hch
    · rw [hres] at hpl
      simp only [Option.some.injEq] at hpl
      subst hpl
      exact ⟨hv, rfl, rfl, rfl, rfl, rfl, rfl, rfl⟩
    · rw [hres] at hpl
      simp only [Option.some.injEq] at hpl
      subst hpl
      exact ⟨hv, rfl, rfl, rfl, rfl, rfl, rfl, rfl⟩

/-- C11, as stated, fails for the email: on the test doubles, a patch whose
email has the stored address under another display name, together with a new
password, is a changing update that succeeds, and the returned player keeps
the stored email value, which is not the patch's. -/
theorem Service.Update_keeps_stored_email :
    ∃ q, (Service.Update (mockEnv (updateMocks (some storedPlayer) ⟨false, false⟩ none))
        { UpdatePlayerFixture with
          Email := some { Name := "Fernando Ocampo", Address := "focampo@anyemail.com" } }
        mockStart).1 = .ok q ∧
      q ≠ storedPlayer ∧ q.Email = storedPlayer.Email ∧
      q.Email ≠ { Name := "Fernando Ocampo", Address := "focampo@anyemail.com" } :=
  ⟨_, rfl, by decide, rfl, by decide⟩

/-- C11, amended: when `Service.Update` succeeds on a stored player `p`, each
of FirstName, LastName, Nickname and Country of the returned player is the
patch's value when the field is present and `p`'s value when it is absent; the
email address is the patch's when the email is present (the whole email value
is the patch's when its address differs from the stored one, and `p`'s when
the address is the same) and the email is `p`'s when absent; ID and
DateCreated are `p`'s. -/
theorem Service.Update_merges (env : Env σ) (u : UpdatePlayer) (s : Run σ) (p q : Player)
    (hload : (Service.updateLoaded env u s).1 = .ok (some p))
    (hok : (Service.Update env u s).1 = .ok q) :
    q.ID = p.ID ∧ q.DateCreated = p.DateCreated ∧
    ((∀ v, u.FirstName = some v → q.FirstName = v) ∧
      (u.FirstName = none → q.FirstName = p.FirstName)) ∧
    ((∀ v, u.LastName = some v → q.LastName = v) ∧
      (u.LastName = none → q.LastName = p.LastName)) ∧
    ((∀ v, u.Nickname = some v → q.Nickname = v) ∧
      (u.Nickname = none → q.Nickname = p.Nickname)) ∧
    ((∀ v, u.Country = some v → q.Country = v) ∧
      (u.Country = none → q.Country = p.Country)) ∧
    ((∀ e, u.Email = some e → q.Email.Address = e.Address ∧
        (e.Address ≠ p.Email.Address → q.Email = e) ∧
        (e.Address = p.Email.Address → q.Email = p.Email)) ∧
      (u.Email = none → q.Email = p.Email)) := by
  obtain ⟨hvalid, hid, hdc, hfn, hln, hnn, hco, hem⟩ :=
    Service.Update_ok_fields env u s p q hload hok
  obtain ⟨v1, v2, v3, v4, _, _⟩ := UpdatePlayer.Validate_none u hvalid
  refine ⟨hid, hdc, ⟨?_, ?_⟩, ⟨?_, ?_⟩, ⟨?_, ?_⟩, ⟨?_, ?_⟩, ⟨?_, ?_⟩⟩
  · intro v hv
    rw [hfn]
    exact (mergeString_spec u.FirstName p.FirstName).1 v hv (fun h => v1 (by rw [hv, h]))
  · intro hn
    rw [hfn]
    exact (mergeString_spec u.FirstName p.FirstName).2 hn
  · intro v hv
    rw [hln]
    exact (mergeString_spec u.LastName p.LastName).1 v hv (fun h => v2 (by rw [hv, h]))
  · intro hn
    rw [hln]
    exact (mergeString_spec u.LastName p.LastName).2 hn
  · intro v hv
    rw [hnn]
    exact (mergeString_spec u.Nickname p.Nickname).1 v hv (fun h => v3 (by rw [hv, h]))
  · intro hn
    rw [hnn]
    exact (mergeString_spec u.Nickname p.Nickname).2 hn
  · intro v hv
    rw [hco]
    exact (mergeString_spec u.Country p.Country).1 v hv (fun h => v4 (by rw [hv, h]))
  · intro hn
    rw [hco]
    exact (mergeString_spec u.Country p.Country).2 hn
  · intro e he
    rw [hem]
    unfold UpdatePlayer.mergeFields
    by_cases ha : e.Address = p.Email.Address
    · simp [he, ha]
    · simp [he, ha]
  · intro hn
    rw [hem]
    unfold UpdatePlayer.mergeFields
    simp [hn]

/-- C11, amended, on the test doubles of `TestUpdatePlayer`: a patch with a
new email and a new password changes the email and leaves the names, the
country, the id and the creation date as stored. -/
theorem Service.Update_merges_witness :
    ∃ q, (Service.Update (mockEnv (updateMocks (some storedPlayer) ⟨false, false⟩ none))
        UpdatePlayerFixture mockStart).1 = .ok q ∧
      q.Email = { Name := "", Address := "focampo@anotheremail.com" } ∧
      q.FirstName = "Fernando" ∧ q.LastName = "Ocampo" ∧ q.Nickname = "focampo" ∧
      q.Country = "Spain" ∧ q.ID = storedPlayer.ID ∧ q.DateCreated = 1600000000 := by
  have t := Service.Update_merges (mockEnv (updateMocks (some storedPlayer) ⟨false, false⟩ none))
    UpdatePlayerFixture mockStart storedPlayer _ rfl rfl
  exact ⟨_, rfl, (t.2.2.2.2.2.2.1 _ rfl).2.1 (by decide), t.2.2.1.2 rfl, t.2.2.2.1.2 rfl,
    t.2.2.2.2.1.2 rfl, t.2.2.2.2.2.1.2 rfl, t.1, t.2.1⟩

/-- C12: when the password field is present, `UpdatePlayer.toPlayer` calls
the hasher, once, on the new plaintext, and when the hasher returns a hash it
reports `changes = true` with a replacement player whose password is that
hash, whatever the other fields are. -/
theorem UpdatePlayer.toPlayer_rehashes (env : Env σ) (u : UpdatePlayer) (p : Player)
    (s : Run σ) (password : String) (hpw : u.Password = some password) :
    newCalls s (u.toPlayer env p s).2 = [Call.Hash password] ∧
    (∀ hashed, (env.callHash password s).1 = .ok hashed →
      ∃ q, (u.toPlayer env p s).1 = .ok { player := some q, changes := true } ∧
        q.Password = hashed) := by
  constructor
  · rw [newCalls_of_calls _ _ _ (UpdatePlayer.toPlayer_calls env u p s), hpw]
    rfl
  · intro hashed hh
    rw [UpdatePlayer.toPlayer_eq, hpw]
    simp only [hh, UpdatePlayer.toPlayerFinish, if_true]
    exact ⟨_, rfl, rfl⟩

/-- C12 on the test doubles: a patch carrying only a password, on the stored
player, is hashed and flagged as a change. -/
theorem UpdatePlayer.toPlayer_rehashes_witness :
    newCalls mockStart
      (UpdatePlayer.toPlayer (mockEnv (updateMocks (some storedPlayer) ⟨false, false⟩ none))
        { UpdatePlayerFixture with Email := none } storedPlayer mockStart).2 =
        [Call.Hash "newpwd"] ∧
    ∃ q, (UpdatePlayer.toPlayer (mockEnv (updateMocks (some storedPlayer) ⟨false, false⟩ none))
        { UpdatePlayerFixture with Email := none } storedPlayer mockStart).1 =
          .ok { player := some q, changes := true } ∧
      q.Password = dummyHash :=
  ⟨(UpdatePlayer.toPlayer_rehashes (mockEnv (updateMocks (some storedPlayer) ⟨false, false⟩ none))
      { UpdatePlayerFixture with Email := none } storedPlayer mockStart "newpwd" rfl).1,
    (UpdatePlayer.toPlayer_rehashes (mockEnv (updateMocks (some storedPlayer) ⟨false, false⟩ none))
      { UpdatePlayerFixture with Email := none } storedPlayer mockStart "newpwd" rfl).2
        dummyHash rfl⟩

theorem Env.callNotify_calls (env : Env σ) (event : NewEvent) (s : Run σ) :
    (env.callNotify event s).calls = s.calls ++ [Call.Notify event] := rfl

/-- The result of `Service.Update` when the check stage stops a valid update. -/
theorem Service.Update_of_check_stop (env : Env σ) (u : UpdatePlayer) (s : Run σ)
    (out : Outcome Player) (hvalid : u.Validate = none)
    (hc : (Service.updateExistCheck env u s).1 = some out) :
    Service.Update env u s = (out, (Service.updateExistCheck env u s).2) := by
  unfold Service.Update
  simp only [hvalid, hc]

/-- The result of `Service.Update` on a valid patch that passes the existence
check, loads the player `p` and merges into it with a change: it is decided by
`storage.Update` on the replacement player. -/
theorem Service.Update_of_changed (env : Env σ) (u : UpdatePlayer) (s : Run σ) (p : Player)
    (res : updateToPlayerResult) (hvalid : u.Validate = none)
    (hcheck : (Service.updateExistCheck env u s).1 = none)
    (hload : (Service.updateLoaded env u s).1 = .ok (some p))
    (hmerge : (Service.updateMerged env u s p).1 = .ok res) (hchg : res.changes = true) :
    ∃ q, res.player = some q ∧
      (∀ se, (Service.updatePersisted env u s p q).1 = some se →
        Service.Update env u s =
          (.error (fmtErrorf "unable to update player: " se),
            (Service.updatePersisted env u s p q).2)) ∧
      (∀ id, (Service.updatePersisted env u s p q).1 = none → p.ID = some id →
        Service.Update env u s =
          (.ok q, env.callNotify ⟨id.String, "player was updated"⟩
            (Service.updatePersisted env u s p q).2)) := by
  have hq : ∃ q, res.player = some q := by
    rcases UpdatePlayer.toPlayer_ok env u p _ res hmerge with ⟨_, _, hres⟩ | ⟨_, _, hres⟩ |
      ⟨pw, hs, _, _, hres⟩
    · rw [hres] at hchg
      simp at hchg
    · exact ⟨_, by rw [hres]⟩
    · exact ⟨_, by rw [hres]⟩
  obtain ⟨q, hq⟩ := hq
  refine ⟨q, hq, ?_, ?_⟩
  · intro se hse
    unfold Service.Update
    simp only [Service.updateLoaded, Service.updateMerged, Service.updatePersisted]
      at hload hmerge hse ⊢
    simp [hvalid, hcheck, hload, hmerge, hchg, hq, hse]
  · intro id hnone hid
    unfold Service.Update
    simp only [Service.updateLoaded, Service.updateMerged, Service.updatePersisted]
      at hload hmerge hnone ⊢
    simp [hvalid, hcheck, hload, hmerge, hchg, hq, hnone, hid, newUpdatePlayerEvent]

/-- C13, as stated, fails: on test doubles whose `GetByID` reports the id as
absent and whose existence check reports an email collision, `Service.Update`
of the valid patch of `TestUpdatePlayer` fails with "player with the given
email already exists", not with `ErrPlayerDoesNotExist`. -/
theorem Service.Update_absent_but_collision :
    UpdatePlayerFixture.Validate = none ∧
    (Service.updateLoaded (mockEnv (updateMocks none ⟨true, false⟩ none)) UpdatePlayerFixture
      mockStart).1 = .ok none ∧
    ∃ e, (Service.Update (mockEnv (updateMocks none ⟨true, false⟩ none)) UpdatePlayerFixture
        mockStart).1 = .error e ∧
      e.Error = "player with the given email already exists" ∧
      e.Error ≠ ErrPlayerDoesNotExist.Error :=
  ⟨rfl, rfl, _, rfl, rfl, by decide⟩

/-- C13, amended: for a valid `UpdatePlayer` whose id the store reports as
absent, `Service.Update` fails with `ErrPlayerDoesNotExist` ("player doesn't
exist") when the existence check is not run or reports no collision; whatever
the check reports, `Service.Update` returns no player and never calls
`storage.Update`. -/
theorem Service.Update_not_found (env : Env σ) (u : UpdatePlayer) (s : Run σ)
    (hvalid : u.Validate = none)
    (hload : (Service.updateLoaded env u s).1 = .ok none) :
    ((u.updateKeyValues = true →
        ∃ r, (Service.doesThePlayerAlreadyExist env u.toPlayerFilter s).1 = .ok (some r) ∧
          r.Exist = false) →
      (Service.Update env u s).1 = .error ErrPlayerDoesNotExist) ∧
    ErrPlayerDoesNotExist.Error = "player doesn't exist" ∧
    (∀ q, (Service.Update env u s).1 ≠ .ok q) ∧
    (newCalls s (Service.Update env u s).2).filter Call.isUpdate = [] := by
  have hfilter : (if u.updateKeyValues then
      [Call.GetPlayersWithEmailOrNickName u.toPlayerFilter] else []).filter
        Call.isUpdate = [] := by
    cases u.updateKeyValues <;> simp [Call.isUpdate]
  rcases Service.Update_cases env u s with ⟨ve, hv, _⟩ | ⟨_, out, hout, heq⟩ |
    ⟨_, _, ge, hl, _⟩ | ⟨_, _, _, heq⟩ | ⟨_, _, p', me, hl, _⟩ |
    ⟨_, _, p', res, hl, _⟩ | ⟨_, _, p', res, hl, _⟩ |
    ⟨_, _, p', res, q', se, hl, _⟩ | ⟨_, _, p', res, q', hl, _⟩ |
    ⟨_, _, p', res, q', id, hl, _⟩
  · simp [hvalid] at hv
  · refine ⟨fun hpass => ?_, rfl, fun q hq => ?_, ?_⟩
    · rw [Service.updateExistCheck_pass env u s hpass] at hout
      simp at hout
    · rw [heq] at hq
      exact Service.updateExistCheck_not_ok env u s out hout q hq
    · rw [heq, newCalls_of_calls _ _ _ (Service.updateExistCheck_calls env u s)]
      exact hfilter
  · simp [hload] at hl
  · refine ⟨fun _ => by rw [heq], rfl, fun q hq => ?_, ?_⟩
    · rw [heq] at hq
      simp at hq
    · rw [heq, newCalls_of_calls _ _ _ (Service.updateLoaded_calls env u s)]
      simp [hfilter, Call.isUpdate]
  all_goals simp [hload] at hl

/-- C13, amended, on test doubles that report the id as absent and no
collision: the update fails with "player doesn't exist". -/
theorem Service.Update_not_found_witness :
    UpdatePlayerFixture.Validate = none ∧
    (Service.Update (mockEnv (updateMocks none ⟨false, false⟩ none)) UpdatePlayerFixture
      mockStart).1 = .error (.new "player doesn't exist") :=
  ⟨rfl,
    (Service.Update_not_found (mockEnv (updateMocks none ⟨false, false⟩ none))
      UpdatePlayerFixture mockStart rfl rfl).1 (fun _ => ⟨⟨false, false⟩, rfl, rfl⟩)⟩

theorem Service.updateNotified_calls (env : Env σ) (u : UpdatePlayer) (s : Run σ)
    (p q : Player) (event : NewEvent) :
    (env.callNotify event (Service.updatePersisted env u s p q).2).calls =
      s.calls ++ ((if u.updateKeyValues then
        [Call.GetPlayersWithEmailOrNickName u.toPlayerFilter] else []) ++
          [Call.GetByID u.ID] ++ (u.Password.map Call.Hash).toList ++ [Call.Update q] ++
            [Call.Notify event]) := by
  rw [Env.callNotify_calls, Service.updatePersisted_calls, List.append_assoc]

/-- The existence-check calls of a run of `Service.Update` on a valid patch:
one, with the filter of the patch, when the patch carries an email or a
nickname, and none otherwise. -/
theorem Service.Update_existCheck_calls (env : Env σ) (u : UpdatePlayer) (s : Run σ)
    (hvalid : u.Validate = none) :
    (newCalls s (Service.Update env u s).2).filter Call.isExistCheck =
      if u.updateKeyValues then [Call.GetPlayersWithEmailOrNickName u.toPlayerFilter]
      else [] := by
  rcases Service.Update_cases env u s with ⟨ve, hv, _⟩ | ⟨_, out, hout, heq⟩ |
    ⟨_, _, ge, _, heq⟩ | ⟨_, _, _, heq⟩ | ⟨_, _, p, me, _, _, heq⟩ |
    ⟨_, _, p, res, _, _, _, heq⟩ | ⟨_, _, p, res, _, _, _, _, heq⟩ |
    ⟨_, _, p, res, q, se, _, _, _, _, _, heq⟩ | ⟨_, _, p, res, q, _, _, _, _, _, _, heq⟩ |
    ⟨_, _, p, res, q, id, _, _, _, _, _, _, heq⟩
  · simp [hvalid] at hv
  · rw [heq, newCalls_of_calls _ _ _ (Service.updateExistCheck_calls env u s)]
    cases u.updateKeyValues <;> simp [Call.isExistCheck]
  · rw [heq, newCalls_of_calls _ _ _ (Service.updateLoaded_calls env u s)]
    cases u.updateKeyValues <;> simp [Call.isExistCheck]
  · rw [heq, newCalls_of_calls _ _ _ (Service.updateLoaded_calls env u s)]
    cases u.updateKeyValues <;> simp [Call.isExistCheck]
  · rw [heq, newCalls_of_calls _ _ _ (Service.updateMerged_calls env u s p)]
    cases u.updateKeyValues <;> cases u.Password <;> simp [Call.isExistCheck]
  · rw [heq, newCalls_of_calls _ _ _ (Service.updateMerged_calls env u s p)]
    cases u.updateKeyValues <;> cases u.Password <;> simp [Call.isExistCheck]
  · rw [heq, newCalls_of_calls _ _ _ (Service.updateMerged_calls env u s p)]
    cases u.updateKeyValues <;> cases u.Password <;> simp [Call.isExistCheck]
  · rw [heq, newCalls_of_calls _ _ _ (Service.updatePersisted_calls env u s p q)]
    cases u.updateKeyValues <;> cases u.Password <;> simp [Call.isExistCheck]
  · rw [heq, newCalls_of_calls _ _ _ (Service.updatePersisted_calls env u s p q)]
    cases u.updateKeyValues <;> cases u.Password <;> simp [Call.isExistCheck]
  · rw [heq, newCalls_of_calls _ _ _ (Service.updateNotified_calls env u s p q _)]
    cases u.updateKeyValues <;> cases u.Password <;> simp [Call.isExistCheck]

theorem UpdatePlayer.updateKeyValues_eq_false (u : UpdatePlayer) :
    u.updateKeyValues = false ↔ (u.Email = none ∧ u.Nickname = none) := by
  unfold UpdatePlayer.updateKeyValues
  cases u.Email <;> cases u.Nickname <;> simp

/-- C14: for a valid `UpdatePlayer`, a run of `Service.Update` does not call
`GetPlayersWithEmailOrNickName` when the patch carries neither email nor
nickname, and calls it once, with the filter of the patch, when it carries
either; that filter has the patch's own id as `IgnoreID`, the patch's email
address when present and the patch's nickname when present; a reported
collision makes `Service.Update` fail with the `PlayerAlreadyExistsError` of
the result, and the existence check is then the only call of the run.
`NewPlayer.toPlayerFilter` yields the email address, the nickname and no
`IgnoreID`. -/
theorem Service.Update_exist_check (env : Env σ) (u : UpdatePlayer) (s : Run σ)
    (hvalid : u.Validate = none) :
    ((u.Email = none ∧ u.Nickname = none) →
      (newCalls s (Service.Update env u s).2).filter Call.isExistCheck = []) ∧
    (¬ (u.Email = none ∧ u.Nickname = none) →
      (newCalls s (Service.Update env u s).2).filter Call.isExistCheck =
        [Call.GetPlayersWithEmailOrNickName u.toPlayerFilter]) ∧
    (u.toPlayerFilter.IgnoreID = some u.ID ∧
      (∀ e, u.Email = some e → u.toPlayerFilter.Email = e.Address) ∧
      (∀ v, u.Nickname = some v → u.toPlayerFilter.Nickname = v)) ∧
    (∀ r, ¬ (u.Email = none ∧ u.Nickname = none) →
      (Service.doesThePlayerAlreadyExist env u.toPlayerFilter s).1 = .ok (some r) →
      r.Exist = true →
      (Service.Update env u s).1 = .error (.alreadyExists r.EmailExist r.NicknameExist) ∧
        newCalls s (Service.Update env u s).2 =
          [Call.GetPlayersWithEmailOrNickName u.toPlayerFilter]) ∧
    (∀ n : NewPlayer,
      n.toPlayerFilter = { Email := n.Email.Address, Nickname := n.Nickname, IgnoreID := none }) := by
  have hcalls := Service.Update_existCheck_calls env u s hvalid
  refine ⟨?_, ?_, ⟨?_, ?_, ?_⟩, ?_, fun n => rfl⟩
  · intro hnone
    rw [hcalls, (UpdatePlayer.updateKeyValues_eq_false u).2 hnone]
    rfl
  · intro hsome
    have hk : u.updateKeyValues = true := by
      cases hk : u.updateKeyValues with
      | true => rfl
      | false => exact absurd ((UpdatePlayer.updateKeyValues_eq_false u).1 hk) hsome
    rw [hcalls, hk]
    rfl
  · unfold UpdatePlayer.toPlayerFilter
    cases u.Email <;> cases u.Nickname <;> rfl
  · intro e he
    unfold UpdatePlayer.toPlayerFilter
    rw [he]
    cases u.Nickname <;> rfl
  · intro v hv
    unfold UpdatePlayer.toPlayerFilter
    rw [hv]
  · intro r hsome hr hex
    have hk : u.updateKeyValues = true := by
      cases hk : u.updateKeyValues with
      | true => rfl
      | false => exact absurd ((UpdatePlayer.updateKeyValues_eq_false u).1 hk) hsome
    have hstop : Service.updateExistCheck env u s =
        (some (.error r.toPlayerAlreadyExistsError),
          (Service.doesThePlayerAlreadyExist env u.toPlayerFilter s).2) := by
      unfold Service.updateExistCheck
      simp [hk, hr, hex]
    rw [Service.Update_of_check_stop env u s _ hvalid (by rw [hstop]), hstop]
    exact ⟨rfl, newCalls_of_calls _ _ _
      (Service.doesThePlayerAlreadyExist_calls env u.toPlayerFilter s)⟩

/-- C14 on the test doubles: the patch of `TestUpdatePlayer` carries an email,
the existence check reports a nickname collision, and the update fails with
"player with the given nickname already exists" after that single call. -/
theorem Service.Update_exist_check_witness :
    UpdatePlayerFixture.Validate = none ∧
    (Service.Update (mockEnv (updateMocks (some storedPlayer) ⟨false, true⟩ none))
      UpdatePlayerFixture mockStart).1 = .error (.alreadyExists false true) ∧
    newCalls mockStart
      (Service.Update (mockEnv (updateMocks (some storedPlayer) ⟨false, true⟩ none))
        UpdatePlayerFixture mockStart).2 =
      [Call.GetPlayersWithEmailOrNickName
        { Email := "focampo@anotheremail.com", Nickname := "",
          IgnoreID := some ⟨0xb10d6af522f34db2ade694cfcc819f91⟩ }] :=
  ⟨rfl,
    (Service.Update_exist_check (mockEnv (updateMocks (some storedPlayer) ⟨false, true⟩ none))
      UpdatePlayerFixture mockStart rfl).2.2.2.1 ⟨false, true⟩ (by decide) rfl rfl⟩

/-- C15: for a changing update of an existing player, if `storage.Update`
fails with an error of message `m`, `Service.Update` returns no player and an
error whose message is exactly "unable to update player: " followed by `m`,
and the notifier is not called; if `storage.Update` succeeds, the notifier is
called exactly once, with the string form of the player's id and "player was
updated", and the updated record is returned. -/
theorem Service.Update_persist (env : Env σ) (u : UpdatePlayer) (s : Run σ) (p : Player)
    (id : PlayerID) (res : updateToPlayerResult) (hvalid : u.Validate = none)
    (hcheck : u.updateKeyValues = true →
      ∃ r, (Service.doesThePlayerAlreadyExist env u.toPlayerFilter s).1 = .ok (some r) ∧
        r.Exist = false)
    (hload : (Service.updateLoaded env u s).1 = .ok (some p)) (hid : p.ID = some id)
    (hmerge : (Service.updateMerged env u s p).1 = .ok res) (hchg : res.changes = true) :
    ∃ q, res.player = some q ∧
      (∀ se, (Service.updatePersisted env u s p q).1 = some se →
        (∃ e, (Service.Update env u s).1 = .error e ∧
          e.Error = "unable to update player: " ++ se.Error) ∧
        (newCalls s (Service.Update env u s).2).filter Call.isNotify = []) ∧
      ((Service.updatePersisted env u s p q).1 = none →
        (Service.Update env u s).1 = .ok q ∧
        (newCalls s (Service.Update env u s).2).filter Call.isNotify =
          [Call.Notify ⟨id.String, "player was updated"⟩]) := by
  obtain ⟨q, hq, herr, hok⟩ := Service.Update_of_changed env u s p res hvalid
    (Service.updateExistCheck_pass env u s hcheck) hload hmerge hchg
  refine ⟨q, hq, ?_, ?_⟩
  · intro se hse
    rw [herr se hse, newCalls_of_calls _ _ _ (Service.updatePersisted_calls env u s p q)]
    refine ⟨⟨_, rfl, GoError.Error_wrap _ _⟩, ?_⟩
    cases u.updateKeyValues <;> cases u.Password <;> simp [Call.isNotify]
  · intro hnone
    rw [hok id hnone hid, newCalls_of_calls _ _ _ (Service.updateNotified_calls env u s p q _)]
    refine ⟨rfl, ?_⟩
    cases u.updateKeyValues <;> cases u.Password <;> simp [Call.isNotify]

/-- C15 on the test doubles of `TestUpdatePlayerButErrorWhileUpdating`:
`storage.Update` fails with "unexpected update error". -/
theorem Service.Update_persist_witness :
    UpdatePlayerFixture.Validate = none ∧
    ∃ e, (Service.Update (mockEnv (updateMocks (some storedPlayer) ⟨false, false⟩
        (some (.new "unexpected update error")))) UpdatePlayerFixture mockStart).1 = .error e ∧
      e.Error = "unable to update player: unexpected update error" := by
  obtain ⟨q, _, herr, _⟩ := Service.Update_persist
    (mockEnv (updateMocks (some storedPlayer) ⟨false, false⟩
      (some (.new "unexpected update error")))) UpdatePlayerFixture mockStart storedPlayer
    ⟨0xb10d6af522f34db2ade694cfcc819f91⟩ _ rfl (fun _ => ⟨⟨false, false⟩, rfl, rfl⟩) rfl rfl
    rfl rfl
  exact ⟨rfl, (herr (.new "unexpected update error") rfl).1⟩

/-! ## Delete -/

/-- C16: for a `PlayerID` the store reports as absent, `Service.Delete` fails
with `ErrPlayerDoesNotExist`; the run has called `GetByID` and nothing else,
so `storage.Delete` is not invoked and no event is notified. -/
theorem Service.Delete_not_found (env : Env σ) (playerID : PlayerID) (s : Run σ)
    (hload : (Service.deleteLoaded env playerID s).1 = .ok none) :
    (Service.Delete env playerID s).1 = .error ErrPlayerDoesNotExist ∧
    newCalls s (Service.Delete env playerID s).2 = [Call.GetByID playerID] ∧
    (newCalls s (Service.Delete env playerID s).2).filter Call.isDelete = [] ∧
    (newCalls s (Service.Delete env playerID s).2).filter Call.isNotify = [] := by
  have heq : Service.Delete env playerID s =
      (.error ErrPlayerDoesNotExist, (Service.deleteLoaded env playerID s).2) := by
    unfold Service.Delete
    simp only [Service.deleteLoaded] at hload ⊢
    simp only [hload]
  have hcalls : newCalls s (Service.deleteLoaded env playerID s).2 = [Call.GetByID playerID] :=
    newCalls_of_calls _ _ _ rfl
  rw [heq, hcalls]
  exact ⟨rfl, rfl, rfl, rfl⟩

/-- C16 on test doubles that report the id as absent: the error is "player
doesn't exist". -/
theorem Service.Delete_not_found_witness :
    (Service.deleteLoaded (mockEnv (deleteMocks none none))
      ⟨0xb10d6af522f34db2ade694cfcc819f91⟩ mockStart).1 = .ok none ∧
    (Service.Delete (mockEnv (deleteMocks none none)) ⟨0xb10d6af522f34db2ade694cfcc819f91⟩
      mockStart).1 = .error (.new "player doesn't exist") :=
  ⟨rfl, (Service.Delete_not_found (mockEnv (deleteMocks none none))
    ⟨0xb10d6af522f34db2ade694cfcc819f91⟩ mockStart rfl).1⟩

/-- C17: for the `PlayerID` of an existing player, if `storage.Delete` fails
with an error of message `m`, `Service.Delete` returns an error whose message
is exactly "unable to delete player: " followed by `m` and the notifier is not
called; if `storage.Delete` succeeds, `Service.Delete` returns no error and
the notifier is called exactly once, with the string form of the id and
"player was deleted". -/
theorem Service.Delete_persist (env : Env σ) (playerID : PlayerID) (s : Run σ) (p : Player)
    (hload : (Service.deleteLoaded env playerID s).1 = .ok (some p)) :
    (∀ se, (Service.deleteDeleted env playerID s).1 = some se →
      (∃ e, (Service.Delete env playerID s).1 = .error e ∧
        e.Error = "unable to delete player: " ++ se.Error) ∧
      (newCalls s (Service.Delete env playerID s).2).filter Call.isNotify = []) ∧
    ((Service.deleteDeleted env playerID s).1 = none →
      (Service.Delete env playerID s).1 = .ok () ∧
      (newCalls s (Service.Delete env playerID s).2).filter Call.isNotify =
        [Call.Notify ⟨playerID.String, "player was deleted"⟩]) := by
  have hcalls : (Service.deleteDeleted env playerID s).2.calls =
      s.calls ++ [Call.GetByID playerID, Call.Delete playerID] := by
    show (s.calls ++ [_]) ++ [_] = _
    simp
  constructor
  · intro se hse
    have heq : Service.Delete env playerID s =
        (.error (fmtErrorf "unable to delete player: " se),
          (Service.deleteDeleted env playerID s).2) := by
      unfold Service.Delete
      simp only [Service.deleteLoaded, Service.deleteDeleted] at hload hse ⊢
      simp only [hload, hse]
    rw [heq, newCalls_of_calls _ _ _ hcalls]
    exact ⟨⟨_, rfl, GoError.Error_wrap _ _⟩, rfl⟩
  · intro hnone
    have heq : Service.Delete env playerID s =
        (.ok (), env.callNotify (newDeletePlayerEvent playerID)
          (Service.deleteDeleted env playerID s).2) := by
      unfold Service.Delete
      simp only [Service.deleteLoaded, Service.deleteDeleted] at hload hnone ⊢
      simp only [hload, hnone]
    have hcalls2 : (env.callNotify (newDeletePlayerEvent playerID)
        (Service.deleteDeleted env playerID s).2).calls =
        s.calls ++ [Call.GetByID playerID, Call.Delete playerID,
          Call.Notify (newDeletePlayerEvent playerID)] := by
      rw [Env.callNotify_calls, hcalls]
      simp
    rw [heq, newCalls_of_calls _ _ _ hcalls2]
    exact ⟨rfl, rfl⟩

/-- C17 on the test doubles of `TestDeletePlayerButErrorWhileDeleting`:
`storage.Delete` fails with "unexpected delete error". -/
theorem Service.Delete_persist_witness :
    (Service.deleteLoaded (mockEnv (deleteMocks (some storedPlayer)
      (some (.new "unexpected delete error")))) ⟨0xb10d6af522f34db2ade694cfcc819f91⟩
        mockStart).1 = .ok (some storedPlayer) ∧
    ∃ e, (Service.Delete (mockEnv (deleteMocks (some storedPlayer)
        (some (.new "unexpected delete error")))) ⟨0xb10d6af522f34db2ade694cfcc819f91⟩
          mockStart).1 = .error e ∧
      e.Error = "unable to delete player: unexpected delete error" :=
  ⟨rfl, ((Service.Delete_persist (mockEnv (deleteMocks (some storedPlayer)
    (some (.new "unexpected delete error")))) ⟨0xb10d6af522f34db2ade694cfcc819f91⟩ mockStart
      storedPlayer rfl).1 (.new "unexpected delete error") rfl).1⟩

/-! ## List -/

/-- A criteria whose country is present and empty is answered with the empty
result and without a call. -/
theorem Service.List_empty_country (env : Env σ) (searchCriteria : SearchCriteria) (s : Run σ)
    (hempty : searchCriteria.Country = some "") :
    Service.List env searchCriteria s = (.ok (some newEmptySearchResult), s) := by
  unfold Service.List
  simp [SearchCriteria.isEmpty, isStringEmpty, hempty]

/-- A criteria whose country is absent is not empty for `isEmpty`: the run
calls `storage.Search`, with the criteria after the default pagination, and
returns what the storage answers. -/
theorem Service.List_absent_country (env : Env σ) (searchCriteria : SearchCriteria) (s : Run σ)
    (habsent : searchCriteria.Country = none) :
    searchCriteria.isEmpty = false ∧
    newCalls s (Service.List env searchCriteria s).2 =
      [Call.Search searchCriteria.setDefaultPaginationIfEmpty] ∧
    (∀ res, (Service.listSearched env searchCriteria s).1 = .ok res →
      (Service.List env searchCriteria s).1 = .ok res) := by
  have hne : searchCriteria.isEmpty = false := by
    simp [SearchCriteria.isEmpty, isStringEmpty, habsent]
  refine ⟨hne, ?_, ?_⟩
  · unfold Service.List
    simp only [hne, Bool.false_eq_true, if_false]
    cases hr : (env.callSearch searchCriteria.setDefaultPaginationIfEmpty s).1 <;>
      exact newCalls_of_calls _ _ _ rfl
  · intro res hres
    unfold Service.List
    simp only [Service.listSearched] at hres
    simp only [hne, Bool.false_eq_true, if_false, hres]

/-- C18 fails on the code for an absent country: on test doubles whose
`Search` returns three players, `Service.List` of a criteria with no country
calls `storage.Search` with limit 5 and returns the three players with total
27, where the claim says zero items, total 0 and no storage call. -/
theorem Service.List_absent_country_searches :
    (Service.List (mockEnv (searchMocks (.ok (some ⟨SearchPlayersResultFixture, 27, 5, 0⟩))))
      { Country := none, Limit := 0, Offset := 0 } mockStart).1 =
        .ok (some ⟨SearchPlayersResultFixture, 27, 5, 0⟩) ∧
    newCalls mockStart
      (Service.List (mockEnv (searchMocks (.ok (some ⟨SearchPlayersResultFixture, 27, 5, 0⟩))))
        { Country := none, Limit := 0, Offset := 0 } mockStart).2 =
      [Call.Search { Country := none, Limit := 5, Offset := 0 }] :=
  ⟨rfl, rfl⟩

/-- A criteria with a non-empty country is not empty for `isEmpty`. -/
theorem SearchCriteria.isEmpty_of_country (searchCriteria : SearchCriteria) (c : String)
    (hc : searchCriteria.Country = some c) (hne : c ≠ "") : searchCriteria.isEmpty = false := by
  simp [SearchCriteria.isEmpty, isStringEmpty, hc, hne]

/-- C19: for a criteria with a non-empty country, `Service.List` calls
`storage.Search` once, with a criteria whose limit is 5 when the given limit
is 0 and the given limit otherwise, and whose country and offset are the given
ones. -/
theorem Service.List_pagination (env : Env σ) (searchCriteria : SearchCriteria) (s : Run σ)
    (c : String) (hc : searchCriteria.Country = some c) (hne : c ≠ "") :
    newCalls s (Service.List env searchCriteria s).2 =
      [Call.Search
        { Country := searchCriteria.Country
          Limit := if searchCriteria.Limit = 0 then 5 else searchCriteria.Limit
          Offset := searchCriteria.Offset }] := by
  have hcrit : searchCriteria.setDefaultPaginationIfEmpty =
      { Country := searchCriteria.Country
        Limit := if searchCriteria.Limit = 0 then 5 else searchCriteria.Limit
        Offset := searchCriteria.Offset } := by
    unfold SearchCriteria.setDefaultPaginationIfEmpty
    by_cases h : searchCriteria.Limit = 0 <;> simp [h]
  rw [← hcrit]
  unfold Service.List
  simp only [SearchCriteria.isEmpty_of_country searchCriteria c hc hne, Bool.false_eq_true,
    if_false]
  cases hr : (env.callSearch searchCriteria.setDefaultPaginationIfEmpty s).1 <;>
    exact newCalls_of_calls _ _ _ rfl

/-- C19 on the criteria of `TestSearchByCountry`, whose limit is 0: the
storage is asked for country "UK" with limit 5 and offset 0. -/
theorem Service.List_pagination_witness :
    newCalls mockStart
      (Service.List (mockEnv (searchMocks (.ok (some ⟨SearchPlayersResultFixture, 27, 3, 0⟩))))
        { Country := some "UK", Limit := 0, Offset := 0 } mockStart).2 =
      [Call.Search { Country := some "UK", Limit := 5, Offset := 0 }] :=
  Service.List_pagination
    (mockEnv (searchMocks (.ok (some ⟨SearchPlayersResultFixture, 27, 3, 0⟩))))
    { Country := some "UK", Limit := 0, Offset := 0 } mockStart "UK" rfl (by decide)

/-- C20: for a criteria with a non-empty country, when `storage.Search`
returns a result without error `Service.List` returns that same result, and
when `storage.Search` fails with an error of message `m` it returns no result
and an error whose message is exactly "unable to list players: " followed by
`m`. -/
theorem Service.List_passes_through (env : Env σ) (searchCriteria : SearchCriteria) (s : Run σ)
    (c : String) (hc : searchCriteria.Country = some c) (hne : c ≠ "") :
    (∀ res, (Service.listSearched env searchCriteria s).1 = .ok res →
      (Service.List env searchCriteria s).1 = .ok res) ∧
    (∀ se, (Service.listSearched env searchCriteria s).1 = .error se →
      ∃ e, (Service.List env searchCriteria s).1 = .error e ∧
        e.Error = "unable to list players: " ++ se.Error) := by
  constructor
  · intro res hres
    unfold Service.List
    simp only [Service.listSearched] at hres
    simp only [SearchCriteria.isEmpty_of_country searchCriteria c hc hne, Bool.false_eq_true,
      if_false, hres]
  · intro se hse
    refine ⟨fmtErrorf "unable to list players: " se, ?_, GoError.Error_wrap _ _⟩
    unfold Service.List
    simp only [Service.listSearched] at hse
    simp only [SearchCriteria.isEmpty_of_country searchCriteria c hc hne, Bool.false_eq_true,
      if_false, hse]

/-- C20 on the test doubles of `TestSearchByCountry` and of
`TestSearchByCountryButError`. -/
theorem Service.List_passes_through_witness :
    (Service.List (mockEnv (searchMocks (.ok (some ⟨SearchPlayersResultFixture, 27, 3, 0⟩))))
      { Country := some "UK", Limit := 0, Offset := 0 } mockStart).1 =
        .ok (some ⟨SearchPlayersResultFixture, 27, 3, 0⟩) ∧
    ∃ e, (Service.List (mockEnv (searchMocks
        (.error (.new "unable to search players: unexpected search error"))))
        { Country := some "UK", Limit := 0, Offset := 0 } mockStart).1 = .error e ∧
      e.Error = "unable to list players: unable to search players: unexpected search error" :=
  ⟨(Service.List_passes_through
      (mockEnv (searchMocks (.ok (some ⟨SearchPlayersResultFixture, 27, 3, 0⟩))))
      { Country := some "UK", Limit := 0, Offset := 0 } mockStart "UK" rfl (by decide)).1 _ rfl,
    (Service.List_passes_through
      (mockEnv (searchMocks (.error (.new "unable to search players: unexpected search error"))))
      { Country := some "UK", Limit := 0, Offset := 0 } mockStart "UK" rfl (by decide)).2 _ rfl⟩


/-! ## Endpoints -/

/-- C21: each of the four endpoints, on a request that is not of its expected
command type, returns no result and its own invalid-request-type error,
leaves the run as it was (the service is not invoked), and the four errors
have four different messages. -/
theorem Endpoint.Do_invalid_type (env : Env σ) (request : Request) (s : Run σ) :
    (request.isNewPlayerPtr = false →
      CreatePlayerEndpoint.Do env request s = (.error errInvalidNewPlayerType, s)) ∧
    (request.isUpdatePlayerPtr = false →
      UpdatePlayerEndpoint.Do env request s = (.error errInvalidUpdatePlayerType, s)) ∧
    (request.isPlayerID = false →
      DeletePlayerEndpoint.Do env request s = (.error errInvalidPlayerIDType, s)) ∧
    (request.isSearchCriteria = false →
      SearchPlayersEndpoint.Do env request s = (.error errInvalidSearchCriteriaType, s)) ∧
    [errInvalidNewPlayerType.Error, errInvalidUpdatePlayerType.Error,
      errInvalidPlayerIDType.Error, errInvalidSearchCriteriaType.Error].Nodup := by
  refine ⟨?_, ?_, ?_, ?_, by decide⟩
  · intro h
    cases request <;> first | rfl | simp [Request.isNewPlayerPtr] at h
  · intro h
    cases request <;> first | rfl | simp [Request.isUpdatePlayerPtr] at h
  · intro h
    cases request <;> first | rfl | simp [Request.isPlayerID] at h
  · intro h
    cases request <;> first | rfl | simp [Request.isSearchCriteria] at h

/-- C21 on a `NewPlayer` passed by value to the create endpoint, whose
expected type is `*NewPlayer`. -/
theorem Endpoint.Do_invalid_type_witness :
    CreatePlayerEndpoint.Do (mockEnv (createMocks ⟨false, false⟩ none))
      (.newPlayerValue NewPlayerFixture) mockStart =
        (.error (.new "invalid new player type"), mockStart) :=
  (Endpoint.Do_invalid_type (mockEnv (createMocks ⟨false, false⟩ none))
    (.newPlayerValue NewPlayerFixture) mockStart).1 rfl

/-- C22, as stated, fails for a nil pointer: a nil `*NewPlayer` is a request of
the type the create endpoint expects, and a nil `*UpdatePlayer` one of the
type the update endpoint expects; each passes the type assertion, and `Do`
panics when it dereferences the pointer to call the service, so it returns
neither a result nor a nil error, and the run is left as it was. -/
theorem Endpoint.Do_nil_pointer_panics :
    (Request.newPlayerPtr none).isNewPlayerPtr = true ∧
    CreatePlayerEndpoint.Do (mockEnv (createMocks ⟨false, false⟩ none)) (.newPlayerPtr none)
      mockStart = (.panic, mockStart) ∧
    (∀ result, (CreatePlayerEndpoint.Do (mockEnv (createMocks ⟨false, false⟩ none))
      (.newPlayerPtr none) mockStart).1 ≠ .ok result) ∧
    (Request.updatePlayerPtr none).isUpdatePlayerPtr = true ∧
    UpdatePlayerEndpoint.Do (mockEnv (updateMocks (some storedPlayer) ⟨false, false⟩ none))
      (.updatePlayerPtr none) mockStart = (.panic, mockStart) ∧
    (∀ result, (UpdatePlayerEndpoint.Do
      (mockEnv (updateMocks (some storedPlayer) ⟨false, false⟩ none))
      (.updatePlayerPtr none) mockStart).1 ≠ .ok result) :=
  ⟨rfl, rfl, fun _ h => by simp [CreatePlayerEndpoint.Do] at h, rfl, rfl,
    fun _ h => by simp [UpdatePlayerEndpoint.Do] at h⟩

/-- C22, amended: a request of the type an endpoint expects is a command, or,
for create and update, a pointer that is nil or points to a command. On a
nil pointer `Do` panics and leaves the run as it was. On a command, `Do`
never returns a transport-level error and returns a result exactly when the
domain operation returns: when the operation fails with an error of message
`m` the result carries `Err = m` (for create with no ID, for search with no
`SearchResult`), when it succeeds the result carries an empty `Err` (for
create with the created player's ID, for search with the result of the
service), and `Do` panics only when the operation does. -/
theorem Endpoint.Do_business_result (env : Env σ) (s : Run σ) :
    (∀ n : NewPlayer,
      (∀ e, (CreatePlayerEndpoint.Do env (.newPlayerPtr (some n)) s).1 ≠ .error e) ∧
      (∀ e, (Service.Create env n s).1 = .error e →
        (CreatePlayerEndpoint.Do env (.newPlayerPtr (some n)) s).1 =
          .ok (.createPlayerResult { ID := none, Err := e.Error })) ∧
      (∀ p, (Service.Create env n s).1 = .ok p →
        (CreatePlayerEndpoint.Do env (.newPlayerPtr (some n)) s).1 =
          .ok (.createPlayerResult { ID := p.ID, Err := "" })) ∧
      ((CreatePlayerEndpoint.Do env (.newPlayerPtr (some n)) s).1 = .panic ↔
        (Service.Create env n s).1 = .panic)) ∧
    (∀ u : UpdatePlayer,
      (∀ e, (UpdatePlayerEndpoint.Do env (.updatePlayerPtr (some u)) s).1 ≠ .error e) ∧
      (∀ e, (Service.Update env u s).1 = .error e →
        (UpdatePlayerEndpoint.Do env (.updatePlayerPtr (some u)) s).1 =
          .ok (.updatePlayerResult { Err := e.Error })) ∧
      (∀ p, (Service.Update env u s).1 = .ok p →
        (UpdatePlayerEndpoint.Do env (.updatePlayerPtr (some u)) s).1 =
          .ok (.updatePlayerResult { Err := "" })) ∧
      ((UpdatePlayerEndpoint.Do env (.updatePlayerPtr (some u)) s).1 = .panic ↔
        (Service.Update env u s).1 = .panic)) ∧
    (∀ id : PlayerID,
      (∀ e, (DeletePlayerEndpoint.Do env (.playerIDValue id) s).1 ≠ .error e) ∧
      (∀ e, (Service.Delete env id s).1 = .error e →
        (DeletePlayerEndpoint.Do env (.playerIDValue id) s).1 =
          .ok (.deletePlayerResult { Err := e.Error })) ∧
      ((Service.Delete env id s).1 = .ok () →
        (DeletePlayerEndpoint.Do env (.playerIDValue id) s).1 =
          .ok (.deletePlayerResult { Err := "" })) ∧
      ((DeletePlayerEndpoint.Do env (.playerIDValue id) s).1 = .panic ↔
        (Service.Delete env id s).1 = .panic)) ∧
    (∀ sc : SearchCriteria,
      (∀ e, (SearchPlayersEndpoint.Do env (.searchCriteriaValue sc) s).1 ≠ .error e) ∧
      (∀ e, (Service.List env sc s).1 = .error e →
        (SearchPlayersEndpoint.Do env (.searchCriteriaValue sc) s).1 =
          .ok (.searchPlayersDataResult { SearchResult := none, Err := e.Error })) ∧
      (∀ res, (Service.List env sc s).1 = .ok res →
        (SearchPlayersEndpoint.Do env (.searchCriteriaValue sc) s).1 =
          .ok (.searchPlayersDataResult { SearchResult := res, Err := "" })) ∧
      ((SearchPlayersEndpoint.Do env (.searchCriteriaValue sc) s).1 = .panic ↔
        (Service.List env sc s).1 = .panic)) ∧
    CreatePlayerEndpoint.Do env (.newPlayerPtr none) s = (.panic, s) ∧
    UpdatePlayerEndpoint.Do env (.updatePlayerPtr none) s = (.panic, s) ∧
    (∀ request : Request,
      (request.isNewPlayerPtr = true →
        request = .newPlayerPtr none ∨ ∃ n, request = .newPlayerPtr (some n)) ∧
      (request.isUpdatePlayerPtr = true →
        request = .updatePlayerPtr none ∨ ∃ u, request = .updatePlayerPtr (some u)) ∧
      (request.isPlayerID = true → ∃ id, request = .playerIDValue id) ∧
      (request.isSearchCriteria = true → ∃ sc, request = .searchCriteriaValue sc)) := by
  refine ⟨fun n => ?_, fun u => ?_, fun id => ?_, fun sc => ?_, rfl, rfl, fun request => ?_⟩
  · unfold CreatePlayerEndpoint.Do
    cases h : (Service.Create env n s).1 <;>
      simp [h, newCreatePlayerResult, errMessage]
  · unfold UpdatePlayerEndpoint.Do
    cases h : (Service.Update env u s).1 <;>
      simp [h, newUpdatePlayerResult, errMessage]
  · unfold DeletePlayerEndpoint.Do
    cases h : (Service.Delete env id s).1 <;>
      simp [h, newDeletePlayerResult, errMessage]
  · unfold SearchPlayersEndpoint.Do
    cases h : (Service.List env sc s).1 <;>
      simp [h, newSearchPlayersDataResult, errMessage]
  · refine ⟨?_, ?_, ?_, ?_⟩
    · intro h
      cases request with
      | newPlayerPtr o => cases o <;> simp
      | _ => simp [Request.isNewPlayerPtr] at h
    · intro h
      cases request with
      | updatePlayerPtr o => cases o <;> simp
      | _ => simp [Request.isUpdatePlayerPtr] at h
    · intro h
      cases request with
      | playerIDValue id => exact ⟨id, rfl⟩
      | _ => simp [Request.isPlayerID] at h
    · intro h
      cases request with
      | searchCriteriaValue sc => exact ⟨sc, rfl⟩
      | _ => simp [Request.isSearchCriteria] at h

/-- C22 on the test doubles of `TestCreatePlayerWithEndpointButError`, where
`Save` fails: the result carries the message of the service and no ID. -/
theorem Endpoint.Do_business_result_witness :
    (CreatePlayerEndpoint.Do (mockEnv (createMocks ⟨false, false⟩
      (some (.new "unexpected create error")))) (.newPlayerPtr (some NewPlayerFixture))
        mockStart).1 =
      .ok (.createPlayerResult
        { ID := none, Err := "unable to create player: unexpected create error" }) :=
  ((Endpoint.Do_business_result (mockEnv (createMocks ⟨false, false⟩
    (some (.new "unexpected create error")))) mockStart).1 NewPlayerFixture).2.1
      (.wrap "unable to create player: " (.new "unexpected create error")) rfl

/-! ## What a successful update returns and persists -/

/-- A successful `Service.Update` has loaded a player and merged into it:
either the merge reported no change, the loaded player is returned and
`storage.Update` has not been called, or it reported a change, the
replacement player is returned, `storage.Update` has been called once, with
that player, and the replacement carries the clock reading of the merge. -/
theorem Service.Update_ok_cases (env : Env σ) (u : UpdatePlayer) (s : Run σ) (q : Player)
    (hok : (Service.Update env u s).1 = .ok q) :
    ∃ p res, (Service.updateLoaded env u s).1 = .ok (some p) ∧
      (Service.updateMerged env u s p).1 = .ok res ∧
      ((res.changes = false ∧ res.player = none ∧ q = p ∧
          (newCalls s (Service.Update env u s).2).filter Call.isUpdate = []) ∨
        (res.changes = true ∧ res.player = some q ∧
          q.DateUpdated = Service.updateClock env u s ∧
          (newCalls s (Service.Update env u s).2).filter Call.isUpdate = [Call.Update q])) := by
  rcases Service.Update_cases env u s with ⟨ve, _, heq⟩ | ⟨_, out, hout, heq⟩ |
    ⟨_, _, ge, _, heq⟩ | ⟨_, _, _, heq⟩ | ⟨_, _, p, me, _, _, heq⟩ |
    ⟨_, _, p, res, hl, hm, hch, heq⟩ | ⟨_, _, p, res, _, _, _, _, heq⟩ |
    ⟨_, _, p, res, q', se, _, _, _, _, _, heq⟩ | ⟨_, _, p, res, q', _, _, _, _, _, _, heq⟩ |
    ⟨_, _, p, res, q', id, hl, hm, hch, hpl, _, _, heq⟩
  · rw [heq] at hok
    simp at hok
  · rw [heq] at hok
    exact absurd hok (Service.updateExistCheck_not_ok env u s out hout q)
  · rw [heq] at hok
    simp at hok
  · rw [heq] at hok
    simp at hok
  · rw [heq] at hok
    simp at hok
  · refine ⟨p, res, hl, hm, Or.inl ⟨hch, ?_, ?_, ?_⟩⟩
    · rcases UpdatePlayer.toPlayer_ok env u p _ res hm with ⟨_, _, hres⟩ | ⟨_, _, hres⟩ |
        ⟨pw, hs, _, _, hres⟩
      · rw [hres]
      · rw [hres] at hch
        simp at hch
      · rw [hres] at hch
        simp at hch
    · rw [heq] at hok
      simp only [Outcome.ok.injEq] at hok
      exact hok.symm
    · rw [heq, newCalls_of_calls _ _ _ (Service.updateMerged_calls env u s p)]
      cases u.updateKeyValues <;> cases u.Password <;> simp [Call.isUpdate]
  · rw [heq] at hok
    simp at hok
  · rw [heq] at hok
    simp at hok
  · rw [heq] at hok
    simp at hok
  · rw [heq] at hok
    simp only [Outcome.ok.injEq] at hok
    subst hok
    refine ⟨p, res, hl, hm, Or.inr ⟨hch, hpl, ?_, ?_⟩⟩
    · rcases UpdatePlayer.toPlayer_ok env u p _ res hm with ⟨_, _, hres⟩ | ⟨hP, _, hres⟩ |
        ⟨pw, hs, hP, _, hres⟩
      · rw [hres] at hch
        simp at hch
      · rw [hres] at hpl
        simp only [Option.some.injEq] at hpl
        subst hpl
        simp [Service.updateClock, Service.updateBeforeClock, hP]
      · rw [hres] at hpl
        simp only [Option.some.injEq] at hpl
        subst hpl
        simp [Service.updateClock, Service.updateBeforeClock, hP]
    · rw [heq, newCalls_of_calls _ _ _ (Service.updateNotified_calls env u s p q' _)]
      cases u.updateKeyValues <;> cases u.Password <;> simp [Call.isUpdate]

/-- C23: when a changing `Service.Update` succeeds, the `DateUpdated` of the
returned player is the clock reading taken during the merge, hence strictly
later than the stored one whenever that reading is; when nothing changes,
`UpdatePlayer.toPlayer` produces no replacement player and the returned
record is the stored one, with the stored `DateUpdated`. -/
theorem Service.Update_date_updated (env : Env σ) (u : UpdatePlayer) (s : Run σ)
    (p q : Player) (res : updateToPlayerResult)
    (hload : (Service.updateLoaded env u s).1 = .ok (some p))
    (hmerge : (Service.updateMerged env u s p).1 = .ok res)
    (hok : (Service.Update env u s).1 = .ok q) :
    (res.changes = true →
      q.DateUpdated = Service.updateClock env u s ∧
      (p.DateUpdated < Service.updateClock env u s → p.DateUpdated < q.DateUpdated)) ∧
    (res.changes = false → res.player = none ∧ q = p ∧ q.DateUpdated = p.DateUpdated) := by
  obtain ⟨p', res', hl, hm, hcases⟩ := Service.Update_ok_cases env u s q hok
  simp only [hload, Except.ok.injEq, Option.some.injEq] at hl
  subst hl
  simp only [hmerge, Except.ok.injEq] at hm
  subst hm
  rcases hcases with ⟨hch, hpl, hq, _⟩ | ⟨hch, _, hdate, _⟩
  · refine ⟨fun h => ?_, fun _ => ⟨hpl, hq, by rw [hq]⟩⟩
    rw [hch] at h
    simp at h
  · refine ⟨fun _ => ⟨hdate, fun hlt => by rw [hdate]; exact hlt⟩, fun h => ?_⟩
    rw [hch] at h
    simp at h

/-- C23 on the test doubles of `TestUpdatePlayer`: the stored record was
updated at 1600000000, the clock reads 1700000000, and the returned player
carries the reading. -/
theorem Service.Update_date_updated_witness :
    ∃ q, (Service.Update (mockEnv (updateMocks (some storedPlayer) ⟨false, false⟩ none))
        UpdatePlayerFixture mockStart).1 = .ok q ∧
      q.DateUpdated = 1700000000 ∧ storedPlayer.DateUpdated < q.DateUpdated := by
  have t := (Service.Update_date_updated
    (mockEnv (updateMocks (some storedPlayer) ⟨false, false⟩ none)) UpdatePlayerFixture
    mockStart storedPlayer _ _ rfl rfl rfl).1 rfl
  exact ⟨_, rfl, t.1, t.2 (by decide)⟩

theorem mergeString_nonempty (newValue : Option String) (oldValue : String)
    (hnew : newValue ≠ some "") (hold : oldValue ≠ "") :
    (if areStringDifferent newValue oldValue then newValue.getD "" else oldValue) ≠ "" := by
  cases hn : newValue with
  | none =>
    rw [← hn, (mergeString_spec newValue oldValue).2 hn]
    exact hold
  | some v =>
    have hv : v ≠ "" := fun h => hnew (by rw [hn, h])
    rw [← hn, (mergeString_spec newValue oldValue).1 v hn hv]
    exact hv

/-- C27: `Service.Update` preserves the invariant that first name, last name,
nickname, email address and country are non-empty: when the stored player has
all five non-empty and `Service.Update` succeeds, the returned player has all
five non-empty, and every player handed to `storage.Update` in the run is the
returned player. -/
theorem Service.Update_preserves_nonempty (env : Env σ) (u : UpdatePlayer) (s : Run σ)
    (p q : Player) (hload : (Service.updateLoaded env u s).1 = .ok (some p))
    (hok : (Service.Update env u s).1 = .ok q)
    (hfn : p.FirstName ≠ "") (hln : p.LastName ≠ "") (hnn : p.Nickname ≠ "")
    (hem : p.Email.Address ≠ "") (hco : p.Country ≠ "") :
    (q.FirstName ≠ "" ∧ q.LastName ≠ "" ∧ q.Nickname ≠ "" ∧ q.Email.Address ≠ "" ∧
      q.Country ≠ "") ∧
    (∀ x, Call.Update x ∈ newCalls s (Service.Update env u s).2 → x = q) := by
  obtain ⟨hvalid, _, _, qfn, qln, qnn, qco, qem⟩ :=
    Service.Update_ok_fields env u s p q hload hok
  obtain ⟨v1, v2, v3, v4, _, v6⟩ := UpdatePlayer.Validate_none u hvalid
  refine ⟨⟨?_, ?_, ?_, ?_, ?_⟩, ?_⟩
  · rw [qfn]
    exact mergeString_nonempty _ _ v1 hfn
  · rw [qln]
    exact mergeString_nonempty _ _ v2 hln
  · rw [qnn]
    exact mergeString_nonempty _ _ v3 hnn
  · rw [qem]
    unfold UpdatePlayer.mergeFields
    cases hE : u.Email with
    | none => exact hem
    | some e =>
      by_cases ha : e.Address = p.Email.Address
      · simp [ha, hem]
      · simp [ha, v6 e hE]
  · rw [qco]
    exact mergeString_nonempty _ _ v4 hco
  · intro x hx
    have hmem : Call.Update x ∈ (newCalls s (Service.Update env u s).2).filter Call.isUpdate :=
      List.mem_filter.2 ⟨hx, rfl⟩
    obtain ⟨p', res, _, _, h | h⟩ := Service.Update_ok_cases env u s q hok
    · rw [h.2.2.2] at hmem
      simp at hmem
    · rw [h.2.2.2] at hmem
      simpa using hmem

/-- C27 on the test doubles of `TestUpdatePlayer`: the returned player has
its five fields non-empty. -/
theorem Service.Update_preserves_nonempty_witness :
    ∃ q, (Service.Update (mockEnv (updateMocks (some storedPlayer) ⟨false, false⟩ none))
        UpdatePlayerFixture mockStart).1 = .ok q ∧
      q.FirstName ≠ "" ∧ q.LastName ≠ "" ∧ q.Nickname ≠ "" ∧ q.Email.Address ≠ "" ∧
      q.Country ≠ "" :=
  ⟨_, rfl, (Service.Update_preserves_nonempty
    (mockEnv (updateMocks (some storedPlayer) ⟨false, false⟩ none)) UpdatePlayerFixture
    mockStart storedPlayer _ rfl rfl (by decide) (by decide) (by decide) (by decide)
    (by decide)).1⟩

/-- C28: when `Service.Create` succeeds, `storage.Save` has been called
exactly once in the run, with the player returned to the caller; when a
changing `Service.Update` succeeds, `storage.Update` has been called exactly
once, with the player returned to the caller. -/
theorem Service.persisted_is_returned (env : Env σ) :
    (∀ (n : NewPlayer) (s : Run σ) (p : Player), (Service.Create env n s).1 = .ok p →
      (newCalls s (Service.Create env n s).2).filter Call.isSave = [Call.Save p]) ∧
    (∀ (u : UpdatePlayer) (s : Run σ) (p q : Player) (res : updateToPlayerResult),
      (Service.updateLoaded env u s).1 = .ok (some p) →
      (Service.updateMerged env u s p).1 = .ok res → res.changes = true →
      (Service.Update env u s).1 = .ok q →
      (newCalls s (Service.Update env u s).2).filter Call.isUpdate = [Call.Update q]) := by
  constructor
  · intro n s p hp
    rcases Service.Create_cases env n s with ⟨ve, _, heq⟩ | ⟨_, he, _, heq⟩ |
      ⟨_, h, ce, _, _, heq⟩ | ⟨_, h, _, _, heq⟩ | ⟨_, h, r, _, _, _, heq⟩ |
      ⟨_, h, r, se, _, _, _, _, heq⟩ | ⟨_, h, r, id, _, _, _, _, hid, heq⟩
    all_goals rw [heq] at hp ⊢
    all_goals simp only [reduceCtorEq, Outcome.ok.injEq] at hp
    subst hp
    simp only [Env.callNotify, Service.createSaved_calls, List.append_assoc, newCalls_append]
    simp [Call.isSave]
  · intro u s p q res hload hmerge hchg hok
    obtain ⟨p', res', hl, hm, hcases⟩ := Service.Update_ok_cases env u s q hok
    simp only [hload, Except.ok.injEq, Option.some.injEq] at hl
    subst hl
    simp only [hmerge, Except.ok.injEq] at hm
    subst hm
    rcases hcases with ⟨hch, _⟩ | ⟨_, _, _, hcalls⟩
    · rw [hch] at hchg
      simp at hchg
    · exact hcalls

/-- C28 on the test doubles of `TestCreatePlayer`: the one `Save` call of the
run carries the returned player. -/
theorem Service.persisted_is_returned_witness :
    ∃ p, (Service.Create (mockEnv (createMocks ⟨false, false⟩ none)) NewPlayerFixture
        mockStart).1 = .ok p ∧
      (newCalls mockStart (Service.Create (mockEnv (createMocks ⟨false, false⟩ none))
        NewPlayerFixture mockStart).2).filter Call.isSave = [Call.Save p] :=
  ⟨_, rfl, (Service.persisted_is_returned (mockEnv (createMocks ⟨false, false⟩ none))).1
    NewPlayerFixture mockStart _ rfl⟩

/-! ## The notifier -/

theorem wrapInt64_of_range (x : Int) (hlo : -(2 ^ 63) ≤ x) (hhi : x < 2 ^ 63) :
    wrapInt64 x = x := by
  unfold wrapInt64
  omega

/-- C24, as stated, fails for a large timeout: configured with 9223372037
seconds, which is at least 1, `NewNotifier` builds a notifier whose timeout
is negative, not 9223372037 seconds, because the product with `time.Second`
does not fit the 64-bit `time.Duration`. -/
theorem NewNotifier_timeout_wraps :
    (1 : Int) ≤ 9223372037 ∧ (9223372037 : Int) < 2 ^ 63 ∧
    (NewNotifier { TimeoutToPublish := 9223372037 }).timeoutToPublish = -9223372036709551616 ∧
    (NewNotifier { TimeoutToPublish := 9223372037 }).timeoutToPublish ≠
      9223372037 * timeSecond := by
  decide

/-- C24, amended: `NewNotifier` creates a notifier whose event queue is empty
with capacity 10 and whose timeout is the default of 3 seconds when the
configured `TimeoutToPublish` is less than 1, and the configured number of
seconds when it is at least 1 and at most 9223372036, the largest number of
seconds a `time.Duration` holds. -/
theorem NewNotifier_spec (setup : NotifierSetup) :
    (NewNotifier setup).eventStreamCapacity = 10 ∧ (NewNotifier setup).eventStream = [] ∧
    (setup.TimeoutToPublish < 1 → (NewNotifier setup).timeoutToPublish = 3 * timeSecond) ∧
    (1 ≤ setup.TimeoutToPublish → setup.TimeoutToPublish ≤ 9223372036 →
      (NewNotifier setup).timeoutToPublish = setup.TimeoutToPublish * timeSecond) := by
  refine ⟨rfl, rfl, ?_, ?_⟩
  · intro hlt
    unfold NewNotifier
    simp only [hlt, if_true, defaultTimeoutToPublish]
    decide
  · intro hge hle
    have hnot : ¬ setup.TimeoutToPublish < 1 := by omega
    unfold NewNotifier
    simp only [hnot, if_false]
    apply wrapInt64_of_range
    · unfold timeSecond
      omega
    · unfold timeSecond
      omega

/-- C24, amended, on the setup of `TestNotify`: five seconds. -/
theorem NewNotifier_spec_witness :
    (NewNotifier { TimeoutToPublish := 5 }).timeoutToPublish = 5000000000 ∧
    (NewNotifier { TimeoutToPublish := 0 }).timeoutToPublish = 3000000000 ∧
    (NewNotifier { TimeoutToPublish := 5 }).eventStreamCapacity = 10 :=
  ⟨(NewNotifier_spec { TimeoutToPublish := 5 }).2.2.2 (by decide) (by decide),
    (NewNotifier_spec { TimeoutToPublish := 0 }).2.2.1 (by decide),
    (NewNotifier_spec { TimeoutToPublish := 5 }).1⟩

/-! ## The relational storage -/

/-- C26 fails on the code for an id without a row: when the scan yields
`sql.ErrNoRows`, `Storage.GetByID` returns the player built from the zero
`dbPlayer`, not an absent player, with no error; a `Service.Delete` on that
storage answer then calls `storage.Delete` and the notifier and returns no
error instead of `ErrPlayerDoesNotExist`. The other two parts hold: a found
row yields that row's player, another scan error yields an error. -/
theorem Storage.GetByID_no_rows :
    Storage.GetByID .noRows = .ok (some dbPlayer.zero.toPlayer) ∧
    (Service.Delete (mockEnv (relationalMocks .noRows)) ⟨0xb10d6af522f34db2ade694cfcc819f91⟩
      mockStart).1 = .ok () ∧
    newCalls mockStart (Service.Delete (mockEnv (relationalMocks .noRows))
      ⟨0xb10d6af522f34db2ade694cfcc819f91⟩ mockStart).2 =
      [Call.GetByID ⟨0xb10d6af522f34db2ade694cfcc819f91⟩,
        Call.Delete ⟨0xb10d6af522f34db2ade694cfcc819f91⟩,
        Call.Notify ⟨"b10d6af5-22f3-4db2-ade6-94cfcc819f91", "player was deleted"⟩] ∧
    (∀ found, Storage.GetByID (.row found) = .ok (some found.toPlayer)) ∧
    (∀ err, Storage.GetByID (.failed err) = .error errPlayerCannotBeRead) :=
  ⟨rfl, rfl, by decide, fun _ => rfl, fun _ => rfl⟩

/-! ## The gRPC adapter -/

/-- An `UpdatePlayer` without a present and empty field passes `Validate`. -/
theorem UpdatePlayer.Validate_of_fields (u : UpdatePlayer) (h1 : u.FirstName ≠ some "")
    (h2 : u.LastName ≠ some "") (h3 : u.Nickname ≠ some "")
    (h4 : ∀ e, u.Email = some e → e.Address ≠ "") (h5 : u.Country ≠ some "")
    (h6 : u.Password ≠ some "") : u.Validate = none := by
  have e1 : isStringEmpty u.FirstName = false := by
    rw [← Bool.not_eq_true, isStringEmpty_eq_true]; exact h1
  have e2 : isStringEmpty u.LastName = false := by
    rw [← Bool.not_eq_true, isStringEmpty_eq_true]; exact h2
  have e3 : isStringEmpty u.Nickname = false := by
    rw [← Bool.not_eq_true, isStringEmpty_eq_true]; exact h3
  have e5 : isStringEmpty u.Country = false := by
    rw [← Bool.not_eq_true, isStringEmpty_eq_true]; exact h5
  have e6 : isStringEmpty u.Password = false := by
    rw [← Bool.not_eq_true, isStringEmpty_eq_true]; exact h6
  unfold UpdatePlayer.Validate
  cases hE : u.Email with
  | none => simp [e1, e2, e3, e5, e6]
  | some e => simp [e1, e2, e3, e5, e6, h4 e hE]

/-- The fields of the patch `toUpdatePlayer` builds. -/
theorem toUpdatePlayer_fields (pbPlayer : UpdatePlayerRequest) (playerID : PlayerID) :
    (toUpdatePlayer pbPlayer playerID).ID = playerID ∧
    (toUpdatePlayer pbPlayer playerID).FirstName =
      (if pbPlayer.Firstname ≠ "" then some pbPlayer.Firstname else none) ∧
    (toUpdatePlayer pbPlayer playerID).LastName =
      (if pbPlayer.Lastname ≠ "" then some pbPlayer.Lastname else none) ∧
    (toUpdatePlayer pbPlayer playerID).Nickname =
      (if pbPlayer.Nickname ≠ "" then some pbPlayer.Nickname else none) ∧
    (toUpdatePlayer pbPlayer playerID).Email =
      (if pbPlayer.Email ≠ "" then some { Name := "", Address := pbPlayer.Email } else none) ∧
    (toUpdatePlayer pbPlayer playerID).Password =
      (if pbPlayer.Password ≠ "" then some pbPlayer.Password else none) ∧
    (toUpdatePlayer pbPlayer playerID).Country =
      (if pbPlayer.Country ≠ "" then some pbPlayer.Country else none) := by
  unfold toUpdatePlayer
  by_cases h1 : pbPlayer.Firstname = "" <;> by_cases h2 : pbPlayer.Lastname = "" <;>
  by_cases h3 : pbPlayer.Nickname = "" <;> by_cases h4 : pbPlayer.Email = "" <;>
  by_cases h5 : pbPlayer.Password = "" <;> by_cases h6 : pbPlayer.Country = "" <;>
  simp [h1, h2, h3, h4, h5, h6]

/-- A patch with every optional field absent makes `Service.Update` load the
player and do nothing else: the loaded player, if any, is returned as it is. -/
theorem Service.Update_all_absent (env : Env σ) (playerID : PlayerID) (s : Run σ) :
    newCalls s (Service.Update env ⟨playerID, none, none, none, none, none, none⟩ s).2 =
      [Call.GetByID playerID] ∧
    (∀ p, (Service.updateLoaded env ⟨playerID, none, none, none, none, none, none⟩ s).1 =
        .ok (some p) →
      (Service.Update env ⟨playerID, none, none, none, none, none, none⟩ s).1 = .ok p) := by
  have hcheck : Service.updateExistCheck env ⟨playerID, none, none, none, none, none, none⟩ s =
      (none, s) := rfl
  have hmerge : ∀ p t, UpdatePlayer.toPlayer env ⟨playerID, none, none, none, none, none, none⟩
      p t = (.ok { player := none, changes := false }, t) := fun p t =>
    UpdatePlayer.toPlayer_unchanged env _ p t rfl (fun _ h => nomatch h) (fun _ h => nomatch h)
      (fun _ h => nomatch h) (fun _ h => nomatch h) (fun _ h => nomatch h)
  have heq : Service.Update env ⟨playerID, none, none, none, none, none, none⟩ s =
      (match (env.callGetByID playerID s).1 with
        | .error err => .error (fmtErrorf "unable to update player: " err)
        | .ok none => .error ErrPlayerDoesNotExist
        | .ok (some player) => .ok player, (env.callGetByID playerID s).2) := by
    unfold Service.Update
    have hv : UpdatePlayer.Validate ⟨playerID, none, none, none, none, none, none⟩ = none := rfl
    simp only [hv, hcheck]
    cases hg : (env.callGetByID playerID s).1 with
    | error err => rfl
    | ok o =>
      cases o with
      | none => rfl
      | some p => simp [hmerge]
  rw [heq]
  refine ⟨newCalls_of_calls _ _ _ rfl, fun p hp => ?_⟩
  simp only [Service.updateLoaded, hcheck] at hp
  simp only [hp]

/-- C29: the `UpdatePlayer` built by `toUpdatePlayer` carries the given id
and has each field present, with the request's value, exactly when the
request's string is non-empty, and absent otherwise; it always passes
`UpdatePlayer.Validate`; and for a request with only a player id the patch has
every field absent, `Service.Update` only loads the player and returns the
loaded player as it is. -/
theorem toUpdatePlayer_spec (pbPlayer : UpdatePlayerRequest) (playerID : PlayerID) :
    ((toUpdatePlayer pbPlayer playerID).ID = playerID ∧
      (toUpdatePlayer pbPlayer playerID).FirstName =
        (if pbPlayer.Firstname ≠ "" then some pbPlayer.Firstname else none) ∧
      (toUpdatePlayer pbPlayer playerID).LastName =
        (if pbPlayer.Lastname ≠ "" then some pbPlayer.Lastname else none) ∧
      (toUpdatePlayer pbPlayer playerID).Nickname =
        (if pbPlayer.Nickname ≠ "" then some pbPlayer.Nickname else none) ∧
      (toUpdatePlayer pbPlayer playerID).Email =
        (if pbPlayer.Email ≠ "" then some { Name := "", Address := pbPlayer.Email } else none) ∧
      (toUpdatePlayer pbPlayer playerID).Password =
        (if pbPlayer.Password ≠ "" then some pbPlayer.Password else none) ∧
      (toUpdatePlayer pbPlayer playerID).Country =
        (if pbPlayer.Country ≠ "" then some pbPlayer.Country else none)) ∧
    (toUpdatePlayer pbPlayer playerID).Validate = none ∧
    ((pbPlayer.Firstname = "" ∧ pbPlayer.Lastname = "" ∧ pbPlayer.Nickname = "" ∧
        pbPlayer.Email = "" ∧ pbPlayer.Password = "" ∧ pbPlayer.Country = "") →
      toUpdatePlayer pbPlayer playerID = ⟨playerID, none, none, none, none, none, none⟩ ∧
      ∀ (τ : Type) (env : Env τ) (s : Run τ),
        newCalls s (Service.Update env (toUpdatePlayer pbPlayer playerID) s).2 =
          [Call.GetByID playerID] ∧
        ∀ p, (Service.updateLoaded env (toUpdatePlayer pbPlayer playerID) s).1 =
            .ok (some p) →
          (Service.Update env (toUpdatePlayer pbPlayer playerID) s).1 = .ok p) := by
  have hf := toUpdatePlayer_fields pbPlayer playerID
  obtain ⟨fid, ffn, fln, fnn, fem, fpw, fco⟩ := hf
  refine ⟨⟨fid, ffn, fln, fnn, fem, fpw, fco⟩, ?_, ?_⟩
  · apply UpdatePlayer.Validate_of_fields
    · rw [ffn]
      by_cases h : pbPlayer.Firstname = "" <;> simp [h]
    · rw [fln]
      by_cases h : pbPlayer.Lastname = "" <;> simp [h]
    · rw [fnn]
      by_cases h : pbPlayer.Nickname = "" <;> simp [h]
    · intro e he
      rw [fem] at he
      by_cases h : pbPlayer.Email = ""
      · simp [h] at he
      · simp only [ne_eq, h, not_false_eq_true, if_true, Option.some.injEq] at he
        rw [← he]
        exact h
    · rw [fco]
      by_cases h : pbPlayer.Country = "" <;> simp [h]
    · rw [fpw]
      by_cases h : pbPlayer.Password = "" <;> simp [h]
  · rintro ⟨h1, h2, h3, h4, h5, h6⟩
    have hall : toUpdatePlayer pbPlayer playerID =
        ⟨playerID, none, none, none, none, none, none⟩ := by
      unfold toUpdatePlayer
      simp [h1, h2, h3, h4, h5, h6]
    rw [hall]
    exact ⟨rfl, fun τ env s => Service.Update_all_absent env playerID s⟩

/-- C29 on a request with a player id, a nickname and nothing else, and on a
request with a player id only. -/
theorem toUpdatePlayer_spec_witness :
    toUpdatePlayer ⟨"b10d6af5-22f3-4db2-ade6-94cfcc819f91", "", "", "jraynor", "", "", ""⟩
      ⟨0xb10d6af522f34db2ade694cfcc819f91⟩ =
        ⟨⟨0xb10d6af522f34db2ade694cfcc819f91⟩, none, none, some "jraynor", none, none, none⟩ ∧
    (Service.Update (mockEnv (updateMocks (some storedPlayer) ⟨false, false⟩ none))
      (toUpdatePlayer ⟨"b10d6af5-22f3-4db2-ade6-94cfcc819f91", "", "", "", "", "", ""⟩
        ⟨0xb10d6af522f34db2ade694cfcc819f91⟩) mockStart).1 = .ok storedPlayer :=
  ⟨by decide,
    (((toUpdatePlayer_spec ⟨"b10d6af5-22f3-4db2-ade6-94cfcc819f91", "", "", "", "", "", ""⟩
      ⟨0xb10d6af522f34db2ade694cfcc819f91⟩).2.2 ⟨rfl, rfl, rfl, rfl, rfl, rfl⟩).2 Unit
        (mockEnv (updateMocks (some storedPlayer) ⟨false, false⟩ none)) mockStart).2
          storedPlayer rfl⟩

/-- A criteria that is not empty for `isEmpty` makes `Service.List` call
`storage.Search` once, with the criteria after the default pagination. -/
theorem Service.List_search_call (env : Env σ) (searchCriteria : SearchCriteria) (s : Run σ)
    (hne : searchCriteria.isEmpty = false) :
    newCalls s (Service.List env searchCriteria s).2 =
      [Call.Search searchCriteria.setDefaultPaginationIfEmpty] := by
  unfold Service.List
  simp only [hne, Bool.false_eq_true, if_false]
  cases hr : (env.callSearch searchCriteria.setDefaultPaginationIfEmpty s).1 <;>
    exact newCalls_of_calls _ _ _ rfl

/-- C30: `toSearchCriteria` yields a criteria whose country is present and
holds the request's country, and whose limit and offset are the request's
values reduced modulo 2^16; hence a request with a non-empty country and a
limit that is a multiple of 65536 reaches `storage.Search` with limit 5, and
a request with an empty country is answered with the empty result without a
storage call. -/
theorem toSearchCriteria_spec (request : SearchPlayersRequest) :
    (toSearchCriteria request).Country = some request.Country ∧
    (toSearchCriteria request).Limit = request.Limit % 65536 ∧
    (toSearchCriteria request).Offset = request.Offset % 65536 ∧
    (∀ (τ : Type) (env : Env τ) (s : Run τ), request.Country ≠ "" →
      request.Limit % 65536 = 0 →
      newCalls s (Service.List env (toSearchCriteria request) s).2 =
        [Call.Search { Country := some request.Country, Limit := 5,
                       Offset := request.Offset % 65536 }]) ∧
    (∀ (τ : Type) (env : Env τ) (s : Run τ), request.Country = "" →
      Service.List env (toSearchCriteria request) s = (.ok (some newEmptySearchResult), s)) := by
  refine ⟨rfl, rfl, rfl, ?_, ?_⟩
  · intro τ env s hc hl
    rw [Service.List_search_call env _ s
      (SearchCriteria.isEmpty_of_country _ request.Country rfl hc)]
    have hlim : (toSearchCriteria request).Limit = 0 := hl
    simp only [SearchCriteria.setDefaultPaginationIfEmpty, hlim, if_true]
    rfl
  · intro τ env s hc
    exact Service.List_empty_country env _ s (by rw [← hc]; rfl)

/-- C30 on a request for country "UK" with limit 65536 and offset 65537: the
storage is asked with limit 5 and offset 1. -/
theorem toSearchCriteria_spec_witness :
    toSearchCriteria ⟨"UK", 65536, 65537⟩ = ⟨some "UK", 0, 1⟩ ∧
    newCalls mockStart (Service.List
      (mockEnv (searchMocks (.ok (some ⟨SearchPlayersResultFixture, 27, 5, 1⟩))))
      (toSearchCriteria ⟨"UK", 65536, 65537⟩) mockStart).2 =
      [Call.Search { Country := some "UK", Limit := 5, Offset := 1 }] :=
  ⟨by decide,
    (toSearchCriteria_spec ⟨"UK", 65536, 65537⟩).2.2.2.1 Unit
      (mockEnv (searchMocks (.ok (some ⟨SearchPlayersResultFixture, 27, 5, 1⟩)))) mockStart
      (by decide) (by decide)⟩

end Players
